import Mathlib

/-!
Verification development for the g4emi configuration / macro-command pipeline.

The Python sources embedded here:
- `src/config/ConfigIO.py`   : macro command generation and macro import for the
  hierarchical configuration schema (`outputCommands`, `geometryCommands`,
  `macCommands`, `fromMacLines`, `resolveSensitiveDetectorDiameterMm`, ...).
- `src/config/SimConfig.py`  : the flat configuration schema (geometry
  invariants, aperture/diameter resolution, `geometry_commands`, in-place
  macro patching).
- `src/optics/LensModels.py` : the Zemax `.zmx` prescription parser.

Modelling conventions:
- Python floats are embedded as exact rationals (`ℚ`).  `format(x, 'g')` and
  `format(x, '.3f')` are modelled exactly on rationals (6 significant digits,
  respectively 3 decimals, ties rounded half-to-even); Python applies the same
  decimal rounding to the IEEE double nearest the value.  Negative-zero
  artefacts of IEEE floats (`'-0'`) do not exist on `ℚ` and are not modelled.
- `float(...)` string parsing is modelled for finite decimal/exponent forms;
  Python's additional spellings (`inf`, `nan`, underscore separators) are not
  modelled (lines using them fail to parse in the model).
- File contents are lists of lines (`List String`); the I/O wrappers
  (reading/writing the file) are outside the model.
- `shlex.split(line, comments=False, posix=True)` is modelled as
  whitespace-splitting, which coincides with it on lines free of quote and
  backslash characters (all inputs considered by the theorems below).
-/

deriving instance DecidableEq for Except

namespace G4emi

/-! ### Python string primitives -/

/-- Python whitespace for `str.strip` / `str.split` / `shlex`
(space, tab, newline, carriage return, vertical tab, form feed). -/
def isPySpace (c : Char) : Bool :=
  c == ' ' || c == '\t' || c == '\n' || c == '\r' || c == '\x0b' || c == '\x0c'

/-- `str.strip()` on a character list. -/
def pyStripL (l : List Char) : List Char :=
  ((l.dropWhile isPySpace).reverse.dropWhile isPySpace).reverse

/-- `str.strip()`. -/
def pyStrip (s : String) : String := String.mk (pyStripL s.data)

/-- `str.lower()` (ASCII case mapping suffices for the strings involved). -/
def pyLower (s : String) : String := String.mk (s.data.map Char.toLower)

/-- `str.upper()` (ASCII case mapping suffices for the strings involved). -/
def pyUpper (s : String) : String := String.mk (s.data.map Char.toUpper)

/-- Accumulator-style whitespace splitter: `wsTokensAux l acc` splits `l` into
maximal whitespace-free runs, with `acc` the (reversed) run in progress. -/
def wsTokensAux : List Char → List Char → List (List Char)
  | [], acc => if acc.isEmpty then [] else [acc.reverse]
  | c :: cs, acc =>
    if isPySpace c then
      if acc.isEmpty then wsTokensAux cs [] else acc.reverse :: wsTokensAux cs []
    else wsTokensAux cs (c :: acc)

/-- `str.split()` with no argument (also the model of
`shlex.split(line, comments=False, posix=True)` for quote/backslash-free lines). -/
def tokenize (s : String) : List String := (wsTokensAux s.data []).map String.mk

/-- `line.strip().split()[0]` with `""` for a token-less line. -/
def leadTok (s : String) : String := (tokenize s).headD ""

/-! ### Decimal digits -/

/-- Digit value to character, `0 ↦ '0'`, ..., `9 ↦ '9'`. -/
def digChar (d : ℕ) : Char := Char.ofNat (48 + d)

/-- Character to digit value. -/
def charDig (c : Char) : ℕ := c.toNat - 48

/-- Fuelled little-endian base-10 digit extraction (structurally recursive so
that the kernel can evaluate it; agrees with `Nat.digits 10` — see
`natDigits10_eq_digits`). -/
def natDigitsAux : ℕ → ℕ → List ℕ
  | 0, _ => []
  | _ + 1, 0 => []
  | fuel + 1, n + 1 => ((n + 1) % 10) :: natDigitsAux fuel ((n + 1) / 10)

/-- Little-endian base-10 digits of `n` (`[]` for `0`). -/
def natDigits10 (n : ℕ) : List ℕ := natDigitsAux n n

/-- Decimal digit characters of `n`, most significant first (`[]` for `0`). -/
def natDigitChars (n : ℕ) : List Char := ((natDigits10 n).map digChar).reverse

/-- Decimal digit characters of `n`, most significant first, `"0"` for `0`. -/
def natStrChars (n : ℕ) : List Char := if n = 0 then ['0'] else natDigitChars n

/-- Numeric value of a digit-character list (most significant first). -/
def digitsValNat (l : List Char) : ℕ := Nat.ofDigits 10 ((l.map charDig).reverse)

/-- Strip trailing `'0'` characters. -/
def stzL (l : List Char) : List Char := (l.reverse.dropWhile (fun c => c == '0')).reverse

/-- Left-pad with `'0'` to length `k`. -/
def padZeros (l : List Char) (k : ℕ) : List Char := List.replicate (k - l.length) '0' ++ l

/-! ### Exact-rational model of Python float formatting -/

/-- `(10 : ℚ) ^ e` for an integer exponent. -/
def tenPow (e : ℤ) : ℚ := (10 : ℚ) ^ e

/-- Round a rational to the nearest integer, ties to even
(the rounding used when converting binary floats to shortest decimal forms). -/
def rne (q : ℚ) : ℤ :=
  let f := ⌊q⌋
  let r := q - (f : ℚ)
  if r < 1/2 then f
  else if 1/2 < r then f + 1
  else if f % 2 = 0 then f else f + 1

/-- Fuelled `Nat.log 10` (largest `k` with `10^k ≤ n`, `0` for `n < 10`);
structurally recursive, agrees with `Nat.log 10` — see `natLog10_eq_log`. -/
def natLog10Aux : ℕ → ℕ → ℕ
  | 0, _ => 0
  | fuel + 1, n => if n < 10 then 0 else natLog10Aux fuel (n / 10) + 1

def natLog10 (n : ℕ) : ℕ := natLog10Aux n n

/-- Fuelled `Nat.clog 10` (smallest `k` with `n ≤ 10^k` for `n > 1`);
structurally recursive, agrees with `Nat.clog 10` — see `natClog10_eq_clog`. -/
def natClog10Aux : ℕ → ℕ → ℕ
  | 0, _ => 0
  | fuel + 1, n => if n ≤ 1 then 0 else natClog10Aux fuel ((n + 9) / 10) + 1

def natClog10 (n : ℕ) : ℕ := natClog10Aux n n

/-- Kernel-evaluable `Int.log 10` on rationals (agrees with `Int.log 10` —
see `qlog10_eq_log`): `⌊log₁₀ x⌋` for `x > 0`. -/
def qlog10 (x : ℚ) : ℤ :=
  if 1 ≤ x then (natLog10 ⌊x⌋₊ : ℤ) else -(natClog10 ⌈x⁻¹⌉₊ : ℤ)

/-- Decompose `x > 0` as `n * 10 ^ (e - 5)` with `n` the 6-significant-digit
rounding of the mantissa, `10^5 ≤ n < 10^6`.  Returns `(e, n)`. -/
def sigDecomp (x : ℚ) : ℤ × ℕ :=
  let e := qlog10 x
  let n := (rne (x * tenPow (5 - e))).toNat
  if n = 1000000 then (e + 1, 100000) else (e, n)

/-- Reassemble a `sigDecomp` pair into a rational. -/
def recomp6 (p : ℤ × ℕ) : ℚ := (p.2 : ℚ) * tenPow (p.1 - 5)

/-- Rounding to 6 significant decimal digits — the numeric information kept by
`format(x, 'g')`. -/
def round6 (x : ℚ) : ℚ :=
  if x = 0 then 0
  else if x < 0 then -(recomp6 (sigDecomp (-x)))
  else recomp6 (sigDecomp x)

/-- Exponent suffix of scientific `'g'` output: `e+NN` / `e-NN`,
at least two exponent digits. -/
def expChars (e : ℤ) : List Char :=
  'e' :: (if e < 0 then '-' else '+') :: padZeros (natDigitChars e.natAbs) 2

/-- Digit layout of `format(x, 'g')` for `x = n * 10 ^ (e - 5) > 0`,
`10^5 ≤ n < 10^6`: fixed notation for `-4 ≤ e < 6`, scientific otherwise,
trailing fractional zeros stripped. -/
def renderPos (e : ℤ) (n : ℕ) : List Char :=
  let D := natDigitChars n
  if -4 ≤ e ∧ e < 6 then
    if 0 ≤ e then
      let ip := D.take (e.toNat + 1)
      let fp := stzL (D.drop (e.toNat + 1))
      ip ++ (if fp.isEmpty then [] else '.' :: fp)
    else
      '0' :: '.' :: (List.replicate (-(e + 1)).toNat '0' ++ stzL D)
  else
    let m := stzL D.tail
    D.headD '0' :: ((if m.isEmpty then [] else '.' :: m) ++ expChars e)

/-- Exact-rational model of Python `format(x, 'g')` (the `f"{x:g}"` conversions
in `ConfigIO.py` / `SimConfig.py`): 6 significant digits, trailing zeros
stripped, scientific notation outside `1e-4 ≤ |x| < 1e6`. -/
def gfmt (x : ℚ) : String :=
  if x = 0 then "0"
  else if x < 0 then String.mk ('-' :: renderPos (sigDecomp (-x)).1 (sigDecomp (-x)).2)
  else String.mk (renderPos (sigDecomp x).1 (sigDecomp x).2)

/-- Exact-rational model of Python `format(x, '.3f')` (the `f"{x:.3f}"`
conversions in `SimConfig.py`): fixed three decimals, ties half-to-even. -/
def f3fmt (x : ℚ) : String :=
  let m := rne (x * 1000)
  let a := m.natAbs
  let body := natStrChars (a / 1000) ++ '.' :: padZeros (natStrChars (a % 1000)) 3
  if m < 0 then String.mk ('-' :: body) else String.mk body

/-! ### Exact-rational model of Python `float(...)` parsing -/

/-- Parse the digit run of an exponent: one or more digits, nothing else. -/
def parseExpDigits (l : List Char) : Option ℤ :=
  if (l.takeWhile Char.isDigit).isEmpty || !(l.dropWhile Char.isDigit).isEmpty then none
  else some (digitsValNat (l.takeWhile Char.isDigit) : ℤ)

/-- Parse the exponent tail after `e`/`E`: optional sign, one or more digits,
nothing else. -/
def parseExpTail (l : List Char) : Option ℤ :=
  if l.headD ' ' == '+' then parseExpDigits l.tail
  else if l.headD ' ' == '-' then (parseExpDigits l.tail).map Neg.neg
  else parseExpDigits l

/-- Split an optional fractional part `['.', d, d, ...]` off the remainder
after the integer digits. -/
def splitFrac (r1 : List Char) : List Char × List Char :=
  if r1.headD ' ' == '.' then (r1.tail.takeWhile Char.isDigit, r1.tail.dropWhile Char.isDigit)
  else ([], r1)

/-- The optional `e`/`E` exponent suffix: empty means exponent `0`. -/
def parseExpPart (l : List Char) : Option ℤ :=
  if l.isEmpty then some 0
  else if l.headD ' ' == 'e' || l.headD ' ' == 'E' then parseExpTail l.tail
  else none

/-- Unsigned core of the `float(...)` model: `digits [. digits]` or
`. digits` or `digits .`, optional `e`/`E` exponent; the whole input must be
consumed. -/
def parseUnsigned (l : List Char) : Option ℚ :=
  let ip := l.takeWhile Char.isDigit
  let fpr := splitFrac (l.dropWhile Char.isDigit)
  if ip.isEmpty && fpr.1.isEmpty then none
  else
    match parseExpPart fpr.2 with
    | none => none
    | some ex =>
      some ((digitsValNat (ip ++ fpr.1) : ℚ) / (10 : ℚ) ^ fpr.1.length * tenPow ex)

/-- The `float(...)` model on a character list: strip, optional sign,
unsigned body.  (`inf`/`nan`/underscore spellings of Python are not
modelled.) -/
def parseFloatL (l0 : List Char) : Option ℚ :=
  let l1 := pyStripL l0
  if l1.headD ' ' == '+' then parseUnsigned l1.tail
  else if l1.headD ' ' == '-' then (parseUnsigned l1.tail).map Neg.neg
  else parseUnsigned l1

/-- Model of Python `float(s)` for finite decimal forms. -/
def parseFloatQ (s : String) : Option ℚ := parseFloatL s.data

/-- `math.isclose(a, b, rel_tol=0.0, abs_tol=1.0e-9)`. -/
def isClose9 (a b : ℚ) : Bool := |a - b| ≤ 1/1000000000

/-! ### Hierarchical configuration (the schema consumed by `ConfigIO.py`)

`ConfigIO.py` imports a hierarchical pydantic `SimConfig` whose definition is
not part of the sources here (only this caller is).  The record below carries
exactly the fields `ConfigIO.py` reads and writes, with names following the
payload paths used there (e.g. `scint_x_mm` for
`scintillator["dimension_mm"]["x_mm"]`, `det_shape` for
`optical["sensitive_detector_config"]["shape"]`). -/

structure HConfig where
  /-- `metadata.output_info.output_format` -/
  output_format : String
  /-- `metadata.output_info.data_directory` -/
  data_directory : String
  /-- `metadata.simulation_run_id` -/
  simulation_run_id : String
  /-- `metadata.working_directory` -/
  working_directory : String
  /-- `scintillator.properties.name` -/
  material_name : String
  scint_x_mm : ℚ
  scint_y_mm : ℚ
  scint_z_mm : ℚ
  scint_pos_x_mm : ℚ
  scint_pos_y_mm : ℚ
  scint_pos_z_mm : ℚ
  /-- `optical.geometry.entrance_diameter` -/
  entrance_diameter : ℚ
  /-- `optical.geometry.sensor_max_width` -/
  sensor_max_width : ℚ
  /-- `optical.sensitive_detector_config.shape` -/
  det_shape : String
  /-- `optical.sensitive_detector_config.diameter_rule` -/
  diameter_rule : String
  det_pos_x_mm : ℚ
  det_pos_y_mm : ℚ
  det_pos_z_mm : ℚ
deriving DecidableEq, Repr

namespace ConfigIo

/-- `_normalize_output_format_token`. -/
def normalizeOutputFormatToken (v : String) : String :=
  let token := pyLower (pyStrip v)
  if token = "h5" then "hdf5" else token

/-- Abstract absolute repository-root directory used by
`utilsConfig.repo_root()`.  The concrete filesystem location is irrelevant to
the theorems; only absoluteness matters. -/
def repoRootStr : String := "/repoRoot"

/-- Is the path string absolute (POSIX)? -/
def isAbsStr (s : String) : Bool := s.data.headD ' ' == '/'

/-- `utilsConfig.resolve_path(p, base_directory=base)` for an absolute `base`:
absolute inputs are returned as-is, relative ones are joined to `base`.
(`~`-expansion and `Path.resolve()` symlink/`..` normalization are outside the
model; inputs are taken as already normalized.) -/
def resolvePathM (p : String) (base : String) : String :=
  if isAbsStr p then p else base ++ "/" ++ p

/-- `_working_directory`: `resolve_path(metadata.working_directory)`
(anchored at the repository root when relative). -/
def workingDirRes (c : HConfig) : String := resolvePathM c.working_directory repoRootStr

/-- `resolve_data_directory`. -/
def resolveDataDirectory (c : HConfig) : String :=
  resolvePathM c.data_directory (workingDirRes c)

/-- `output_commands`. -/
def outputCommands (c : HConfig) : List String :=
  ["/output/format " ++ normalizeOutputFormatToken c.output_format,
   "/output/path " ++ resolveDataDirectory c,
   "/output/filename photon_optical_interface_hits",
   "/output/runname " ++ c.simulation_run_id]

/-- The `min(entranceDiameter,sensorMaxWidth)` rule string. -/
def ruleMinStr : String := "min(entranceDiameter,sensorMaxWidth)"

/-- `rule.replace(" ", "")`: remove every space character. -/
def stripSpaces0 (s : String) : String := String.mk (s.data.filter (fun c => !(c == ' ')))

/-- `_resolve_sensitive_detector_diameter_mm` (the local `rule` variable of
the Python is inlined). -/
def resolveSensitiveDetectorDiameterMm (c : HConfig) : Except String ℚ :=
  if stripSpaces0 c.diameter_rule = ruleMinStr then
    .ok (min c.entrance_diameter c.sensor_max_width)
  else if stripSpaces0 c.diameter_rule = "entranceDiameter" then .ok c.entrance_diameter
  else if stripSpaces0 c.diameter_rule = "sensorMaxWidth" then .ok c.sensor_max_width
  else .error ("Unsupported `optical.sensitiveDetectorConfig.diameterRule`: " ++
    c.diameter_rule ++ ". Supported rules: min(entranceDiameter,sensorMaxWidth), " ++
    "entranceDiameter, sensorMaxWidth.")

/-- `DEFAULT_OPTICAL_INTERFACE_THICKNESS_MM`. -/
def defaultOpticalInterfaceThicknessMm : ℚ := 1/10

/-- `geometry_commands` (hierarchical).  The Python raises out of the aperture
branch, discarding the locally built list; modelled by `Except`. -/
def geometryCommands (c : HConfig) : Except String (List String) :=
  let base :=
    ["/scintillator/geom/material " ++ c.material_name,
     "/scintillator/geom/scintX " ++ gfmt c.scint_x_mm ++ " mm",
     "/scintillator/geom/scintY " ++ gfmt c.scint_y_mm ++ " mm",
     "/scintillator/geom/scintZ " ++ gfmt c.scint_z_mm ++ " mm",
     "/scintillator/geom/posX " ++ gfmt c.scint_pos_x_mm ++ " mm",
     "/scintillator/geom/posY " ++ gfmt c.scint_pos_y_mm ++ " mm",
     "/scintillator/geom/posZ " ++ gfmt c.scint_pos_z_mm ++ " mm"]
  let tail :=
    ["/optical_interface/geom/sizeX " ++ gfmt c.entrance_diameter ++ " mm",
     "/optical_interface/geom/sizeY " ++ gfmt c.entrance_diameter ++ " mm",
     "/optical_interface/geom/thickness " ++ gfmt defaultOpticalInterfaceThicknessMm ++ " mm",
     "/optical_interface/geom/posX " ++ gfmt c.det_pos_x_mm ++ " mm",
     "/optical_interface/geom/posY " ++ gfmt c.det_pos_y_mm ++ " mm",
     "/optical_interface/geom/posZ " ++ gfmt c.det_pos_z_mm ++ " mm"]
  if pyLower (pyStrip c.det_shape) = "circle" then
    match resolveSensitiveDetectorDiameterMm c with
    | .error e => .error e
    | .ok d =>
      .ok (base ++ ["/scintillator/geom/apertureRadius " ++ gfmt ((1/2) * d) ++ " mm"] ++ tail)
  else .ok (base ++ tail)

/-- `macro_commands`: optional output block, geometry block, optional
`/run/initialize`. -/
def macCommands (c : HConfig) (includeOutput : Bool) (includeRunInitialize : Bool) :
    Except String (List String) :=
  match geometryCommands c with
  | .error e => .error e
  | .ok g =>
    .ok ((if includeOutput then outputCommands c else []) ++ g ++
      (if includeRunInitialize then ["/run/initialize"] else []))

/-- `_LENGTH_UNIT_TO_MM`. -/
def lengthUnitToMm (u : String) : Option ℚ :=
  let k := pyLower (pyStrip u)
  if k = "nm" || k = "nanometer" || k = "nanometers" then some (1/1000000)
  else if k = "um" || k = "micrometer" || k = "micrometers" then some (1/1000)
  else if k = "mm" || k = "millimeter" || k = "millimeters" then some 1
  else if k = "cm" || k = "centimeter" || k = "centimeters" then some 10
  else if k = "m" || k = "meter" || k = "meters" then some 1000
  else none

/-- `_parse_length_tokens`: `<command> <value> <unit>` to millimeters. -/
def parseLengthTokens (tokens : List String) (cmd : String) : Except String ℚ :=
  if tokens.length < 3 then
    .error ("Command '" ++ cmd ++ "' requires '<value> <unit>' tokens.")
  else
    match parseFloatQ ((tokens.get? 1).getD "") with
    | none => .error ("Command '" ++ cmd ++ "' has non-numeric value token.")
    | some v =>
      match lengthUnitToMm ((tokens.get? 2).getD "") with
      | none => .error ("Unsupported length unit '" ++ (tokens.get? 2).getD "" ++ "'.")
      | some f => .ok (v * f)

/-- Mutable state of the `from_macro` line loop: the template payload being
overwritten plus the four local accumulators of the Python function. -/
structure MacState where
  cfg : HConfig
  size_x_mm : Option ℚ
  size_y_mm : Option ℚ
  aperture_radius_mm : Option ℚ
  parsed_thickness_mm : Option ℚ
deriving Repr

/-- Field-update helpers for the decode loop (one per recognized command);
keeping them as named functions keeps the dispatch term small. -/
def setFmt (st : MacState) (v : String) : MacState := { st with cfg.output_format := v }

def setDir (st : MacState) (v : String) : MacState := { st with cfg.data_directory := v }

def setRunId (st : MacState) (v : String) : MacState := { st with cfg.simulation_run_id := v }

def setMaterial (st : MacState) (v : String) : MacState := { st with cfg.material_name := v }

def setScintX (st : MacState) (v : ℚ) : MacState := { st with cfg.scint_x_mm := v }

def setScintY (st : MacState) (v : ℚ) : MacState := { st with cfg.scint_y_mm := v }

def setScintZ (st : MacState) (v : ℚ) : MacState := { st with cfg.scint_z_mm := v }

def setScintPosX (st : MacState) (v : ℚ) : MacState := { st with cfg.scint_pos_x_mm := v }

def setScintPosY (st : MacState) (v : ℚ) : MacState := { st with cfg.scint_pos_y_mm := v }

def setScintPosZ (st : MacState) (v : ℚ) : MacState := { st with cfg.scint_pos_z_mm := v }

def setAperture (st : MacState) (v : ℚ) : MacState := { st with aperture_radius_mm := some v }

def setSizeX (st : MacState) (v : ℚ) : MacState := { st with size_x_mm := some v }

def setSizeY (st : MacState) (v : ℚ) : MacState := { st with size_y_mm := some v }

def setThickness (st : MacState) (v : ℚ) : MacState := { st with parsed_thickness_mm := some v }

def setDetPosX (st : MacState) (v : ℚ) : MacState := { st with cfg.det_pos_x_mm := v }

def setDetPosY (st : MacState) (v : ℚ) : MacState := { st with cfg.det_pos_y_mm := v }

def setDetPosZ (st : MacState) (v : ℚ) : MacState := { st with cfg.det_pos_z_mm := v }

/-- Token dispatch of one `from_macro` loop iteration (the body following
the comment/blank check, on the `shlex.split` tokens). -/
def macStepTokens (st : MacState) (tokens : List String) : Except String MacState :=
  match tokens with
  | [] => .ok st
  | command :: _ =>
      if command = "/output/format" ∧ 2 ≤ tokens.length then
        .ok (setFmt st (pyLower (pyStrip ((tokens.get? 1).getD ""))))
      else if command = "/output/path" ∧ 2 ≤ tokens.length then
        .ok (setDir st ((tokens.get? 1).getD ""))
      else if command = "/output/runname" ∧ 2 ≤ tokens.length then
        .ok (setRunId st ((tokens.get? 1).getD ""))
      else if command = "/scintillator/geom/material" ∧ 2 ≤ tokens.length then
        .ok (setMaterial st ((tokens.get? 1).getD ""))
      else if command = "/scintillator/geom/scintX" then
        (parseLengthTokens tokens command).map (setScintX st)
      else if command = "/scintillator/geom/scintY" then
        (parseLengthTokens tokens command).map (setScintY st)
      else if command = "/scintillator/geom/scintZ" then
        (parseLengthTokens tokens command).map (setScintZ st)
      else if command = "/scintillator/geom/posX" then
        (parseLengthTokens tokens command).map (setScintPosX st)
      else if command = "/scintillator/geom/posY" then
        (parseLengthTokens tokens command).map (setScintPosY st)
      else if command = "/scintillator/geom/posZ" then
        (parseLengthTokens tokens command).map (setScintPosZ st)
      else if command = "/scintillator/geom/apertureRadius" then
        (parseLengthTokens tokens command).map (setAperture st)
      else if command = "/optical_interface/geom/sizeX" then
        (parseLengthTokens tokens command).map (setSizeX st)
      else if command = "/optical_interface/geom/sizeY" then
        (parseLengthTokens tokens command).map (setSizeY st)
      else if command = "/optical_interface/geom/thickness" then
        (parseLengthTokens tokens command).map (setThickness st)
      else if command = "/optical_interface/geom/posX" then
        (parseLengthTokens tokens command).map (setDetPosX st)
      else if command = "/optical_interface/geom/posY" then
        (parseLengthTokens tokens command).map (setDetPosY st)
      else if command = "/optical_interface/geom/posZ" then
        (parseLengthTokens tokens command).map (setDetPosZ st)
      else .ok st

/-- One iteration of the `from_macro` line loop. -/
def macStep (st : MacState) (rawLine : String) : Except String MacState :=
  if (pyStrip rawLine).data.isEmpty || (pyStrip rawLine).data.headD ' ' == '#' then .ok st
  else macStepTokens st (tokenize (pyStrip rawLine))

/-- Modelled from the spec: `SimConfig.model_validate` of the hierarchical
pydantic schema, which is not among the sources (only its caller
`ConfigIO.py` is).  Spec invariants on the fields carried here: strictly
positive extents and envelope diameters; resolved detector diameter defined
(supported rule) and strictly positive; when the detector shape is circular,
the implied aperture radius (half the resolved diameter) at most half the
scintillator face diagonal — stated on squares to stay within rationals,
`(2r)^2 ≤ x^2 + y^2` iff `r ≤ (1/2)·hypot(x,y)` for `r ≥ 0`; detector centre
strictly beyond the scintillator back face. -/
def hValidate (c : HConfig) : Bool :=
  decide (0 < c.scint_x_mm) && decide (0 < c.scint_y_mm) && decide (0 < c.scint_z_mm) &&
  decide (0 < c.entrance_diameter) && decide (0 < c.sensor_max_width) &&
  (match resolveSensitiveDetectorDiameterMm c with
   | .error _ => false
   | .ok d =>
     decide (0 < d) &&
     (!(pyLower (pyStrip c.det_shape) = "circle") ||
       decide (d ^ 2 ≤ c.scint_x_mm ^ 2 + c.scint_y_mm ^ 2))) &&
  decide (c.scint_pos_z_mm + c.scint_z_mm / 2 < c.det_pos_z_mm)

/-- Aperture reconciliation of `from_macro` (the block following the size
checks): record the entrance diameter, then encode a parsed aperture radius
into detector shape, diameter rule and sensor width (choosing a rule that
reproduces the radius exactly), or mark the detector non-circular when no
aperture command was seen; finish with the schema validation.
With a template payload the `sensor_max_width` key always exists, so the
Python `setdefault` on it never fires and is not modelled. -/
def macFinishAperture (st : MacState) (entrance : Option ℚ) : Except String HConfig :=
  let cfg1 :=
    match entrance with
    | some e => { st.cfg with entrance_diameter := e }
    | none => st.cfg
  let cfg2 :=
    match st.aperture_radius_mm with
    | some ar =>
      let desired := 2 * ar
      let base := { cfg1 with det_shape := "circle" }
      match entrance with
      | none =>
        { base with entrance_diameter := desired, sensor_max_width := desired,
                    diameter_rule := ruleMinStr }
      | some e =>
        if desired ≤ e + 1/1000000000 then
          { base with sensor_max_width := desired, diameter_rule := ruleMinStr }
        else
          { base with sensor_max_width := desired, diameter_rule := "sensorMaxWidth" }
    | none =>
      let base := { cfg1 with det_shape := "none", diameter_rule := "entranceDiameter" }
      match entrance with
      | some e => { base with sensor_max_width := e }
      | none => base
  if hValidate cfg2 then .ok cfg2 else .error "SimConfig validation failed."

/-- Size reconciliation of `from_macro`: conflicting sizeX/sizeY values are a
fatal error; otherwise whichever is present becomes the entrance diameter. -/
def macFinishSizes (st : MacState) : Except String HConfig :=
  match st.size_x_mm, st.size_y_mm with
  | some sx, some sy =>
    if !(isClose9 sx sy) then
      .error "Loaded macro has non-circular optical-interface size."
    else macFinishAperture st (some sx)
  | some sx, none => macFinishAperture st (some sx)
  | none, some sy => macFinishAperture st (some sy)
  | none, none => macFinishAperture st none

/-- Post-loop reconciliation of `from_macro`: thickness conflict check, then
size and aperture reconciliation and final validation. -/
def macFinish (st : MacState) : Except String HConfig :=
  match st.parsed_thickness_mm with
  | some t =>
    if !(isClose9 t defaultOpticalInterfaceThicknessMm) then
      .error "Loaded macro uses an optical-interface thickness not modelled by SimConfig."
    else macFinishSizes st
  | none => macFinishSizes st

/-- `from_macro` on file content given as lines, with an explicit template
(the `template=...` argument; the file-existence check and default template
construction are outside the model). -/
def fromMacLines (lines : List String) (template : HConfig) : Except String HConfig :=
  let st0 : MacState :=
    { cfg := template, size_x_mm := none, size_y_mm := none,
      aperture_radius_mm := none, parsed_thickness_mm := none }
  match lines.foldlM macStep st0 with
  | .error e => .error e
  | .ok st => macFinish st

end ConfigIo

/-! ### Flat configuration (`src/config/SimConfig.py`) -/

/-- Parsed lens values consumed by the flat `SimConfig` (the `LensModel`
fields it reads).  `SimConfig.lens_models()` re-parses the `.zmx` files on
each call; the file-system round trip is abstracted to the parsed values. -/
structure LensRec where
  clear_diameter_mm : ℚ
  image_circle_diameter_mm : ℚ
deriving DecidableEq, Repr

/-- The flat `SimConfig` schema, numeric fields as exact rationals.
`lensModels` stands for the lens list together with the models
`load_lens_models` would parse for it; `revSetting` is the
`bool | list[bool]` orientation field. -/
structure FlatConfig where
  lensModels : List LensRec
  revSetting : Sum Bool (List Bool)
  scint_material : String
  scint_x_cm : ℚ
  scint_y_cm : ℚ
  scint_z_cm : ℚ
  scint_pos_x_cm : ℚ
  scint_pos_y_cm : ℚ
  scint_pos_z_cm : ℚ
  optical_interface_thickness_mm : ℚ
  optical_interface_pos_x_cm : ℚ
  optical_interface_pos_y_cm : ℚ
  scint_back_to_optical_interface_mm : ℚ
  optical_interface_diameter_mm : Option ℚ
  use_aperture_mask : Bool
  aperture_radius_mm : Option ℚ
deriving DecidableEq, Repr

namespace SimCfg

/-- `lens_reversed_flags`: a scalar flag is duplicated per lens, a list is
returned as-is. -/
def lensReversedFlags (c : FlatConfig) : List Bool :=
  match c.revSetting with
  | .inl b => List.replicate c.lensModels.length b
  | .inr l => l

/-- `primary_lens`: `lens_models()[0]` (validation guarantees at least one
lens; the default is never reached on validated configurations). -/
def primaryLens (c : FlatConfig) : LensRec := c.lensModels.headD ⟨0, 0⟩

/-- `primary_lens_is_reversed`: `lens_reversed_flags()[0]`. -/
def primaryLensIsReversed (c : FlatConfig) : Bool := (lensReversedFlags c).headD false

/-- `default_optical_interface_diameter_mm`. -/
def defaultOpticalInterfaceDiameterMm (c : FlatConfig) : ℚ :=
  if primaryLensIsReversed c then (primaryLens c).image_circle_diameter_mm
  else (primaryLens c).clear_diameter_mm

/-- `resolved_optical_interface_diameter_mm`. -/
def resolvedOpticalInterfaceDiameterMm (c : FlatConfig) : ℚ :=
  match c.optical_interface_diameter_mm with
  | some d => d
  | none => defaultOpticalInterfaceDiameterMm c

/-- `resolved_aperture_radius_mm`. -/
def resolvedApertureRadiusMm (c : FlatConfig) : Option ℚ :=
  if !c.use_aperture_mask then none
  else
    match c.aperture_radius_mm with
    | some r => some r
    | none => some ((1/2) * resolvedOpticalInterfaceDiameterMm c)

/-- `_scint_back_face_z_mm`. -/
def scintBackFaceZmm (c : FlatConfig) : ℚ :=
  c.scint_pos_z_cm * 10 + (1/2) * c.scint_z_cm * 10

/-- `optical_interface_center_z_mm`. -/
def opticalInterfaceCenterZmm (c : FlatConfig) : ℚ :=
  let scintCenterZ := c.scint_pos_z_cm * 10
  let scintHalfThickness := (1/2) * c.scint_z_cm * 10
  let halfThickness := (1/2) * c.optical_interface_thickness_mm
  scintCenterZ + scintHalfThickness + c.scint_back_to_optical_interface_mm + halfThickness

/-- Structured geometry-validation errors.  The Python raises `ValueError`
with a formatted message; the aperture message interpolates the half-diagonal
`0.5*hypot(...)`, an irrational number, so the error is modelled structurally,
carrying the offending radius and the squared half-diagonal
`((10x)^2 + (10y)^2) / 4` that determines the reported limit. -/
inductive GeomErr where
  | diamNonpos (d : ℚ)
  | apertureExceedsHalfDiag (radius_mm : ℚ) (halfDiagSq_mm2 : ℚ)
  | centerNotBeyondBackFace (center_mm : ℚ) (backFace_mm : ℚ)
deriving DecidableEq, Repr

/-- The square of the code's aperture limit `scint_half_diag_mm =
0.5*math.hypot(10x, 10y)`. -/
def halfDiagSqOf (c : FlatConfig) : ℚ :=
  ((10 * c.scint_x_cm) ^ 2 + (10 * c.scint_y_cm) ^ 2) / 4

/-- The final placement check of `_validate_geometry_invariants`. -/
def centerCheck (c : FlatConfig) : Except GeomErr Unit :=
  if opticalInterfaceCenterZmm c ≤ scintBackFaceZmm c then
    .error (.centerNotBeyondBackFace (opticalInterfaceCenterZmm c) (scintBackFaceZmm c))
  else .ok ()

/-- `_validate_geometry_invariants`.  The Python aperture test is
`r > 0.5*math.hypot(10x, 10y)`; since `0.5*hypot(10x,10y) = √S` with
`S = halfDiagSqOf c ≥ 0`, that test is equivalent to `0 < r ∧ S < r^2`,
the rational form used here. -/
def validateGeometryInvariants (c : FlatConfig) : Except GeomErr Unit :=
  if resolvedOpticalInterfaceDiameterMm c ≤ 0 then
    .error (.diamNonpos (resolvedOpticalInterfaceDiameterMm c))
  else
    match resolvedApertureRadiusMm c with
    | some r =>
      if 0 < r ∧ halfDiagSqOf c < r ^ 2 then
        .error (.apertureExceedsHalfDiag r (halfDiagSqOf c))
      else centerCheck c
    | none => centerCheck c

/-- `geometry_commands` (flat schema): scintillator block in centimetres,
optional aperture line, interface block; derived placements use fixed
three-decimal formatting, plain fields the general format. -/
def geometryCommandsF (c : FlatConfig) : List String :=
  ["/scintillator/geom/material " ++ c.scint_material,
   "/scintillator/geom/scintX " ++ gfmt c.scint_x_cm ++ " cm",
   "/scintillator/geom/scintY " ++ gfmt c.scint_y_cm ++ " cm",
   "/scintillator/geom/scintZ " ++ gfmt c.scint_z_cm ++ " cm",
   "/scintillator/geom/posX " ++ gfmt c.scint_pos_x_cm ++ " cm",
   "/scintillator/geom/posY " ++ gfmt c.scint_pos_y_cm ++ " cm",
   "/scintillator/geom/posZ " ++ gfmt c.scint_pos_z_cm ++ " cm"] ++
  (match resolvedApertureRadiusMm c with
   | some r => ["/scintillator/geom/apertureRadius " ++ f3fmt r ++ " mm"]
   | none => []) ++
  ["/optical_interface/geom/sizeX " ++ f3fmt (resolvedOpticalInterfaceDiameterMm c) ++ " mm",
   "/optical_interface/geom/sizeY " ++ f3fmt (resolvedOpticalInterfaceDiameterMm c) ++ " mm",
   "/optical_interface/geom/thickness " ++ gfmt c.optical_interface_thickness_mm ++ " mm",
   "/optical_interface/geom/posX " ++ gfmt c.optical_interface_pos_x_cm ++ " cm",
   "/optical_interface/geom/posY " ++ gfmt c.optical_interface_pos_y_cm ++ " cm",
   "/optical_interface/geom/posZ " ++ f3fmt (opticalInterfaceCenterZmm c) ++ " mm"]

/-- `line.strip()` empty or starting with `#`. -/
def isBlankOrComment (l : String) : Bool :=
  let s := pyStripL l.data
  s.isEmpty || s.headD ' ' == '#'

/-- Deduplicate keeping first occurrences (Python dict key order under
repeated assignment). -/
def pyDedupAux (seen : List String) : List String → List String
  | [] => []
  | x :: xs => if x ∈ seen then pyDedupAux seen xs else x :: pyDedupAux (x :: seen) xs

/-- Key order of `{cmd.split()[0]: cmd for cmd in cmds}`. -/
def pyDedupFirst (l : List String) : List String := pyDedupAux [] l

/-- Value lookup of `{cmd.split()[0]: cmd for cmd in cmds}` (later commands
overwrite earlier ones with the same leading token). -/
def lookupLast (pairs : List (String × String)) (k : String) : Option String :=
  pairs.reverse.lookup k

/-- The `replacements` dict as an association list. -/
def replacementsOf (cmds : List String) : List (String × String) :=
  cmds.map (fun cmd => (leadTok cmd, cmd))

/-- One line of the replacement pass of `apply_geometry_to_macro`: comments
and blanks verbatim, recognised leading command tokens replaced by the
generated command, all other lines verbatim. -/
def replLine (repl : List (String × String)) (l : String) : String :=
  if isBlankOrComment l then l
  else
    match lookupLast repl (leadTok l) with
    | some cmd => cmd
    | none => l

/-- Did the (non-comment) line hit replacement key `p`?  Matches exactly the
lines on which the Python loop performs `replaced.add(p)`. -/
def lineHits (l : String) (p : String) : Bool :=
  !(isBlankOrComment l) && (leadTok l == p)

/-- `apply_geometry_to_macro` on file content given as lines (the read and
single-overwrite write are outside the model).  The Python loop emits, per
input line, exactly `replLine`; the `replaced` set collects the keys hit, so
`missing` filters the dict-ordered keys by "no line hits this key"; missing
commands are inserted before the first `/run/initialize` line of the output,
or appended. -/
def missingKeysOf (c : FlatConfig) (lines : List String) : List String :=
  (pyDedupFirst ((geometryCommandsF c).map leadTok)).filter
    (fun p => lines.all (fun l => !(lineHits l p)))

def outLines (c : FlatConfig) (lines : List String) : List String :=
  lines.map (replLine (replacementsOf (geometryCommandsF c)))

def insertIdx (c : FlatConfig) (lines : List String) : Nat :=
  ((outLines c lines).findIdx? (fun l => pyStrip l == "/run/initialize")).getD
    (outLines c lines).length

def applyGeometryToMacLines (c : FlatConfig) (lines : List String) : List String :=
  if (missingKeysOf c lines).isEmpty then outLines c lines
  else
    (outLines c lines).take (insertIdx c lines) ++
      (missingKeysOf c lines).filterMap
        (lookupLast (replacementsOf (geometryCommandsF c))) ++
      (outLines c lines).drop (insertIdx c lines)

end SimCfg

/-! ### Zemax prescription parser (`src/optics/LensModels.py`) -/

namespace LensM

/-- One parsed Zemax surface (`LensSurface`). -/
structure LensSurface where
  index : ℕ
  semi_diameter_mm : ℚ
  disz_to_next_mm : Option ℚ
  has_glass : Bool
deriving DecidableEq, Repr

/-- The aggregates of `LensModel` derived by `from_zmx` (name/path
bookkeeping, and the inferred 3:2 sensor rectangle — whose width/height
involve the irrational `√13` — are not carried; no claim concerns them). -/
structure LensModelF where
  surfaces : List LensSurface
  max_surface_semidiameter_mm : ℚ
  clear_diameter_mm : ℚ
  total_track_length_mm : ℚ
  lens_stack_length_mm : ℚ
  image_surface_index : ℕ
  image_plane_semidiameter_mm : ℚ
  image_circle_diameter_mm : ℚ
deriving DecidableEq, Repr

/-- Regex word character (`\w`): letter, digit or underscore. -/
def isWordChar (c : Char) : Bool := c.isAlphanum || c == '_'

/-- A `\b` word boundary holds between a word character and this suffix. -/
def boundaryOk : List Char → Bool
  | [] => true
  | c :: _ => !(isWordChar c)

/-- Shared shape of the `UNIT`/`SURF`/`DIAM`/`DISZ` line regexes:
`^\s*KW\s+` — optional leading whitespace, the keyword, at least one
whitespace, then the payload with its leading whitespace consumed. -/
def matchKwPayload (kw : List Char) (line : List Char) : Option (List Char) :=
  let l := line.dropWhile isPySpace
  if kw.isPrefixOf l then
    match l.drop kw.length with
    | c :: rest => if isPySpace c then some ((c :: rest).dropWhile isPySpace) else none
    | [] => none
  else none

/-- `_UNIT_RE`: `^\s*UNIT\s+([A-Za-z]+)\b`, returning the captured token. -/
def matchUnit (line : List Char) : Option String :=
  match matchKwPayload "UNIT".data line with
  | none => none
  | some payload =>
    let al := payload.takeWhile Char.isAlpha
    if al.isEmpty || !boundaryOk (payload.drop al.length) then none else some (String.mk al)

/-- `_SURF_RE`: `^\s*SURF\s+(\d+)\b`, returning the surface index. -/
def matchSurf (line : List Char) : Option ℕ :=
  match matchKwPayload "SURF".data line with
  | none => none
  | some payload =>
    let ds := payload.takeWhile Char.isDigit
    if ds.isEmpty || !boundaryOk (payload.drop ds.length) then none
    else some (digitsValNat ds)

/-- The numeric capture `([-+]?\d*\.?\d+(?:[Ee][-+]?\d+)?)\b` of `_DIAM_RE`:
sign, digits with optional fractional part, optional exponent, then a word
boundary.  (Backtracking that re-matches a shorter number on malformed tails
such as `12.5abc` is not reproduced; those lines are treated as
non-matching.) -/
def matchNumBoundary (payload : List Char) : Option ℚ :=
  let signNeg : Bool × List Char :=
    match payload with
    | '+' :: t => (false, t)
    | '-' :: t => (true, t)
    | _ => (false, payload)
  let ip := signNeg.2.takeWhile Char.isDigit
  let r1 := signNeg.2.dropWhile Char.isDigit
  let fpr : List Char × List Char :=
    match r1 with
    | '.' :: t =>
      if (t.takeWhile Char.isDigit).isEmpty then ([], r1)
      else (t.takeWhile Char.isDigit, t.dropWhile Char.isDigit)
    | _ => ([], r1)
  if ip.isEmpty && fpr.1.isEmpty then none
  else
    let exr : Option (ℤ × List Char) :=
      match fpr.2 with
      | 'e' :: t =>
        match t with
        | '+' :: u =>
          if (u.takeWhile Char.isDigit).isEmpty then none
          else some ((digitsValNat (u.takeWhile Char.isDigit) : ℤ), u.dropWhile Char.isDigit)
        | '-' :: u =>
          if (u.takeWhile Char.isDigit).isEmpty then none
          else some (-(digitsValNat (u.takeWhile Char.isDigit) : ℤ), u.dropWhile Char.isDigit)
        | _ =>
          if (t.takeWhile Char.isDigit).isEmpty then none
          else some ((digitsValNat (t.takeWhile Char.isDigit) : ℤ), t.dropWhile Char.isDigit)
      | 'E' :: t =>
        match t with
        | '+' :: u =>
          if (u.takeWhile Char.isDigit).isEmpty then none
          else some ((digitsValNat (u.takeWhile Char.isDigit) : ℤ), u.dropWhile Char.isDigit)
        | '-' :: u =>
          if (u.takeWhile Char.isDigit).isEmpty then none
          else some (-(digitsValNat (u.takeWhile Char.isDigit) : ℤ), u.dropWhile Char.isDigit)
        | _ =>
          if (t.takeWhile Char.isDigit).isEmpty then none
          else some ((digitsValNat (t.takeWhile Char.isDigit) : ℤ), t.dropWhile Char.isDigit)
      | rest => some (0, rest)
    match exr with
    | none => none
    | some (ex, rest) =>
      if !boundaryOk rest then none
      else
        let mag : ℚ :=
          (digitsValNat (ip ++ fpr.1) : ℚ) / (10 : ℚ) ^ fpr.1.length * tenPow ex
        some (if signNeg.1 then -mag else mag)

/-- `_DIAM_RE`: keyword `DIAM` then the numeric capture. -/
def matchDiam (line : List Char) : Option ℚ :=
  match matchKwPayload "DIAM".data line with
  | none => none
  | some payload => matchNumBoundary payload

/-- `_GLAS_RE`: `^\s*GLAS\b`. -/
def matchGlas (line : List Char) : Bool :=
  let l := line.dropWhile isPySpace
  "GLAS".data.isPrefixOf l && boundaryOk (l.drop 4)

/-- Mutable state of the `from_zmx` scan: recorded unit, flushed surfaces,
and the current surface accumulator
(`current_index/current_diam/current_disz/current_has_glass`). -/
structure ZCur where
  index : ℕ
  diam : ℚ
  disz : Option ℚ
  glas : Bool
deriving DecidableEq, Repr

structure ZState where
  unit : Option String
  surfaces : List LensSurface
  cur : Option ZCur
deriving DecidableEq, Repr

/-- `flush_surface`. -/
def flushSurface (st : ZState) : ZState :=
  match st.cur with
  | none => st
  | some c =>
    { st with surfaces := st.surfaces ++ [⟨c.index, c.diam, c.disz, c.glas⟩], cur := none }

/-- One line of the `from_zmx` scan.  Ordering and early exits follow the
Python loop: unit capture (first match wins, no early exit), `SURF` flush,
skip outside any surface block, `DIAM` (kept only when positive), `DISZ`
(finite values only, `INFINITY` skipped, a non-`INFINITY` non-numeric token
raising `ValueError`), `GLAS`.
A `DISZ` whose payload is pure whitespace triggers an unhandled `IndexError`
in the Python (`.split()[0]` of an empty split); the model treats such a line
as non-matching — no claim exercises it. -/
def zmxStep (st0 : ZState) (line : String) : Except String ZState :=
  let l := line.data
  let st :=
    match matchUnit l with
    | some u => if st0.unit = none then { st0 with unit := some (pyUpper u) } else st0
    | none => st0
  match matchSurf l with
  | some n =>
    .ok { (flushSurface st) with cur := some ⟨n, 0, none, false⟩ }
  | none =>
    match st.cur with
    | none => .ok st
    | some cur =>
      match matchDiam l with
      | some v =>
        .ok (if 0 < v then { st with cur := some { cur with diam := v } } else st)
      | none =>
        match matchKwPayload "DISZ".data l with
        | some payload =>
          let stripped := pyStripL payload
          match wsTokensAux stripped [] with
          | [] => .ok st
          | tk :: _ =>
            if pyUpper (String.mk tk) = "INFINITY" then .ok st
            else
              match parseFloatL tk with
              | some v => .ok { st with cur := some { cur with disz := some v } }
              | none => .error "DISZ value is not a number."
        | none =>
          if matchGlas l then .ok { st with cur := some { cur with glas := true } }
          else .ok st

/-- Largest element of a rational list (the nonempty case of `max(...)`). -/
def listMaxQ : List ℚ → ℚ
  | [] => 0
  | x :: xs => xs.foldl max x

/-- Smallest/largest of a natural-number list, as used on `glass_indices`. -/
def listMinN : List ℕ → ℕ
  | [] => 0
  | x :: xs => xs.foldl min x

def listMaxN : List ℕ → ℕ
  | [] => 0
  | x :: xs => xs.foldl max x

/-- Python `max(surfaces, key=lambda s: s.index)`: first element of maximal
index. -/
def imageSurfaceOf : List LensSurface → LensSurface
  | [] => ⟨0, 0, none, false⟩
  | s :: ss => ss.foldl (fun best t => if best.index < t.index then t else best) s

/-- `diam_values`: the positive recorded semi-diameters. -/
def diamValuesOf (surfaces : List LensSurface) : List ℚ :=
  (surfaces.filter (fun s => decide (0 < s.semi_diameter_mm))).map
    (fun s => s.semi_diameter_mm)

/-- `total_track_length_mm`: finite spacings of surfaces with index `> 0`. -/
def totalTrackOf (surfaces : List LensSurface) : ℚ :=
  ((surfaces.filter (fun s => decide (0 < s.index) && s.disz_to_next_mm.isSome)).map
    (fun s => s.disz_to_next_mm.getD 0)).sum

/-- `glass_indices`. -/
def glassIndicesOf (surfaces : List LensSurface) : List ℕ :=
  (surfaces.filter (fun s => s.has_glass)).map (fun s => s.index)

/-- `lens_stack_length_mm`: finite spacings between the first and last
glass-tagged surface indices (0 when no surface has glass). -/
def stackLenOf (surfaces : List LensSurface) : ℚ :=
  if (glassIndicesOf surfaces).isEmpty then 0
  else
    ((surfaces.filter (fun s =>
        s.disz_to_next_mm.isSome &&
        decide (listMinN (glassIndicesOf surfaces) ≤ s.index) &&
        decide (s.index ≤ listMaxN (glassIndicesOf surfaces)))).map
      (fun s => s.disz_to_next_mm.getD 0)).sum

/-- `from_zmx` aggregate computation, after a successful scan. -/
def zmxAggregate (surfaces : List LensSurface) (diamTokenIsSemi : Bool) :
    Except String LensModelF :=
  if (diamValuesOf surfaces).isEmpty then .error "No positive DIAM values found."
  else
    .ok { surfaces := surfaces,
          max_surface_semidiameter_mm := listMaxQ (diamValuesOf surfaces),
          clear_diameter_mm :=
            if diamTokenIsSemi then 2 * listMaxQ (diamValuesOf surfaces)
            else listMaxQ (diamValuesOf surfaces),
          total_track_length_mm := totalTrackOf surfaces,
          lens_stack_length_mm := stackLenOf surfaces,
          image_surface_index := (imageSurfaceOf surfaces).index,
          image_plane_semidiameter_mm := max 0 (imageSurfaceOf surfaces).semi_diameter_mm,
          image_circle_diameter_mm :=
            if diamTokenIsSemi then 2 * max 0 (imageSurfaceOf surfaces).semi_diameter_mm
            else max 0 (imageSurfaceOf surfaces).semi_diameter_mm }

/-- `LensModel.from_zmx` on file content given as lines (path resolution,
existence check and name/path bookkeeping are outside the model);
`diamTokenIsSemi` is the `diam_token_is_semidiameter` keyword (default
`true`). -/
def fromZmxLines (lines : List String) (diamTokenIsSemi : Bool) :
    Except String LensModelF :=
  match lines.foldlM zmxStep { unit := none, surfaces := [], cur := none } with
  | .error e => .error e
  | .ok stRaw =>
    let st := flushSurface stRaw
    match st.unit with
    | some u =>
      if u ≠ "MM" then .error ("Unsupported lens units '" ++ u ++ "'; expected UNIT MM.")
      else if st.surfaces.isEmpty then .error "No SURF blocks found."
      else zmxAggregate st.surfaces diamTokenIsSemi
    | none =>
      if st.surfaces.isEmpty then .error "No SURF blocks found."
      else zmxAggregate st.surfaces diamTokenIsSemi

end LensM

/-! ### Auxiliary predicates and spec-side definitions

The `spec...` definitions below follow the wording of the specification (for
refinement-style comparison with the source-translated definitions above);
each theorem states which side it takes. -/

/-- A string free of whitespace, quote and backslash characters — on such
tokens the whitespace-splitting model of `shlex.split` is exact. -/
def tokenSafeStr (s : String) : Bool :=
  s.data.all (fun c => !(isPySpace c) && !(c == '"') && !(c == '\x27') && !(c == '\\'))

/-- A non-blank token-safe string. -/
def tokenStr (s : String) : Bool := !s.data.isEmpty && tokenSafeStr s

/-- Spec wording for C5: interface centre Z = scintillator centre Z + half
scintillator thickness + configured standoff + half interface thickness,
with the centimetre-stored fields converted to millimetres. -/
def specInterfaceCenterZmm (c : FlatConfig) : ℚ :=
  c.scint_pos_z_cm * 10 + (c.scint_z_cm * 10) / 2 +
    c.scint_back_to_optical_interface_mm + c.optical_interface_thickness_mm / 2

/-- Spec wording for C6 (a)/(b): the explicit numeric override when present,
otherwise the primary lens's clear diameter in forward orientation and its
image-circle diameter when reversed. -/
def specFlatDiameterResolution (c : FlatConfig) : ℚ :=
  match c.optical_interface_diameter_mm with
  | some d => d
  | none =>
    if SimCfg.primaryLensIsReversed c then (SimCfg.primaryLens c).image_circle_diameter_mm
    else (SimCfg.primaryLens c).clear_diameter_mm

/-- The three supported diameter-rule strings, exactly as the spec lists
them. -/
def supportedRuleStrings : List String :=
  [ConfigIo.ruleMinStr, "entranceDiameter", "sensorMaxWidth"]

/-- Spec wording for C6 (c): the rule string must be exactly one of the three
supported strings; any other string is a fatal error. -/
def specRuleResolution (rule : String) (entrance sensorMax : ℚ) : Except String ℚ :=
  if rule = ConfigIo.ruleMinStr then .ok (min entrance sensorMax)
  else if rule = "entranceDiameter" then .ok entrance
  else if rule = "sensorMaxWidth" then .ok sensorMax
  else .error "Unsupported diameter rule."

/-- Spec wording for C4: the positive values of all `DIAM` lines lying inside
surface blocks (i.e. after the first `SURF` marker) of the file. -/
def diamTokensPosAux : Bool → List String → List ℚ
  | _, [] => []
  | inBlock, l :: ls =>
    if (LensM.matchSurf l.data).isSome then diamTokensPosAux true ls
    else if inBlock then
      match LensM.matchDiam l.data with
      | some v => if 0 < v then v :: diamTokensPosAux true ls else diamTokensPosAux true ls
      | none => diamTokensPosAux true ls
    else diamTokensPosAux false ls

def diamTokensPos (lines : List String) : List ℚ := diamTokensPosAux false lines

/-- Spec wording for the amended C4: the largest recorded per-surface
semi-diameter (each parsed surface records the last positive `DIAM` token of
its block). -/
def specMaxRecordedSemi (surfaces : List LensM.LensSurface) : ℚ :=
  LensM.listMaxQ ((surfaces.filter (fun s => decide (0 < s.semi_diameter_mm))).map
    (fun s => s.semi_diameter_mm))

/-- The replacement pass of the macro patch, for stating the frame property
C9 (every input line is rewritten independently). -/
def replacePass (c : FlatConfig) (lines : List String) : List String :=
  lines.map (SimCfg.replLine (SimCfg.replacementsOf (SimCfg.geometryCommandsF c)))

/-- The leading command tokens of the generated geometry commands: the
"generated geometry command paths" of the claims. -/
def patchKeys (c : FlatConfig) : List String :=
  (SimCfg.geometryCommandsF c).map leadTok

/-- A line the patch must leave verbatim: blank, comment, or a line whose
leading token is not a generated command path. -/
def untouchedBy (c : FlatConfig) (l : String) : Bool :=
  SimCfg.isBlankOrComment l || !(decide (leadTok l ∈ patchKeys c))

/-- The commands of `c` whose leading command token appears on no non-comment
line of the file, in generated order — the spec-side description of the
commands the patch must insert. -/
def missingCmds (c : FlatConfig) (lines : List String) : List String :=
  ((SimCfg.pyDedupFirst ((SimCfg.geometryCommandsF c).map leadTok)).filter
    (fun p => lines.all (fun l => !(SimCfg.lineHits l p)))).filterMap
    (SimCfg.lookupLast (SimCfg.replacementsOf (SimCfg.geometryCommandsF c)))

/-- Knife-edge exclusion for the amended round-trip claim C1: when the
detector shape is circular and the resolved diameter is `d`, twice the
6-digit rounding of the emitted aperture radius `d/2` must not exceed the
6-digit rounding of the entrance diameter by a positive amount of at most
the decoder's `1e-9` tolerance (inside that sliver the decoder's
`min(entranceDiameter,sensorMaxWidth)` reconstruction resolves to the
entrance diameter instead of the aperture diameter). -/
def apertureRoundTripSafe (c : HConfig) : Bool :=
  if pyLower (pyStrip c.det_shape) = "circle" then
    match ConfigIo.resolveSensitiveDetectorDiameterMm c with
    | .error _ => true
    | .ok d =>
      let desired := 2 * round6 ((1/2) * d)
      let ent := round6 c.entrance_diameter
      decide (desired ≤ ent) || decide (ent + 1/1000000000 < desired)
  else true

/-! ### Concrete instances used by counterexamples and witnesses -/

/-- The literal scenario of C2 (the unit-test configuration): 100×100×20 mm
scintillator at the origin, entrance diameter 60.55 mm, sensor max width
36 mm, `min` rule, circular detector at Z = 210.05 mm. -/
def c2ScenarioConfig : HConfig :=
  { output_format := "hdf5", data_directory := "data",
    simulation_run_id := "unit_macro_test", working_directory := ".",
    material_name := "EJ200",
    scint_x_mm := 100, scint_y_mm := 100, scint_z_mm := 20,
    scint_pos_x_mm := 0, scint_pos_y_mm := 0, scint_pos_z_mm := 0,
    entrance_diameter := 1211/20, sensor_max_width := 36,
    det_shape := "circle", diameter_rule := "min(entranceDiameter,sensorMaxWidth)",
    det_pos_x_mm := 0, det_pos_y_mm := 0, det_pos_z_mm := 4201/20 }

/-- The geometry command list the code produces for `c2ScenarioConfig`. -/
def c2ExpectedCmds : List String :=
  ["/scintillator/geom/material EJ200",
   "/scintillator/geom/scintX 100 mm",
   "/scintillator/geom/scintY 100 mm",
   "/scintillator/geom/scintZ 20 mm",
   "/scintillator/geom/posX 0 mm",
   "/scintillator/geom/posY 0 mm",
   "/scintillator/geom/posZ 0 mm",
   "/scintillator/geom/apertureRadius 18 mm",
   "/optical_interface/geom/sizeX 60.55 mm",
   "/optical_interface/geom/sizeY 60.55 mm",
   "/optical_interface/geom/thickness 0.1 mm",
   "/optical_interface/geom/posX 0 mm",
   "/optical_interface/geom/posY 0 mm",
   "/optical_interface/geom/posZ 210.05 mm"]

/-- A configuration whose rule string has a trailing space: not one of the
three supported rule strings, yet accepted by the code (which strips spaces
before comparing). -/
def c6CexConfig : HConfig := { c2ScenarioConfig with diameter_rule := "sensorMaxWidth " }

/-- A configuration with an unsupported rule and a non-circular detector:
command generation succeeds and returns a full list. -/
def c7CexConfig : HConfig :=
  { c2ScenarioConfig with diameter_rule := "bogus", det_shape := "none" }

/-- The command list the code returns for `c7CexConfig`. -/
def c7CexCmds : List String :=
  ["/scintillator/geom/material EJ200",
   "/scintillator/geom/scintX 100 mm",
   "/scintillator/geom/scintY 100 mm",
   "/scintillator/geom/scintZ 20 mm",
   "/scintillator/geom/posX 0 mm",
   "/scintillator/geom/posY 0 mm",
   "/scintillator/geom/posZ 0 mm",
   "/optical_interface/geom/sizeX 60.55 mm",
   "/optical_interface/geom/sizeY 60.55 mm",
   "/optical_interface/geom/thickness 0.1 mm",
   "/optical_interface/geom/posX 0 mm",
   "/optical_interface/geom/posY 0 mm",
   "/optical_interface/geom/posZ 210.05 mm"]

/-- A configuration with a circular detector and an unsupported rule, used to
witness the amended C7. -/
def c7WitnessConfig : HConfig :=
  { c2ScenarioConfig with diameter_rule := "bogus" }

/-- Flat lens record used by concrete flat configurations. -/
def canonLensRec : LensRec :=
  { clear_diameter_mm := 1211/20, image_circle_diameter_mm := 2165/50 }

/-- Baseline valid flat configuration. -/
def flatBaseConfig : FlatConfig :=
  { lensModels := [canonLensRec], revSetting := .inl false,
    scint_material := "EJ200",
    scint_x_cm := 10, scint_y_cm := 10, scint_z_cm := 2,
    scint_pos_x_cm := 0, scint_pos_y_cm := 0, scint_pos_z_cm := 0,
    optical_interface_thickness_mm := 1/10,
    optical_interface_pos_x_cm := 0, optical_interface_pos_y_cm := 0,
    scint_back_to_optical_interface_mm := 200,
    optical_interface_diameter_mm := none,
    use_aperture_mask := true, aperture_radius_mm := none }

/-- Flat configuration with an explicit 50 mm aperture radius on a
100 mm × 100 mm scintillator face: accepted by the code (50 ≤ 70.71…),
rejected by the claim's limit `(1/2)·hypot(50, 50) ≈ 35.36`. -/
def c3CexConfig : FlatConfig :=
  { flatBaseConfig with optical_interface_diameter_mm := some 100,
                        aperture_radius_mm := some 50 }

/-- A prescription whose first surface block carries two positive `DIAM`
lines (`50` then `10`): the parser records the last one, so the reported
clear diameter is `2·20 = 40`, not `2·50 = 100`. -/
def c4CexLines : List String :=
  ["UNIT MM",
   "SURF 0",
   "  DIAM 50",
   "  DIAM 10",
   "  DISZ 1",
   "SURF 1",
   "  DIAM 20",
   "  DISZ 2"]

/-- The model the parser produces for `c4CexLines`. -/
def c4CexExpected : LensM.LensModelF :=
  { surfaces :=
      [{ index := 0, semi_diameter_mm := 10, disz_to_next_mm := some 1, has_glass := false },
       { index := 1, semi_diameter_mm := 20, disz_to_next_mm := some 2, has_glass := false }],
    max_surface_semidiameter_mm := 20,
    clear_diameter_mm := 40,
    total_track_length_mm := 2,
    lens_stack_length_mm := 0,
    image_surface_index := 1,
    image_plane_semidiameter_mm := 20,
    image_circle_diameter_mm := 40 }

/-- A well-formed prescription used by witnesses. -/
def c4WitnessLines : List String :=
  ["UNIT MM",
   "SURF 0",
   "  DIAM 50",
   "  DISZ INFINITY",
   "SURF 1",
   "  DIAM 36.5",
   "  GLAS BK7",
   "  DISZ 5.2",
   "SURF 2",
   "  DIAM 30",
   "  DISZ 3"]

/-- The model the parser produces for `c4WitnessLines`. -/
def c4WitnessExpected : LensM.LensModelF :=
  { surfaces :=
      [{ index := 0, semi_diameter_mm := 50, disz_to_next_mm := none, has_glass := false },
       { index := 1, semi_diameter_mm := 73/2, disz_to_next_mm := some (26/5), has_glass := true },
       { index := 2, semi_diameter_mm := 30, disz_to_next_mm := some 3, has_glass := false }],
    max_surface_semidiameter_mm := 50,
    clear_diameter_mm := 100,
    total_track_length_mm := 41/5,
    lens_stack_length_mm := 26/5,
    image_surface_index := 2,
    image_plane_semidiameter_mm := 30,
    image_circle_diameter_mm := 60 }

/-- A macro file without an aperture command (the unit test's
`no_aperture.mac`). -/
def c8WitnessLines : List String :=
  ["/output/format hdf5",
   "/output/path data",
   "/output/runname no_aperture_case",
   "/scintillator/geom/material EJ200",
   "/scintillator/geom/scintX 100 mm",
   "/scintillator/geom/scintY 100 mm",
   "/scintillator/geom/scintZ 20 mm",
   "/scintillator/geom/posX 0 mm",
   "/scintillator/geom/posY 0 mm",
   "/scintillator/geom/posZ 0 mm",
   "/optical_interface/geom/sizeX 60.55 mm",
   "/optical_interface/geom/sizeY 60.55 mm",
   "/optical_interface/geom/thickness 0.1 mm",
   "/optical_interface/geom/posX 0 mm",
   "/optical_interface/geom/posY 0 mm",
   "/optical_interface/geom/posZ 210.05 mm",
   "/run/initialize"]

/-- The configuration decoded from `c8WitnessLines` with template
`c2ScenarioConfig`. -/
def c8WitnessDecoded : HConfig :=
  { c2ScenarioConfig with
      simulation_run_id := "no_aperture_case",
      sensor_max_width := 1211/20,
      det_shape := "none",
      diameter_rule := "entranceDiameter" }

/-- Round-trip counterexample: a run identifier containing a space.  Encoding
writes `/output/runname my run`; decoding tokenizes it back as `my`. -/
def c1CexConfig : HConfig :=
  { c2ScenarioConfig with simulation_run_id := "my run", det_shape := "none" }

/-- `macro_commands` output for `c1CexConfig`. -/
def c1CexEncoded : List String :=
  ["/output/format hdf5",
   "/output/path /repoRoot/./data",
   "/output/filename photon_optical_interface_hits",
   "/output/runname my run",
   "/scintillator/geom/material EJ200",
   "/scintillator/geom/scintX 100 mm",
   "/scintillator/geom/scintY 100 mm",
   "/scintillator/geom/scintZ 20 mm",
   "/scintillator/geom/posX 0 mm",
   "/scintillator/geom/posY 0 mm",
   "/scintillator/geom/posZ 0 mm",
   "/optical_interface/geom/sizeX 60.55 mm",
   "/optical_interface/geom/sizeY 60.55 mm",
   "/optical_interface/geom/thickness 0.1 mm",
   "/optical_interface/geom/posX 0 mm",
   "/optical_interface/geom/posY 0 mm",
   "/optical_interface/geom/posZ 210.05 mm",
   "/run/initialize"]

/-- The configuration `from_macro` reconstructs from `c1CexEncoded` with
template `c1CexConfig`: the run identifier was clipped to its first token. -/
def c1CexDecoded : HConfig :=
  { c1CexConfig with simulation_run_id := "my",
                     data_directory := "/repoRoot/./data",
                     sensor_max_width := 1211/20,
                     diameter_rule := "entranceDiameter" }

/-- Re-encoding `c1CexDecoded` differs from `c1CexEncoded` in the
`/output/runname` line. -/
def c1CexReEncoded : List String :=
  ["/output/format hdf5",
   "/output/path /repoRoot/./data",
   "/output/filename photon_optical_interface_hits",
   "/output/runname my",
   "/scintillator/geom/material EJ200",
   "/scintillator/geom/scintX 100 mm",
   "/scintillator/geom/scintY 100 mm",
   "/scintillator/geom/scintZ 20 mm",
   "/scintillator/geom/posX 0 mm",
   "/scintillator/geom/posY 0 mm",
   "/scintillator/geom/posZ 0 mm",
   "/optical_interface/geom/sizeX 60.55 mm",
   "/optical_interface/geom/sizeY 60.55 mm",
   "/optical_interface/geom/thickness 0.1 mm",
   "/optical_interface/geom/posX 0 mm",
   "/optical_interface/geom/posY 0 mm",
   "/optical_interface/geom/posZ 210.05 mm",
   "/run/initialize"]

/-- The `macro_commands` output for `c2ScenarioConfig` (output block, geometry
block and `/run/initialize`): the encoded list of the C1 witness. -/
def c1WitnessEncoded : List String :=
  ["/output/format hdf5",
   "/output/path /repoRoot/./data",
   "/output/filename photon_optical_interface_hits",
   "/output/runname unit_macro_test",
   "/scintillator/geom/material EJ200",
   "/scintillator/geom/scintX 100 mm",
   "/scintillator/geom/scintY 100 mm",
   "/scintillator/geom/scintZ 20 mm",
   "/scintillator/geom/posX 0 mm",
   "/scintillator/geom/posY 0 mm",
   "/scintillator/geom/posZ 0 mm",
   "/scintillator/geom/apertureRadius 18 mm",
   "/optical_interface/geom/sizeX 60.55 mm",
   "/optical_interface/geom/sizeY 60.55 mm",
   "/optical_interface/geom/thickness 0.1 mm",
   "/optical_interface/geom/posX 0 mm",
   "/optical_interface/geom/posY 0 mm",
   "/optical_interface/geom/posZ 210.05 mm",
   "/run/initialize"]

/-- The configuration `from_macro` reconstructs from `c1WitnessEncoded` with
template `c2ScenarioConfig`: only the data directory changes, to its resolved
absolute form. -/
def c1WitnessDecoded : HConfig :=
  { c2ScenarioConfig with data_directory := "/repoRoot/./data" }

/-! ## Theorems -/

/-! ### String and tokenizer lemmas -/

theorem dropWhile_append_all {p : Char → Bool} (a b : List Char)
    (h : ∀ c ∈ a, p c = true) : (a ++ b).dropWhile p = b.dropWhile p := by
  induction a with
  | nil => rfl
  | cons x xs ih =>
    simp only [List.cons_append, List.dropWhile_cons, h x (by simp)]
    exact ih (fun c hc => h c (by simp [hc]))

theorem takeWhile_append_all {p : Char → Bool} (a b : List Char)
    (h : ∀ c ∈ a, p c = true) : (a ++ b).takeWhile p = a ++ b.takeWhile p := by
  induction a with
  | nil => rfl
  | cons x xs ih =>
    simp [List.takeWhile_cons, h x (by simp), ih (fun c hc => h c (by simp [hc]))]

theorem dropWhile_append_last {p : Char → Bool} (a : List Char) (c : Char)
    (hc : p c = false) : (a ++ [c]).dropWhile p = a.dropWhile p ++ [c] := by
  induction a with
  | nil => simp [List.dropWhile_cons, hc]
  | cons x xs ih =>
    by_cases hx : p x
    · simp only [List.cons_append, List.dropWhile_cons, hx]
      exact ih
    · simp [List.dropWhile_cons, hx]

/-- `wsTokensAux` over a whitespace-free run: the run accumulates. -/
theorem wsAux_run (t : List Char) (ht : ∀ c ∈ t, isPySpace c = false) :
    ∀ rest acc, wsTokensAux (t ++ rest) acc = wsTokensAux rest (t.reverse ++ acc) := by
  induction t with
  | nil => intro rest acc; rfl
  | cons x xs ih =>
    intro rest acc
    simp only [List.cons_append, wsTokensAux, ht x (by simp), Bool.false_eq_true, if_false,
      List.append_eq]
    rw [ih (fun c hc => ht c (by simp [hc])) rest (x :: acc)]
    simp

theorem wsAux_nil_emit (acc : List Char) (h : acc ≠ []) :
    wsTokensAux [] acc = [acc.reverse] := by
  simp [wsTokensAux, List.isEmpty_iff, h]

theorem wsAux_space_emit (c : Char) (cs acc : List Char) (hsp : isPySpace c = true)
    (h : acc ≠ []) : wsTokensAux (c :: cs) acc = acc.reverse :: wsTokensAux cs [] := by
  simp [wsTokensAux, hsp, List.isEmpty_iff, h]

theorem wsAux_space_skip (c : Char) (cs : List Char) (hsp : isPySpace c = true) :
    wsTokensAux (c :: cs) [] = wsTokensAux cs [] := by
  simp [wsTokensAux, hsp]

theorem wsAux_all_space (l : List Char) (h : ∀ c ∈ l, isPySpace c = true) :
    wsTokensAux l [] = [] := by
  induction l with
  | nil => rfl
  | cons x xs ih =>
    rw [wsAux_space_skip x xs (h x (by simp))]
    exact ih (fun c hc => h c (by simp [hc]))

/-- Trailing whitespace does not change the token list. -/
theorem wsAux_trailing (w : List Char) (hw : ∀ c ∈ w, isPySpace c = true) :
    ∀ l acc, wsTokensAux (l ++ w) acc = wsTokensAux l acc := by
  intro l
  induction l with
  | nil =>
    intro acc
    by_cases h : acc = []
    · subst h
      rw [List.nil_append, wsAux_all_space w hw]
      rfl
    · cases w with
      | nil => rfl
      | cons c cs =>
        rw [List.nil_append, wsAux_space_emit c cs acc (hw c (by simp)) h,
          wsAux_nil_emit acc h, wsAux_all_space cs (fun d hd => hw d (by simp [hd]))]
  | cons x xs ih =>
    intro acc
    by_cases hx : isPySpace x
    · by_cases h : acc = []
      · subst h
        rw [List.cons_append, wsAux_space_skip x _ hx, wsAux_space_skip x _ hx]
        exact ih []
      · rw [List.cons_append, wsAux_space_emit x _ acc hx h,
          wsAux_space_emit x xs acc hx h, ih []]
    · rw [List.cons_append]
      show wsTokensAux (x :: (xs ++ w)) acc = wsTokensAux (x :: xs) acc
      simp only [wsTokensAux, hx, Bool.false_eq_true, if_false]
      exact ih (x :: acc)

/-- Leading whitespace does not change the token list. -/
theorem wsAux_leading (l : List Char) :
    wsTokensAux (l.dropWhile isPySpace) [] = wsTokensAux l [] := by
  induction l with
  | nil => rfl
  | cons x xs ih =>
    by_cases hx : isPySpace x
    · rw [List.dropWhile_cons, if_pos hx, wsAux_space_skip x xs hx]
      exact ih
    · rw [List.dropWhile_cons, if_neg (by simp [hx])]

/-- The right-strip part of `pyStripL`. -/
def rstripL (l : List Char) : List Char := (l.reverse.dropWhile isPySpace).reverse

theorem pyStripL_eq (l : List Char) : pyStripL l = rstripL (l.dropWhile isPySpace) := rfl

theorem rstripL_decomp (l : List Char) :
    ∃ w, l = rstripL l ++ w ∧ ∀ c ∈ w, isPySpace c = true := by
  refine ⟨(l.reverse.takeWhile isPySpace).reverse, ?_, ?_⟩
  · conv_lhs => rw [← l.reverse_reverse, ← List.takeWhile_append_dropWhile isPySpace l.reverse]
    rw [List.reverse_append]
    rfl
  · intro c hc
    rw [List.mem_reverse] at hc
    exact List.mem_takeWhile_imp hc

/-- Tokenization ignores a `str.strip()`. -/
theorem tokenize_pyStrip (s : String) : tokenize (pyStrip s) = tokenize s := by
  show (wsTokensAux (pyStripL s.data) []).map String.mk = (wsTokensAux s.data []).map String.mk
  rw [pyStripL_eq]
  obtain ⟨w, hw, hws⟩ := rstripL_decomp (s.data.dropWhile isPySpace)
  have h1 : wsTokensAux (rstripL (s.data.dropWhile isPySpace)) [] =
      wsTokensAux (s.data.dropWhile isPySpace) [] := by
    conv_rhs => rw [hw]
    rw [wsAux_trailing w hws]
  rw [h1, wsAux_leading]

/-- A whitespace-free nonempty string is a single token. -/
theorem tokenize_tokenStr (a : String) (ha : tokenStr a) : tokenize a = [a] := by
  obtain ⟨hne, hsafe⟩ : ¬a.data.isEmpty ∧ tokenSafeStr a = true := by
    simpa [tokenStr] using ha
  have hno : ∀ c ∈ a.data, isPySpace c = false := by
    intro c hc
    have := (List.all_eq_true.mp hsafe) c hc
    simp only [Bool.and_eq_true, Bool.not_eq_true'] at this
    exact this.1.1.1
  show (wsTokensAux a.data []).map String.mk = [a]
  rw [show a.data = a.data ++ [] from (List.append_nil _).symm,
    wsAux_run a.data hno [] [], wsAux_nil_emit _ (by simpa [List.isEmpty_iff] using hne)]
  simp

/-- Splitting off the first token: `tokenize (a ++ " " ++ b) = a :: tokenize b`
for a whitespace-free nonempty `a` and arbitrary `b`. -/
theorem tokenize_append_space (a b : String) (ha : tokenStr a) :
    tokenize (a ++ " " ++ b) = a :: tokenize b := by
  obtain ⟨hne, hsafe⟩ : ¬a.data.isEmpty ∧ tokenSafeStr a = true := by
    simpa [tokenStr] using ha
  have hno : ∀ c ∈ a.data, isPySpace c = false := by
    intro c hc
    have := (List.all_eq_true.mp hsafe) c hc
    simp only [Bool.and_eq_true, Bool.not_eq_true'] at this
    exact this.1.1.1
  have hdata : (a ++ " " ++ b).data = a.data ++ (' ' :: b.data) := by
    rw [String.data_append, String.data_append, List.append_assoc]
    rfl
  show (wsTokensAux (a ++ " " ++ b).data []).map String.mk = a :: tokenize b
  rw [hdata, wsAux_run a.data hno (' ' :: b.data) [],
    wsAux_space_emit ' ' b.data _ (by decide)
      (by simpa [List.isEmpty_iff] using hne)]
  simp [tokenize]

theorem leadTok_append_space (p r : String) (hp : tokenStr p) :
    leadTok (p ++ " " ++ r) = p := by
  unfold leadTok
  rw [tokenize_append_space p r hp]
  rfl

theorem leadTok_tokenStr (p : String) (hp : tokenStr p) : leadTok p = p := by
  unfold leadTok
  rw [tokenize_tokenStr p hp]
  rfl

theorem leadTok_pyStrip (s : String) : leadTok (pyStrip s) = leadTok s := by
  unfold leadTok
  rw [tokenize_pyStrip]

/-- A string whose first character is `/` neither blank nor a comment. -/
theorem isBC_false_of_slash (s : String) (h : s.data.headD ' ' = '/') :
    SimCfg.isBlankOrComment s = false := by
  match hs : s.data with
  | [] => rw [hs] at h; exact absurd h (by decide)
  | c :: t =>
    rw [hs] at h
    have hc : c = '/' := h
    subst hc
    unfold SimCfg.isBlankOrComment
    rw [hs]
    unfold pyStripL
    rw [List.dropWhile_cons, if_neg (by decide), List.reverse_cons,
      dropWhile_append_last _ _ (by decide), List.reverse_append]
    simp

/-- `pyStrip` of a string whose first character is `/` keeps that `/`. -/
theorem pyStrip_head_slash (s : String) (h : s.data.headD ' ' = '/') :
    (pyStrip s).data.headD ' ' = '/' := by
  match hs : s.data with
  | [] => rw [hs] at h; exact absurd h (by decide)
  | c :: t =>
    rw [hs] at h
    have hc : c = '/' := h
    subst hc
    show (pyStripL s.data).headD ' ' = '/'
    rw [hs]
    unfold pyStripL
    rw [List.dropWhile_cons, if_neg (by decide), List.reverse_cons,
      dropWhile_append_last _ _ (by decide), List.reverse_append]
    simp

/-- First character of `p ++ " " ++ r` is the first character of `p`. -/
theorem headD_append (p r : String) (hp : ¬p.data.isEmpty) :
    (p ++ r).data.headD ' ' = p.data.headD ' ' := by
  rw [String.data_append]
  cases hd : p.data with
  | nil => rw [hd] at hp; simp at hp
  | cons c t => simp

/-! ### Decimal digit lemmas -/

theorem charDig_digChar (d : ℕ) (hd : d < 10) : charDig (digChar d) = d := by
  interval_cases d <;> decide

theorem digChar_isDigit (d : ℕ) (hd : d < 10) : (digChar d).isDigit = true := by
  interval_cases d <;> decide

theorem natDigitsAux_eq (fuel n : ℕ) (h : n ≤ fuel) :
    natDigitsAux fuel n = Nat.digits 10 n := by
  induction fuel generalizing n with
  | zero =>
    have hn : n = 0 := Nat.le_zero.mp h
    subst hn
    rw [Nat.digits_zero]
    rfl
  | succ f ih =>
    cases n with
    | zero =>
      rw [Nat.digits_zero]
      rfl
    | succ m =>
      have hdiv : (m + 1) / 10 < m + 1 := Nat.div_lt_self (Nat.succ_pos m) (by norm_num)
      show ((m + 1) % 10) :: natDigitsAux f ((m + 1) / 10) = Nat.digits 10 (m + 1)
      rw [ih ((m + 1) / 10) (by omega),
        Nat.digits_def' (by norm_num : (1 : ℕ) < 10) (Nat.succ_pos m)]

theorem natDigits10_eq_digits (n : ℕ) : natDigits10 n = Nat.digits 10 n :=
  natDigitsAux_eq n n le_rfl

theorem natDigits10_lt (n d : ℕ) (hd : d ∈ natDigits10 n) : d < 10 := by
  rw [natDigits10_eq_digits] at hd
  exact Nat.digits_lt_base (by norm_num) hd

theorem natDigits10_len (n : ℕ) (hn : n ≠ 0) :
    (natDigits10 n).length = Nat.log 10 n + 1 := by
  rw [natDigits10_eq_digits]
  exact Nat.digits_len 10 n (by norm_num) hn

theorem natDigitChars_length (n : ℕ) (hn : n ≠ 0) :
    (natDigitChars n).length = Nat.log 10 n + 1 := by
  unfold natDigitChars
  rw [List.length_reverse, List.length_map]
  exact natDigits10_len n hn

theorem natDigitChars_isDigit (n : ℕ) : ∀ c ∈ natDigitChars n, c.isDigit = true := by
  intro c hc
  unfold natDigitChars at hc
  rw [List.mem_reverse, List.mem_map] at hc
  obtain ⟨d, hd, rfl⟩ := hc
  exact digChar_isDigit d (natDigits10_lt n d hd)

theorem digitsValNat_natDigitChars (n : ℕ) : digitsValNat (natDigitChars n) = n := by
  unfold digitsValNat natDigitChars
  rw [List.map_reverse, List.reverse_reverse, List.map_map]
  have hmap : (natDigits10 n).map (charDig ∘ digChar) = (natDigits10 n).map id := by
    apply List.map_congr_left
    intro d hd
    exact charDig_digChar d (natDigits10_lt n d hd)
  rw [hmap, List.map_id, natDigits10_eq_digits]
  exact Nat.ofDigits_digits 10 n

theorem digitsValNat_append (a b : List Char) :
    digitsValNat (a ++ b) = digitsValNat a * 10 ^ b.length + digitsValNat b := by
  unfold digitsValNat
  rw [List.map_append, List.reverse_append, Nat.ofDigits_append,
    List.length_reverse, List.length_map]
  ring

theorem digitsValNat_replicate0 (t : ℕ) : digitsValNat (List.replicate t '0') = 0 := by
  induction t with
  | zero => rfl
  | succ k ih =>
    rw [List.replicate_succ]
    show digitsValNat (['0'] ++ List.replicate k '0') = 0
    rw [digitsValNat_append, ih, show digitsValNat ['0'] = 0 from rfl]
    simp

theorem digitsValNat_cons0 (l : List Char) : digitsValNat ('0' :: l) = digitsValNat l := by
  show digitsValNat (['0'] ++ l) = digitsValNat l
  rw [digitsValNat_append, show digitsValNat ['0'] = 0 from rfl]
  simp

theorem digitsValNat_padZeros (l : List Char) (k : ℕ) :
    digitsValNat (padZeros l k) = digitsValNat l := by
  unfold padZeros
  rw [digitsValNat_append, digitsValNat_replicate0]
  simp

theorem padZeros_length (l : List Char) (k : ℕ) :
    (padZeros l k).length = (k - l.length) + l.length := by
  unfold padZeros
  rw [List.length_append, List.length_replicate]

theorem padZeros_isDigit (l : List Char) (k : ℕ) (h : ∀ c ∈ l, c.isDigit = true) :
    ∀ c ∈ padZeros l k, c.isDigit = true := by
  intro c hc
  unfold padZeros at hc
  rcases List.mem_append.mp hc with hc' | hc'
  · rw [List.eq_of_mem_replicate hc']
    decide
  · exact h c hc'

theorem stzL_decomp (l : List Char) : ∃ t, l = stzL l ++ List.replicate t '0' := by
  refine ⟨(l.reverse.takeWhile (fun c => c == '0')).length, ?_⟩
  unfold stzL
  conv_lhs => rw [← l.reverse_reverse,
    ← List.takeWhile_append_dropWhile (fun c => c == '0') l.reverse]
  rw [List.reverse_append]
  congr 1
  rw [List.eq_replicate_iff]
  refine ⟨List.length_reverse _, ?_⟩
  intro b hb
  rw [List.mem_reverse] at hb
  have hb' := List.mem_takeWhile_imp hb
  simp only [] at hb'
  exact eq_of_beq hb'

theorem digitsValNat_stz (l : List Char) (t : ℕ)
    (ht : l = stzL l ++ List.replicate t '0') :
    digitsValNat l = digitsValNat (stzL l) * 10 ^ t := by
  conv_lhs => rw [ht]
  rw [digitsValNat_append, digitsValNat_replicate0, List.length_replicate]
  ring

theorem stzL_subset (l : List Char) : stzL l ⊆ l := by
  intro c hc
  unfold stzL at hc
  rw [List.mem_reverse] at hc
  have e := List.takeWhile_append_dropWhile (fun c => c == '0') l.reverse
  have hc2 : c ∈ l.reverse := e ▸ List.mem_append_right _ hc
  exact List.mem_reverse.mp hc2

/-! ### Character-class lemmas -/

theorem isDigit_not_pySpace (c : Char) (h : c.isDigit = true) : isPySpace c = false := by
  cases hsp : isPySpace c
  · rfl
  · exfalso
    unfold isPySpace at hsp
    simp only [Bool.or_eq_true, beq_iff_eq] at hsp
    rcases hsp with ((((rfl | rfl) | rfl) | rfl) | rfl) | rfl <;> exact absurd h (by decide)

theorem isDigit_ne_char (c x : Char) (h : c.isDigit = true) (hx : x.isDigit = false) :
    (c == x) = false := by
  cases hb : (c == x)
  · rfl
  · have hcx := eq_of_beq hb
    subst hcx
    rw [h] at hx
    exact absurd hx (by decide)

theorem takeWhile_all {p : Char → Bool} (l : List Char) (h : ∀ c ∈ l, p c = true) :
    l.takeWhile p = l := by
  induction l with
  | nil => rfl
  | cons x xs ih =>
    simp [List.takeWhile_cons, h x (by simp), ih (fun c hc => h c (by simp [hc]))]

theorem dropWhile_all {p : Char → Bool} (l : List Char) (h : ∀ c ∈ l, p c = true) :
    l.dropWhile p = [] := by
  induction l with
  | nil => rfl
  | cons x xs ih =>
    simp [List.dropWhile_cons, h x (by simp), ih (fun c hc => h c (by simp [hc]))]

theorem pyStripL_nospace (l : List Char) (h : ∀ c ∈ l, isPySpace c = false) :
    pyStripL l = l := by
  have hdrop : ∀ (m : List Char), (∀ c ∈ m, isPySpace c = false) →
      m.dropWhile isPySpace = m := by
    intro m hm
    cases m with
    | nil => rfl
    | cons x xs => rw [List.dropWhile_cons, if_neg (by simp [hm x (by simp)])]
  unfold pyStripL
  rw [hdrop l h, hdrop l.reverse (fun c hc => h c (List.mem_reverse.mp hc)),
    List.reverse_reverse]

/-! ### Exponent-notation and rounding lemmas -/

theorem parseExpDigits_digits (l : List Char) (hne : l ≠ [])
    (h : ∀ c ∈ l, c.isDigit = true) :
    parseExpDigits l = some (digitsValNat l : ℤ) := by
  have hie : l.isEmpty = false := by
    cases l
    · exact absurd rfl hne
    · rfl
  unfold parseExpDigits
  rw [takeWhile_all l h, dropWhile_all l h, hie, if_neg (by decide)]

theorem parseExpTail_expChars (e : ℤ) :
    parseExpTail ((if e < 0 then '-' else '+') :: padZeros (natDigitChars e.natAbs) 2) =
      some e := by
  have hpadd : ∀ c ∈ padZeros (natDigitChars e.natAbs) 2, c.isDigit = true :=
    padZeros_isDigit _ 2 (natDigitChars_isDigit _)
  have hpne : padZeros (natDigitChars e.natAbs) 2 ≠ [] := by
    intro hc
    have hl := padZeros_length (natDigitChars e.natAbs) 2
    rw [hc] at hl
    simp at hl
    omega
  have hval : digitsValNat (padZeros (natDigitChars e.natAbs) 2) = e.natAbs := by
    rw [digitsValNat_padZeros, digitsValNat_natDigitChars]
  by_cases he : e < 0
  · rw [if_pos he]
    unfold parseExpTail
    simp only [List.headD_cons, List.tail_cons]
    rw [if_neg (by decide), if_pos (by decide),
      parseExpDigits_digits _ hpne hpadd, hval, Option.map_some']
    congr 1
    omega
  · rw [if_neg he]
    unfold parseExpTail
    simp only [List.headD_cons, List.tail_cons]
    rw [if_pos (by decide), parseExpDigits_digits _ hpne hpadd, hval]
    congr 1
    omega

theorem rne_intCast (m : ℤ) : rne (m : ℚ) = m := by
  unfold rne
  dsimp only
  rw [Int.floor_intCast, if_pos (by norm_num)]

theorem rne_bounds (q : ℚ) : ⌊q⌋ ≤ rne q ∧ rne q ≤ ⌊q⌋ + 1 := by
  unfold rne
  dsimp only
  split
  · exact ⟨le_rfl, by omega⟩
  · split
    · exact ⟨by omega, le_rfl⟩
    · split
      · exact ⟨le_rfl, by omega⟩
      · exact ⟨by omega, le_rfl⟩

theorem natLog10Aux_eq (fuel n : ℕ) (h : n ≤ fuel) :
    natLog10Aux fuel n = Nat.log 10 n := by
  induction fuel generalizing n with
  | zero =>
    have hn : n = 0 := Nat.le_zero.mp h
    subst hn
    rw [show natLog10Aux 0 0 = 0 from rfl, Nat.log_zero_right]
  | succ f ih =>
    show (if n < 10 then 0 else natLog10Aux f (n / 10) + 1) = Nat.log 10 n
    by_cases hn : n < 10
    · rw [if_pos hn, Nat.log_of_lt hn]
    · have hd : n / 10 < n := Nat.div_lt_self (by omega) (by norm_num)
      rw [if_neg hn, Nat.log_of_one_lt_of_le (by norm_num) (by omega),
        ih (n / 10) (by omega)]

theorem natLog10_eq_log (n : ℕ) : natLog10 n = Nat.log 10 n :=
  natLog10Aux_eq n n le_rfl

theorem natClog10Aux_eq (fuel n : ℕ) (h : n ≤ fuel) :
    natClog10Aux fuel n = Nat.clog 10 n := by
  induction fuel generalizing n with
  | zero =>
    have hn : n = 0 := Nat.le_zero.mp h
    subst hn
    rw [show natClog10Aux 0 0 = 0 from rfl, Nat.clog_of_right_le_one (by norm_num)]
  | succ f ih =>
    show (if n ≤ 1 then 0 else natClog10Aux f ((n + 9) / 10) + 1) = Nat.clog 10 n
    by_cases hn : n ≤ 1
    · rw [if_pos hn, Nat.clog_of_right_le_one hn]
    · have hd : (n + 9) / 10 < n := by omega
      rw [if_neg hn, Nat.clog_of_two_le (by norm_num) (by omega),
        ih ((n + 9) / 10) (by omega)]
      norm_num

theorem natClog10_eq_clog (n : ℕ) : natClog10 n = Nat.clog 10 n :=
  natClog10Aux_eq n n le_rfl

theorem qlog10_eq_log (x : ℚ) : qlog10 x = Int.log 10 x := by
  unfold qlog10 Int.log
  rw [natLog10_eq_log, natClog10_eq_clog]

theorem qlog10_bounds (x : ℚ) (hx : 0 < x) :
    tenPow (qlog10 x) ≤ x ∧ x < tenPow (qlog10 x + 1) := by
  rw [qlog10_eq_log]
  unfold tenPow
  have hc : ((10 : ℕ) : ℚ) = (10 : ℚ) := by norm_num
  constructor
  · have h1 : ((10 : ℕ) : ℚ) ^ (Int.log 10 x) ≤ x := Int.zpow_log_le_self (by norm_num) hx
    rwa [hc] at h1
  · have h2 : x < ((10 : ℕ) : ℚ) ^ (Int.log 10 x + 1) :=
      Int.lt_zpow_succ_log_self (by norm_num) x
    rwa [hc] at h2

theorem sigDecomp_spec (x : ℚ) (hx : 0 < x) :
    100000 ≤ (sigDecomp x).2 ∧ (sigDecomp x).2 ≤ 999999 := by
  obtain ⟨hlo, hhi⟩ := qlog10_bounds x hx
  have hten : (10 : ℚ) ≠ 0 := by norm_num
  have hp : (0 : ℚ) < (10 : ℚ) ^ (5 - qlog10 x) := zpow_pos (by norm_num) _
  have hy1 : (100000 : ℚ) ≤ x * tenPow (5 - qlog10 x) := by
    unfold tenPow at hlo ⊢
    calc (100000 : ℚ) = (10 : ℚ) ^ (qlog10 x) * (10 : ℚ) ^ (5 - qlog10 x) := by
          rw [← zpow_add₀ hten, show qlog10 x + (5 - qlog10 x) = 5 from by ring]
          norm_num
    _ ≤ x * (10 : ℚ) ^ (5 - qlog10 x) := mul_le_mul_of_nonneg_right hlo (le_of_lt hp)
  have hy2 : x * tenPow (5 - qlog10 x) < 1000000 := by
    unfold tenPow at hhi ⊢
    calc x * (10 : ℚ) ^ (5 - qlog10 x)
        < (10 : ℚ) ^ (qlog10 x + 1) * (10 : ℚ) ^ (5 - qlog10 x) :=
          mul_lt_mul_of_pos_right hhi hp
    _ = (1000000 : ℚ) := by
          rw [← zpow_add₀ hten, show qlog10 x + 1 + (5 - qlog10 x) = 6 from by ring]
          norm_num
  have hf1 : (100000 : ℤ) ≤ ⌊x * tenPow (5 - qlog10 x)⌋ :=
    Int.le_floor.mpr (by exact_mod_cast hy1)
  have hf2 : ⌊x * tenPow (5 - qlog10 x)⌋ < 1000000 :=
    Int.floor_lt.mpr (by exact_mod_cast hy2)
  obtain ⟨hr1, hr2⟩ := rne_bounds (x * tenPow (5 - qlog10 x))
  unfold sigDecomp
  dsimp only
  by_cases hn : (rne (x * tenPow (5 - qlog10 x))).toNat = 1000000
  · rw [if_pos hn]
    exact ⟨by norm_num, by norm_num⟩
  · rw [if_neg hn]
    constructor <;> · simp only []; omega

theorem sigDecomp_recomp (e : ℤ) (n : ℕ) (h1 : 100000 ≤ n) (h2 : n ≤ 999999) :
    sigDecomp ((n : ℚ) * tenPow (e - 5)) = (e, n) := by
  have hten : (10 : ℚ) ≠ 0 := by norm_num
  have hnq : (100000 : ℚ) ≤ (n : ℚ) := by exact_mod_cast h1
  have hnq2 : (n : ℚ) < 1000000 := by
    have : n < 1000000 := by omega
    exact_mod_cast this
  have hppos : (0 : ℚ) < (10 : ℚ) ^ (e - 5) := zpow_pos (by norm_num) _
  have hx : (0 : ℚ) < (n : ℚ) * tenPow (e - 5) := by
    unfold tenPow
    exact mul_pos (by linarith) hppos
  have hlog : qlog10 ((n : ℚ) * tenPow (e - 5)) = e := by
    rw [qlog10_eq_log]
    have hble : ((10 : ℕ) : ℚ) ^ e ≤ (n : ℚ) * tenPow (e - 5) := by
      push_cast
      unfold tenPow
      calc (10 : ℚ) ^ e = (100000 : ℚ) * (10 : ℚ) ^ (e - 5) := by
            rw [show e = 5 + (e - 5) from by ring, zpow_add₀ hten]
            rw [show (5 : ℤ) + (e - 5) - 5 = e - 5 from by ring]
            norm_num
      _ ≤ (n : ℚ) * (10 : ℚ) ^ (e - 5) := mul_le_mul_of_nonneg_right hnq (le_of_lt hppos)
    have hblt : (n : ℚ) * tenPow (e - 5) < ((10 : ℕ) : ℚ) ^ (e + 1) := by
      push_cast
      unfold tenPow
      calc (n : ℚ) * (10 : ℚ) ^ (e - 5)
          < (1000000 : ℚ) * (10 : ℚ) ^ (e - 5) :=
            mul_lt_mul_of_pos_right hnq2 hppos
      _ = (10 : ℚ) ^ (e + 1) := by
            rw [show e + 1 = 6 + (e - 5) from by ring, zpow_add₀ hten]
            norm_num
    have hA := (Int.zpow_le_iff_le_log (by norm_num) hx).mp hble
    have hB := (Int.lt_zpow_iff_log_lt (by norm_num) hx).mp hblt
    omega
  have hmul : (n : ℚ) * tenPow (e - 5) * tenPow (5 - e) = (n : ℚ) := by
    unfold tenPow
    rw [mul_assoc, ← zpow_add₀ hten, show (e - 5) + (5 - e) = 0 from by ring,
      zpow_zero, mul_one]
  have hrne : rne ((n : ℚ)) = (n : ℤ) := by
    have h := rne_intCast (n : ℤ)
    rwa [show (((n : ℤ)) : ℚ) = (n : ℚ) from by push_cast; ring] at h
  unfold sigDecomp
  dsimp only
  rw [hlog, hmul, hrne, Int.toNat_natCast, if_neg (by omega)]

/-! ### Parsing the rendered digits -/

theorem takeWhile_stop {p : Char → Bool} (a : List Char) (c : Char) (r : List Char)
    (ha : ∀ x ∈ a, p x = true) (hc : p c = false) :
    (a ++ c :: r).takeWhile p = a := by
  rw [takeWhile_append_all a _ ha, List.takeWhile_cons, hc]
  simp

theorem dropWhile_stop {p : Char → Bool} (a : List Char) (c : Char) (r : List Char)
    (ha : ∀ x ∈ a, p x = true) (hc : p c = false) :
    (a ++ c :: r).dropWhile p = c :: r := by
  rw [dropWhile_append_all a _ ha, List.dropWhile_cons, hc]
  simp

theorem splitFrac_nil : splitFrac [] = ([], []) := by decide

theorem splitFrac_dot (t : List Char) :
    splitFrac ('.' :: t) = (t.takeWhile Char.isDigit, t.dropWhile Char.isDigit) := by
  unfold splitFrac
  rw [List.headD_cons, if_pos (by decide), List.tail_cons]

theorem splitFrac_nondot (c : Char) (t : List Char) (h : (c == '.') = false) :
    splitFrac (c :: t) = ([], c :: t) := by
  unfold splitFrac
  rw [List.headD_cons, h]
  simp

theorem parseExpPart_nil : parseExpPart [] = some 0 := by decide

theorem parseExpPart_e (t : List Char) : parseExpPart ('e' :: t) = parseExpTail t := by
  unfold parseExpPart
  rw [if_neg (by simp), List.headD_cons, if_pos (by decide), List.tail_cons]

theorem parseUnsigned_eval (l IP FP R2 : List Char) (ex : ℤ)
    (hip : l.takeWhile Char.isDigit = IP)
    (hdrop : splitFrac (l.dropWhile Char.isDigit) = (FP, R2))
    (hexp : parseExpPart R2 = some ex)
    (hne : IP.isEmpty = false) :
    parseUnsigned l =
      some ((digitsValNat (IP ++ FP) : ℚ) / (10 : ℚ) ^ FP.length * tenPow ex) := by
  unfold parseUnsigned
  dsimp only
  rw [hip, hdrop]
  dsimp only
  rw [hne, if_neg (by simp), hexp]

theorem valArith (a b F T : ℕ) (ex e : ℤ) (n : ℕ)
    (hn : n = a * 10 ^ (F + T) + b * 10 ^ T)
    (hee : e - 5 = ex - ((F : ℤ) + (T : ℤ))) :
    ((a * 10 ^ F + b : ℕ) : ℚ) / (10 : ℚ) ^ F * tenPow ex = (n : ℚ) * tenPow (e - 5) := by
  have h10 : (10 : ℚ) ≠ 0 := by norm_num
  subst hn
  unfold tenPow
  rw [hee, zpow_sub₀ h10, zpow_add₀ h10, zpow_natCast, zpow_natCast]
  push_cast
  have hF : (10 : ℚ) ^ F ≠ 0 := pow_ne_zero F h10
  have hT : (10 : ℚ) ^ T ≠ 0 := pow_ne_zero T h10
  field_simp
  ring

theorem digitsValNat_single (c : Char) : digitsValNat [c] = charDig c := by
  simp [digitsValNat, Nat.ofDigits]

theorem digitsValNat_nil : digitsValNat [] = 0 := rfl

/-- `valArith` with the parsed mantissa value abstracted. -/
theorem valArith2 (A F : ℕ) (ex e : ℤ) (n a b T : ℕ)
    (hA : A = a * 10 ^ F + b)
    (hn : n = a * 10 ^ (F + T) + b * 10 ^ T)
    (hee : e - 5 = ex - ((F : ℤ) + (T : ℤ))) :
    ((A : ℚ)) / (10 : ℚ) ^ F * tenPow ex = (n : ℚ) * tenPow (e - 5) := by
  subst hA
  exact valArith a b F T ex e n hn hee

theorem digitsValNat_repl0_append (z : ℕ) (l : List Char) :
    digitsValNat (List.replicate z '0' ++ l) = digitsValNat l := by
  rw [digitsValNat_append, digitsValNat_replicate0]
  simp

theorem natDigitChars_len6 (n : ℕ) (h1 : 100000 ≤ n) (h2 : n ≤ 999999) :
    (natDigitChars n).length = 6 := by
  rw [natDigitChars_length n (by omega)]
  have e5 : (10 : ℕ) ^ 5 = 100000 := by norm_num
  have e6 : (10 : ℕ) ^ (5 + 1) = 1000000 := by norm_num
  have hlog : Nat.log 10 n = 5 := Nat.log_eq_of_pow_le_of_lt_pow (by omega) (by omega)
  omega

/-- Parse of the fixed-notation layout `D.take k [. frac]`. -/
theorem parseUnsigned_fixed (D : List Char) (k : ℕ)
    (hk1 : 1 ≤ k) (hk6 : k ≤ 6) (hlen : D.length = 6)
    (hd : ∀ c ∈ D, c.isDigit = true) :
    parseUnsigned (D.take k ++
        (if (stzL (D.drop k)).isEmpty then [] else '.' :: stzL (D.drop k))) =
      some ((digitsValNat D : ℚ) * tenPow (((k : ℤ) - 1) - 5)) := by
  obtain ⟨t, ht⟩ := stzL_decomp (D.drop k)
  have htake_d : ∀ c ∈ D.take k, c.isDigit = true :=
    fun c hc => hd c (List.take_subset _ _ hc)
  have hfp_d : ∀ c ∈ stzL (D.drop k), c.isDigit = true :=
    fun c hc => hd c (List.drop_subset _ _ (stzL_subset _ hc))
  have htake_len : (D.take k).length = k := by
    rw [List.length_take]
    omega
  have htake_ne : (D.take k).isEmpty = false := by
    cases hcc : D.take k
    · rw [hcc] at htake_len
      simp at htake_len
      omega
    · rfl
  have hdrop_len : (D.drop k).length = 6 - k := by rw [List.length_drop, hlen]
  have hlsplit : 6 - k = (stzL (D.drop k)).length + t := by
    rw [← hdrop_len]
    conv_lhs => rw [ht]
    rw [List.length_append, List.length_replicate]
  have hn : digitsValNat D =
      digitsValNat (D.take k) * 10 ^ ((stzL (D.drop k)).length + t) +
        digitsValNat (stzL (D.drop k)) * 10 ^ t := by
    conv_lhs => rw [← List.take_append_drop k D]
    rw [digitsValNat_append, digitsValNat_stz (D.drop k) t ht, hdrop_len, hlsplit]
  have hee : ((k : ℤ) - 1) - 5 = 0 - (((stzL (D.drop k)).length : ℤ) + (t : ℤ)) := by
    omega
  by_cases hfpe : (stzL (D.drop k)).isEmpty = true
  · have hfp_nil : stzL (D.drop k) = [] := List.isEmpty_iff.mp hfpe
    rw [if_pos hfpe, List.append_nil,
      parseUnsigned_eval (D.take k) (D.take k) [] [] 0 (takeWhile_all _ htake_d)
        (by rw [dropWhile_all _ htake_d, splitFrac_nil]) parseExpPart_nil htake_ne]
    congr 1
    have hA : digitsValNat (D.take k ++ []) =
        digitsValNat (D.take k) * 10 ^ (([] : List Char)).length + 0 := by
      rw [List.append_nil]
      simp
    refine valArith2 _ _ 0 ((k : ℤ) - 1) _ (digitsValNat (D.take k)) 0 t hA ?_ ?_
    · rw [hn, hfp_nil]
      simp [digitsValNat_nil]
    · rw [hfp_nil] at hee
      simpa using hee
  · rw [if_neg hfpe,
      parseUnsigned_eval (D.take k ++ '.' :: stzL (D.drop k)) (D.take k)
        (stzL (D.drop k)) [] 0
        (takeWhile_stop _ _ _ htake_d (by decide))
        (by rw [dropWhile_stop _ _ _ htake_d (by decide), splitFrac_dot,
              takeWhile_all _ hfp_d, dropWhile_all _ hfp_d])
        parseExpPart_nil htake_ne]
    congr 1
    exact valArith2 _ _ 0 ((k : ℤ) - 1) _ (digitsValNat (D.take k))
      (digitsValNat (stzL (D.drop k))) t (digitsValNat_append _ _) hn hee

/-- Parse of the small-magnitude layout `0.00...frac`. -/
theorem parseUnsigned_small (D : List Char) (z : ℕ) (hlen : D.length = 6)
    (hd : ∀ c ∈ D, c.isDigit = true) :
    parseUnsigned ('0' :: '.' :: (List.replicate z '0' ++ stzL D)) =
      some ((digitsValNat D : ℚ) * tenPow ((-(z : ℤ) - 1) - 5)) := by
  obtain ⟨t, ht⟩ := stzL_decomp D
  have hstz_d : ∀ c ∈ stzL D, c.isDigit = true := fun c hc => hd c (stzL_subset D hc)
  have hr_d : ∀ c ∈ List.replicate z '0' ++ stzL D, c.isDigit = true := by
    intro c hc
    rcases List.mem_append.mp hc with h | h
    · rw [List.eq_of_mem_replicate h]
      decide
    · exact hstz_d c h
  have hlsplit : 6 = (stzL D).length + t := by
    rw [← hlen]
    conv_lhs => rw [ht]
    rw [List.length_append, List.length_replicate]
  have hvD : digitsValNat D = digitsValNat (stzL D) * 10 ^ t := digitsValNat_stz D t ht
  rw [show ('0' :: '.' :: (List.replicate z '0' ++ stzL D)) =
      ['0'] ++ '.' :: (List.replicate z '0' ++ stzL D) from rfl,
    parseUnsigned_eval _ ['0'] (List.replicate z '0' ++ stzL D) [] 0
      (takeWhile_stop ['0'] '.' _ (by decide) (by decide))
      (by rw [dropWhile_stop ['0'] '.' _ (by decide) (by decide), splitFrac_dot,
            takeWhile_all _ hr_d, dropWhile_all _ hr_d])
      parseExpPart_nil (by decide)]
  congr 1
  have hF : (List.replicate z '0' ++ stzL D).length = z + (stzL D).length := by
    rw [List.length_append, List.length_replicate]
  have hA : digitsValNat (['0'] ++ (List.replicate z '0' ++ stzL D)) =
      0 * 10 ^ (List.replicate z '0' ++ stzL D).length + digitsValNat (stzL D) := by
    rw [show (['0'] ++ (List.replicate z '0' ++ stzL D)) =
        '0' :: (List.replicate z '0' ++ stzL D) from rfl,
      digitsValNat_cons0, digitsValNat_repl0_append]
    ring
  refine valArith2 _ _ 0 (-(z : ℤ) - 1) _ 0 (digitsValNat (stzL D)) t hA ?_ ?_
  · rw [hvD]
    ring
  · rw [hF]
    omega

/-- Parse of the scientific layout `d[.frac]e±NN`. -/
theorem parseUnsigned_sci (D : List Char) (e : ℤ) (hlen : D.length = 6)
    (hd : ∀ c ∈ D, c.isDigit = true) :
    parseUnsigned (D.headD '0' ::
        ((if (stzL D.tail).isEmpty then [] else '.' :: stzL D.tail) ++ expChars e)) =
      some ((digitsValNat D : ℚ) * tenPow (e - 5)) := by
  cases D with
  | nil => simp at hlen
  | cons d0 Dt =>
    simp only [List.headD_cons, List.tail_cons]
    have hd0 : d0.isDigit = true := hd d0 (by simp)
    have hDt_d : ∀ c ∈ Dt, c.isDigit = true := fun c hc => hd c (by simp [hc])
    have hm_d : ∀ c ∈ stzL Dt, c.isDigit = true := fun c hc => hDt_d c (stzL_subset Dt hc)
    have hd0_l : ∀ c ∈ [d0], c.isDigit = true := by
      intro c hc
      simp at hc
      subst hc
      exact hd0
    have hDtlen : Dt.length = 5 := by
      simp at hlen
      omega
    obtain ⟨t, ht⟩ := stzL_decomp Dt
    have hlsplit : 5 = (stzL Dt).length + t := by
      rw [← hDtlen]
      conv_lhs => rw [ht]
      rw [List.length_append, List.length_replicate]
    have hvD : digitsValNat (d0 :: Dt) =
        charDig d0 * 10 ^ ((stzL Dt).length + t) + digitsValNat (stzL Dt) * 10 ^ t := by
      rw [show (d0 :: Dt) = [d0] ++ Dt from rfl, digitsValNat_append,
        digitsValNat_single, digitsValNat_stz Dt t ht, hDtlen, hlsplit]
    have hee : e - 5 = e - (((stzL Dt).length : ℤ) + (t : ℤ)) := by omega
    unfold expChars
    by_cases hme : (stzL Dt).isEmpty = true
    · have hm_nil : stzL Dt = [] := List.isEmpty_iff.mp hme
      rw [if_pos hme, List.nil_append,
        show (d0 :: 'e' :: (if e < 0 then '-' else '+') ::
            padZeros (natDigitChars e.natAbs) 2) =
          [d0] ++ 'e' :: ((if e < 0 then '-' else '+') ::
            padZeros (natDigitChars e.natAbs) 2) from rfl,
        parseUnsigned_eval _ [d0] []
          ('e' :: ((if e < 0 then '-' else '+') :: padZeros (natDigitChars e.natAbs) 2)) e
          (takeWhile_stop [d0] 'e' _ hd0_l (by decide))
          (by rw [dropWhile_stop [d0] 'e' _ hd0_l (by decide),
                splitFrac_nondot 'e' _ (by decide)])
          (by rw [parseExpPart_e]
              exact parseExpTail_expChars e)
          rfl]
      congr 1
      have hA : digitsValNat ([d0] ++ ([] : List Char)) =
          charDig d0 * 10 ^ (([] : List Char)).length + 0 := by
        rw [List.append_nil, digitsValNat_single]
        simp
      refine valArith2 _ _ e e _ (charDig d0) 0 5 hA ?_ ?_
      · have ht5 : t = 5 := by
          rw [hm_nil] at hlsplit
          simp at hlsplit
          omega
        rw [hvD, hm_nil, ht5]
        simp [digitsValNat_nil]
      · rw [hm_nil] at hee
        have ht5 : t = 5 := by
          rw [hm_nil] at hlsplit
          simp at hlsplit
          omega
        rw [ht5] at hee
        simp
    · rw [if_neg hme,
        show (d0 :: ('.' :: stzL Dt ++ 'e' :: (if e < 0 then '-' else '+') ::
            padZeros (natDigitChars e.natAbs) 2)) =
          [d0] ++ '.' :: (stzL Dt ++ 'e' :: ((if e < 0 then '-' else '+') ::
            padZeros (natDigitChars e.natAbs) 2)) from by simp,
        parseUnsigned_eval _ [d0] (stzL Dt)
          ('e' :: ((if e < 0 then '-' else '+') :: padZeros (natDigitChars e.natAbs) 2)) e
          (takeWhile_stop [d0] '.' _ hd0_l (by decide))
          (by rw [dropWhile_stop [d0] '.' _ hd0_l (by decide), splitFrac_dot,
                takeWhile_stop _ 'e' _ hm_d (by decide),
                dropWhile_stop _ 'e' _ hm_d (by decide)])
          (by rw [parseExpPart_e]
              exact parseExpTail_expChars e)
          rfl]
      congr 1
      have hA : digitsValNat ([d0] ++ stzL Dt) =
          charDig d0 * 10 ^ (stzL Dt).length + digitsValNat (stzL Dt) := by
        rw [digitsValNat_append, digitsValNat_single]
      exact valArith2 _ _ e e _ (charDig d0) (digitsValNat (stzL Dt)) t hA hvD hee

/-- Parse inverts the rendered digit layout exactly. -/
theorem parseUnsigned_renderPos (e : ℤ) (n : ℕ) (h1 : 100000 ≤ n) (h2 : n ≤ 999999) :
    parseUnsigned (renderPos e n) = some ((n : ℚ) * tenPow (e - 5)) := by
  have hDd := natDigitChars_isDigit n
  have hDlen := natDigitChars_len6 n h1 h2
  have hDval := digitsValNat_natDigitChars n
  unfold renderPos
  dsimp only
  by_cases he : -4 ≤ e ∧ e < 6
  · rw [if_pos he]
    by_cases he0 : 0 ≤ e
    · rw [if_pos he0,
        parseUnsigned_fixed (natDigitChars n) (e.toNat + 1) (by omega) (by omega) hDlen hDd,
        hDval]
      have hexp : ((e.toNat + 1 : ℕ) : ℤ) - 1 - 5 = e - 5 := by omega
      rw [hexp]
    · rw [if_neg he0,
        parseUnsigned_small (natDigitChars n) ((-(e + 1)).toNat) hDlen hDd, hDval]
      have hexp : -(((-(e + 1)).toNat : ℕ) : ℤ) - 1 - 5 = e - 5 := by omega
      rw [hexp]
  · rw [if_neg he, parseUnsigned_sci (natDigitChars n) e hDlen hDd, hDval]

/-! ### The formatter–parser round trip -/

theorem recomp6_pos (p : ℤ × ℕ) (h : 100000 ≤ p.2) : 0 < recomp6 p := by
  unfold recomp6 tenPow
  apply mul_pos
  · exact_mod_cast (by omega : 0 < p.2)
  · exact zpow_pos (by norm_num) _

theorem round6_zero : round6 0 = 0 := by
  unfold round6
  rw [if_pos rfl]

theorem round6_pos_eq (x : ℚ) (hx : 0 < x) : round6 x = recomp6 (sigDecomp x) := by
  unfold round6
  rw [if_neg (ne_of_gt hx), if_neg (not_lt.mpr (le_of_lt hx))]

theorem round6_neg_eq (x : ℚ) (hx : x < 0) : round6 x = -recomp6 (sigDecomp (-x)) := by
  unfold round6
  rw [if_neg (ne_of_lt hx), if_pos hx]

theorem sigDecomp_recomp6 (p : ℤ × ℕ) (h1 : 100000 ≤ p.2) (h2 : p.2 ≤ 999999) :
    sigDecomp (recomp6 p) = p := by
  rw [show recomp6 p = (p.2 : ℚ) * tenPow (p.1 - 5) from rfl,
    sigDecomp_recomp p.1 p.2 h1 h2]

theorem sigDecomp_round6 (x : ℚ) (hx : 0 < x) :
    sigDecomp (round6 x) = sigDecomp x := by
  obtain ⟨h1, h2⟩ := sigDecomp_spec x hx
  rw [round6_pos_eq x hx, sigDecomp_recomp6 _ h1 h2]

theorem gfmt_round6 (x : ℚ) : gfmt (round6 x) = gfmt x := by
  rcases lt_trichotomy x 0 with hx | hx | hx
  · have hnx : 0 < -x := by linarith
    obtain ⟨h1, h2⟩ := sigDecomp_spec (-x) hnx
    have hpos : 0 < recomp6 (sigDecomp (-x)) := recomp6_pos _ h1
    have hrx : round6 x = -recomp6 (sigDecomp (-x)) := round6_neg_eq x hx
    have hlt : round6 x < 0 := by rw [hrx]; linarith
    have hsd : sigDecomp (-round6 x) = sigDecomp (-x) := by
      rw [hrx, neg_neg, sigDecomp_recomp6 _ h1 h2]
    unfold gfmt
    rw [if_neg (ne_of_lt hlt), if_pos hlt, if_neg (ne_of_lt hx), if_pos hx, hsd]
  · subst hx
    rw [round6_zero]
  · obtain ⟨h1, h2⟩ := sigDecomp_spec x hx
    have hpos : 0 < round6 x := by
      rw [round6_pos_eq x hx]
      exact recomp6_pos _ h1
    have hsd : sigDecomp (round6 x) = sigDecomp x := sigDecomp_round6 x hx
    unfold gfmt
    rw [if_neg (ne_of_gt hpos), if_neg (not_lt.mpr (le_of_lt hpos)),
      if_neg (ne_of_gt hx), if_neg (not_lt.mpr (le_of_lt hx)), hsd]

/-- Character classes of the rendered digit layout. -/
theorem renderPos_chars (e : ℤ) (n : ℕ) : ∀ c ∈ renderPos e n,
    c.isDigit = true ∨ c = '.' ∨ c = 'e' ∨ c = '+' ∨ c = '-' := by
  intro c hc
  unfold renderPos at hc
  dsimp only at hc
  split at hc
  · split at hc
    · rcases List.mem_append.mp hc with h | h
      · exact Or.inl (natDigitChars_isDigit n c (List.take_subset _ _ h))
      · split at h
        · simp at h
        · rcases List.mem_cons.mp h with rfl | h
          · exact Or.inr (Or.inl rfl)
          · exact Or.inl (natDigitChars_isDigit n c
              (List.drop_subset _ _ (stzL_subset _ h)))
    · rcases List.mem_cons.mp hc with rfl | hc
      · exact Or.inl (by decide)
      rcases List.mem_cons.mp hc with rfl | hc
      · exact Or.inr (Or.inl rfl)
      rcases List.mem_append.mp hc with h | h
      · rw [List.eq_of_mem_replicate h]
        exact Or.inl (by decide)
      · exact Or.inl (natDigitChars_isDigit n c (stzL_subset _ h))
  · rcases List.mem_cons.mp hc with rfl | hc
    · cases hD : natDigitChars n with
      | nil => exact Or.inl (by decide)
      | cons d0 Dt =>
        rw [List.headD_cons]
        exact Or.inl (natDigitChars_isDigit n d0 (by rw [hD]; simp))
    · rcases List.mem_append.mp hc with h | h
      · split at h
        · simp at h
        · rcases List.mem_cons.mp h with rfl | h
          · exact Or.inr (Or.inl rfl)
          · exact Or.inl (natDigitChars_isDigit n c
              (List.tail_subset _ (stzL_subset _ h)))
      · unfold expChars at h
        rcases List.mem_cons.mp h with rfl | h
        · exact Or.inr (Or.inr (Or.inl rfl))
        rcases List.mem_cons.mp h with rfl | h
        · split
          · exact Or.inr (Or.inr (Or.inr (Or.inr rfl)))
          · exact Or.inr (Or.inr (Or.inr (Or.inl rfl)))
        · exact Or.inl (padZeros_isDigit _ 2 (natDigitChars_isDigit _) c h)

theorem renderPos_nospace (e : ℤ) (n : ℕ) :
    ∀ c ∈ renderPos e n, isPySpace c = false := by
  intro c hc
  rcases renderPos_chars e n c hc with h | rfl | rfl | rfl | rfl
  · exact isDigit_not_pySpace c h
  all_goals decide

theorem renderPos_head_digit (e : ℤ) (n : ℕ) (h1 : 100000 ≤ n) (h2 : n ≤ 999999) :
    ((renderPos e n).headD ' ').isDigit = true := by
  have hDd := natDigitChars_isDigit n
  have hDlen := natDigitChars_len6 n h1 h2
  unfold renderPos
  dsimp only
  by_cases he : -4 ≤ e ∧ e < 6
  · rw [if_pos he]
    by_cases he0 : 0 ≤ e
    · rw [if_pos he0]
      cases hD : natDigitChars n with
      | nil =>
        rw [hD] at hDlen
        simp at hDlen
      | cons d0 Dt =>
        rw [List.take_succ_cons, List.cons_append, List.headD_cons]
        exact hDd d0 (by rw [hD]; simp)
    · rw [if_neg he0, List.headD_cons]
      decide
  · rw [if_neg he]
    cases hD : natDigitChars n with
    | nil =>
      rw [hD] at hDlen
      simp at hDlen
    | cons d0 Dt =>
      rw [List.headD_cons, List.headD_cons]
      exact hDd d0 (by rw [hD]; simp)

theorem renderPos_ne_nil (e : ℤ) (n : ℕ) (h1 : 100000 ≤ n) (h2 : n ≤ 999999) :
    renderPos e n ≠ [] := by
  intro hc
  have h := renderPos_head_digit e n h1 h2
  rw [hc] at h
  exact absurd h (by decide)

theorem tokenStr_mk (l : List Char) (hne : l ≠ [])
    (h : ∀ c ∈ l, (!(isPySpace c) && !(c == '"') && !(c == '\x27') && !(c == '\\')) = true) :
    tokenStr (String.mk l) = true := by
  unfold tokenStr tokenSafeStr
  rw [show (String.mk l).data = l from rfl, List.all_eq_true.mpr h]
  have hie : l.isEmpty = false := by
    cases l
    · exact absurd rfl hne
    · rfl
  rw [hie]
  rfl

theorem renderPos_tokenChar (e : ℤ) (n : ℕ) : ∀ c ∈ renderPos e n,
    (!(isPySpace c) && !(c == '"') && !(c == '\x27') && !(c == '\\')) = true := by
  intro c hc
  rcases renderPos_chars e n c hc with h | rfl | rfl | rfl | rfl
  · rw [isDigit_not_pySpace c h, isDigit_ne_char c '"' h (by decide),
      isDigit_ne_char c '\x27' h (by decide), isDigit_ne_char c '\\' h (by decide)]
    rfl
  all_goals decide

theorem tokenStr_gfmt (x : ℚ) : tokenStr (gfmt x) = true := by
  unfold gfmt
  split
  · decide
  · split
    · rename_i hx0 hxneg
      apply tokenStr_mk
      · simp
      · intro c hc
        rcases List.mem_cons.mp hc with rfl | hc
        · decide
        · exact renderPos_tokenChar _ _ c hc
    · rename_i hx0 hxneg
      have hxp : 0 < x := lt_of_le_of_ne (not_lt.mp hxneg) (Ne.symm hx0)
      obtain ⟨h1, h2⟩ := sigDecomp_spec x hxp
      apply tokenStr_mk
      · exact renderPos_ne_nil _ _ h1 h2
      · intro c hc
        exact renderPos_tokenChar _ _ c hc

unseal Rat.mul Rat.add Rat.sub Rat.inv Rat.ofScientific in
theorem parseFloatQ_gfmt (x : ℚ) : parseFloatQ (gfmt x) = some (round6 x) := by
  unfold parseFloatQ gfmt
  split
  · rename_i hx0
    subst hx0
    rw [round6_zero]
    decide
  · split
    · rename_i hx0 hxneg
      have hnx : 0 < -x := by linarith
      obtain ⟨hb1, hb2⟩ := sigDecomp_spec (-x) hnx
      show parseFloatL ('-' :: renderPos (sigDecomp (-x)).1 (sigDecomp (-x)).2) =
        some (round6 x)
      unfold parseFloatL
      dsimp only
      rw [pyStripL_nospace _ (by
          intro c hc
          rcases List.mem_cons.mp hc with rfl | hc
          · decide
          · exact renderPos_nospace _ _ c hc),
        List.headD_cons, if_neg (by decide), if_pos (by decide), List.tail_cons,
        parseUnsigned_renderPos _ _ hb1 hb2, Option.map_some', round6_neg_eq x hxneg]
      rfl
    · rename_i hx0 hxneg
      have hxp : 0 < x := lt_of_le_of_ne (not_lt.mp hxneg) (Ne.symm hx0)
      obtain ⟨hb1, hb2⟩ := sigDecomp_spec x hxp
      show parseFloatL (renderPos (sigDecomp x).1 (sigDecomp x).2) = some (round6 x)
      unfold parseFloatL
      dsimp only
      rw [pyStripL_nospace _ (renderPos_nospace _ _)]
      have hhd := renderPos_head_digit (sigDecomp x).1 (sigDecomp x).2 hb1 hb2
      rw [isDigit_ne_char _ '+' hhd (by decide), if_neg (by decide),
        isDigit_ne_char _ '-' hhd (by decide), if_neg (by decide),
        parseUnsigned_renderPos _ _ hb1 hb2, round6_pos_eq x hxp]
      rfl

/-! ### Normalisation idempotence -/

theorem charToNat_ofNat (n : ℕ) (h : n.isValidChar) : (Char.ofNat n).toNat = n := by
  unfold Char.ofNat
  rw [dif_pos h]
  show (UInt32.toNat { toBitVec := _ }) = n
  unfold UInt32.toNat
  rw [BitVec.toNat_ofNatLt]

theorem char_toNat_inj (c d : Char) (h : c.toNat = d.toNat) : c = d :=
  Char.ext (UInt32.ext h)

theorem toLower_toNat (c : Char) :
    (Char.toLower c).toNat =
      if 65 ≤ c.toNat ∧ c.toNat ≤ 90 then c.toNat + 32 else c.toNat := by
  unfold Char.toLower
  dsimp only
  split
  · rename_i h
    exact charToNat_ofNat _ (Or.inl (by omega))
  · rfl

theorem isPySpace_toLower (c : Char) : isPySpace (Char.toLower c) = isPySpace c := by
  by_cases h : 65 ≤ c.toNat ∧ c.toNat ≤ 90
  · have ht : (Char.toLower c).toNat = c.toNat + 32 := by
      rw [toLower_toNat, if_pos h]
    have hrc : isPySpace c = false := by
      cases hsp : isPySpace c
      · rfl
      · exfalso
        unfold isPySpace at hsp
        simp only [Bool.or_eq_true, beq_iff_eq] at hsp
        rcases hsp with ((((rfl | rfl) | rfl) | rfl) | rfl) | rfl <;>
          exact absurd h (by decide)
    rw [hrc]
    cases hsp : isPySpace (Char.toLower c)
    · rfl
    · exfalso
      unfold isPySpace at hsp
      simp only [Bool.or_eq_true, beq_iff_eq] at hsp
      rcases hsp with ((((he | he) | he) | he) | he) | he <;>
        · have h2 := congrArg Char.toNat he
          rw [ht] at h2
          simp only [show (' ' : Char).toNat = 32 from rfl,
            show ('\t' : Char).toNat = 9 from rfl,
            show ('\n' : Char).toNat = 10 from rfl,
            show ('\r' : Char).toNat = 13 from rfl,
            show ('\x0b' : Char).toNat = 11 from rfl,
            show ('\x0c' : Char).toNat = 12 from rfl] at h2
          omega
  · have ht : Char.toLower c = c := by
      unfold Char.toLower
      dsimp only
      rw [if_neg h]
    rw [ht]

theorem toLower_idem (c : Char) : Char.toLower (Char.toLower c) = Char.toLower c := by
  have hcond : ¬(65 ≤ (Char.toLower c).toNat ∧ (Char.toLower c).toNat ≤ 90) := by
    intro hc
    rw [toLower_toNat c] at hc
    by_cases h : 65 ≤ c.toNat ∧ c.toNat ≤ 90
    · rw [if_pos h] at hc
      omega
    · rw [if_neg h] at hc
      exact h hc
  apply char_toNat_inj
  rw [toLower_toNat (Char.toLower c), if_neg hcond]

theorem pyLower_idem (s : String) : pyLower (pyLower s) = pyLower s := by
  unfold pyLower
  rw [show (String.mk (s.data.map Char.toLower)).data = s.data.map Char.toLower from rfl,
    List.map_map]
  apply congrArg String.mk
  apply List.map_congr_left
  intro c hc
  exact toLower_idem c

theorem dropWhile_toLower (l : List Char) :
    (l.map Char.toLower).dropWhile isPySpace = (l.dropWhile isPySpace).map Char.toLower := by
  rw [List.dropWhile_map,
    show (isPySpace ∘ Char.toLower) = isPySpace from funext isPySpace_toLower]

theorem pyStripL_map_toLower (l : List Char) :
    pyStripL (l.map Char.toLower) = (pyStripL l).map Char.toLower := by
  unfold pyStripL
  rw [dropWhile_toLower, ← List.map_reverse, dropWhile_toLower, ← List.map_reverse]

theorem pyStrip_pyLower (s : String) : pyStrip (pyLower s) = pyLower (pyStrip s) := by
  unfold pyStrip pyLower
  rw [show (String.mk (s.data.map Char.toLower)).data = s.data.map Char.toLower from rfl,
    pyStripL_map_toLower]

theorem dropWhile_head_false {p : Char → Bool} (l : List Char) :
    ∀ hd, (l.dropWhile p).head? = some hd → p hd = false := by
  induction l with
  | nil =>
    intro hd h
    simp at h
  | cons x xs ih =>
    intro hd h
    rw [List.dropWhile_cons] at h
    cases hx : p x with
    | true =>
      rw [hx] at h
      simp at h
      exact ih hd h
    | false =>
      rw [hx] at h
      simp at h
      rw [← h]
      exact hx

theorem dropWhile_eq_self_of_head {p : Char → Bool} (l : List Char)
    (h : ∀ hd, l.head? = some hd → p hd = false) : l.dropWhile p = l := by
  cases l with
  | nil => rfl
  | cons x xs => rw [List.dropWhile_cons, if_neg (by simp [h x rfl])]

theorem dropWhile_dropWhile {p : Char → Bool} (l : List Char) :
    (l.dropWhile p).dropWhile p = l.dropWhile p := by
  apply dropWhile_eq_self_of_head
  intro hd hh
  exact dropWhile_head_false l hd hh

theorem rstripL_head (l : List Char) (hd : Char) (h : (rstripL l).head? = some hd) :
    l.head? = some hd := by
  obtain ⟨w, hw, -⟩ := rstripL_decomp l
  cases hr : rstripL l with
  | nil =>
    rw [hr] at h
    simp at h
  | cons a t =>
    rw [hr] at h
    simp at h
    conv_lhs => rw [hw, hr]
    rw [List.cons_append]
    simp [h]

theorem pyStripL_idem (l : List Char) : pyStripL (pyStripL l) = pyStripL l := by
  have h1 : (rstripL (l.dropWhile isPySpace)).dropWhile isPySpace
      = rstripL (l.dropWhile isPySpace) := by
    apply dropWhile_eq_self_of_head
    intro hd hh
    exact dropWhile_head_false l hd (rstripL_head _ hd hh)
  rw [pyStripL_eq, pyStripL_eq, h1]
  unfold rstripL
  rw [List.reverse_reverse, dropWhile_dropWhile]

theorem pyStrip_idem (s : String) : pyStrip (pyStrip s) = pyStrip s := by
  unfold pyStrip
  rw [show (String.mk (pyStripL s.data)).data = pyStripL s.data from rfl, pyStripL_idem]

theorem pyLowerStrip_idem (s : String) :
    pyLower (pyStrip (pyLower (pyStrip s))) = pyLower (pyStrip s) := by
  rw [pyStrip_pyLower, pyStrip_idem, pyLower_idem]

theorem normTok_idem (v : String) :
    ConfigIo.normalizeOutputFormatToken
      (pyLower (pyStrip (ConfigIo.normalizeOutputFormatToken v))) =
      ConfigIo.normalizeOutputFormatToken v := by
  unfold ConfigIo.normalizeOutputFormatToken
  dsimp only
  by_cases h : pyLower (pyStrip v) = "h5"
  · rw [if_pos h]
    decide
  · rw [if_neg h, pyLowerStrip_idem, pyLowerStrip_idem, if_neg h]

theorem data_append_ne (p g : String) (hp : ¬p.data.isEmpty) :
    ¬(p ++ g).data.isEmpty := by
  rw [String.data_append]
  cases hd : p.data
  · rw [hd] at hp
    simp at hp
  · simp

theorem headD_lit2 (p g u : String) (hne : ¬p.data.isEmpty) :
    ((p ++ g) ++ u).data.headD ' ' = p.data.headD ' ' := by
  rw [headD_append _ u (data_append_ne p g hne), headD_append p g hne]

theorem tokenize3 (p g u : String) (hp : tokenStr p) (hg : tokenStr g) (hu : tokenStr u) :
    tokenize (((p ++ " ") ++ g) ++ (" " ++ u)) = [p, g, u] := by
  rw [String.append_assoc, tokenize_append_space p _ hp, ← String.append_assoc,
    tokenize_append_space g u hg, tokenize_tokenStr u hu]

/-- A slash-led line is dispatched on its whitespace tokens. -/
theorem macStep_slash (st : ConfigIo.MacState) (s : String)
    (h : s.data.headD ' ' = '/') :
    ConfigIo.macStep st s = ConfigIo.macStepTokens st (tokenize s) := by
  unfold ConfigIo.macStep
  have h1 := pyStrip_head_slash s h
  have hne : (pyStrip s).data.isEmpty = false := by
    cases hd : (pyStrip s).data
    · rw [hd] at h1
      exact absurd h1 (by decide)
    · rfl
  have hh : ((pyStrip s).data.headD ' ' == '#') = false := by
    rw [h1]
    decide
  rw [hne, hh, if_neg (by decide), tokenize_pyStrip]

theorem isAbs_resolvePathM (p base : String) (hb : ConfigIo.isAbsStr base = true) :
    ConfigIo.isAbsStr (ConfigIo.resolvePathM p base) = true := by
  unfold ConfigIo.resolvePathM
  by_cases hp : ConfigIo.isAbsStr p = true
  · rw [if_pos hp]
    exact hp
  · rw [if_neg hp]
    unfold ConfigIo.isAbsStr at hb ⊢
    have hbne : ¬base.data.isEmpty := by
      intro he
      rw [List.isEmpty_iff] at he
      rw [show base.data.headD ' ' = ' ' from by rw [he]; rfl] at hb
      exact absurd hb (by decide)
    rw [headD_append _ _ (data_append_ne base "/" hbne), headD_append base "/" hbne]
    exact hb

theorem isAbs_workingDir (c : HConfig) :
    ConfigIo.isAbsStr (ConfigIo.workingDirRes c) = true :=
  isAbs_resolvePathM _ _ (by decide)

theorem isAbs_resolveData (c : HConfig) :
    ConfigIo.isAbsStr (ConfigIo.resolveDataDirectory c) = true :=
  isAbs_resolvePathM _ _ (isAbs_workingDir c)

theorem resolvePathM_abs (p base : String) (hp : ConfigIo.isAbsStr p = true) :
    ConfigIo.resolvePathM p base = p := by
  unfold ConfigIo.resolvePathM
  rw [if_pos hp]

/-! ### Decode-step evaluation -/

theorem lengthUnitToMm_mm : ConfigIo.lengthUnitToMm "mm" = some 1 := by decide

theorem isClose9_self (a : ℚ) : isClose9 a a = true := by
  unfold isClose9
  rw [sub_self, abs_zero]
  exact decide_eq_true (by norm_num)

theorem parseLengthTokens_mm (p : String) (v : ℚ) :
    ConfigIo.parseLengthTokens [p, gfmt v, "mm"] p = .ok (round6 v) := by
  unfold ConfigIo.parseLengthTokens
  rw [if_neg (by simp),
    show ([p, gfmt v, "mm"].get? 1).getD "" = gfmt v from rfl,
    show parseFloatQ (gfmt v) = some (round6 v) from parseFloatQ_gfmt v,
    show ([p, gfmt v, "mm"].get? 2).getD "" = "mm" from rfl, lengthUnitToMm_mm]
  show Except.ok (round6 v * 1) = Except.ok (round6 v)
  rw [mul_one]

theorem foldlM_step (f : ConfigIo.MacState → String → Except String ConfigIo.MacState)
    (st st' : ConfigIo.MacState) (x : String) (xs : List String)
    (hx : f st x = .ok st') :
    List.foldlM f st (x :: xs) = List.foldlM f st' xs := by
  rw [List.foldlM_cons, hx]
  rfl

theorem step_fmt (st : ConfigIo.MacState) (t : String) (ht : tokenStr t) :
    ConfigIo.macStep st ("/output/format " ++ t) =
      .ok (ConfigIo.setFmt st (pyLower (pyStrip t))) := by
  rw [macStep_slash st _ (by rw [headD_append _ t (by decide)]; decide),
    show ("/output/format " : String) = "/output/format" ++ " " from by decide,
    tokenize_append_space _ _ (by decide), tokenize_tokenStr t ht]
  unfold ConfigIo.macStepTokens
  dsimp only
  rw [if_pos (by simp)]
  rfl

theorem step_path (st : ConfigIo.MacState) (t : String) (ht : tokenStr t) :
    ConfigIo.macStep st ("/output/path " ++ t) =
      .ok (ConfigIo.setDir st (t)) := by
  rw [macStep_slash st _ (by rw [headD_append _ t (by decide)]; decide),
    show ("/output/path " : String) = "/output/path" ++ " " from by decide,
    tokenize_append_space _ _ (by decide), tokenize_tokenStr t ht]
  unfold ConfigIo.macStepTokens
  dsimp only
  rw [if_neg (by simp),
    if_pos (by simp)]
  rfl

theorem step_runname (st : ConfigIo.MacState) (t : String) (ht : tokenStr t) :
    ConfigIo.macStep st ("/output/runname " ++ t) =
      .ok (ConfigIo.setRunId st (t)) := by
  rw [macStep_slash st _ (by rw [headD_append _ t (by decide)]; decide),
    show ("/output/runname " : String) = "/output/runname" ++ " " from by decide,
    tokenize_append_space _ _ (by decide), tokenize_tokenStr t ht]
  unfold ConfigIo.macStepTokens
  dsimp only
  rw [if_neg (by simp), if_neg (by simp),
    if_pos (by simp)]
  rfl

theorem step_material (st : ConfigIo.MacState) (t : String) (ht : tokenStr t) :
    ConfigIo.macStep st ("/scintillator/geom/material " ++ t) =
      .ok (ConfigIo.setMaterial st (t)) := by
  rw [macStep_slash st _ (by rw [headD_append _ t (by decide)]; decide),
    show ("/scintillator/geom/material " : String) = "/scintillator/geom/material" ++ " " from by decide,
    tokenize_append_space _ _ (by decide), tokenize_tokenStr t ht]
  unfold ConfigIo.macStepTokens
  dsimp only
  rw [if_neg (by simp), if_neg (by simp), if_neg (by simp),
    if_pos (by simp)]
  rfl

theorem step_scintX (st : ConfigIo.MacState) (v : ℚ) :
    ConfigIo.macStep st ("/scintillator/geom/scintX " ++ gfmt v ++ " mm") =
      .ok (ConfigIo.setScintX st (round6 v)) := by
  rw [macStep_slash st _ (by rw [headD_lit2 _ _ _ (by decide)]; decide),
    show ("/scintillator/geom/scintX " : String) = "/scintillator/geom/scintX" ++ " " from by decide,
    show (" mm" : String) = " " ++ "mm" from by decide,
    tokenize3 _ _ _ (by decide) (tokenStr_gfmt v) (by decide)]
  unfold ConfigIo.macStepTokens
  dsimp only
  rw [if_neg (by simp), if_neg (by simp), if_neg (by simp), if_neg (by simp),
    if_pos rfl, parseLengthTokens_mm]
  rfl

theorem step_scintY (st : ConfigIo.MacState) (v : ℚ) :
    ConfigIo.macStep st ("/scintillator/geom/scintY " ++ gfmt v ++ " mm") =
      .ok (ConfigIo.setScintY st (round6 v)) := by
  rw [macStep_slash st _ (by rw [headD_lit2 _ _ _ (by decide)]; decide),
    show ("/scintillator/geom/scintY " : String) = "/scintillator/geom/scintY" ++ " " from by decide,
    show (" mm" : String) = " " ++ "mm" from by decide,
    tokenize3 _ _ _ (by decide) (tokenStr_gfmt v) (by decide)]
  unfold ConfigIo.macStepTokens
  dsimp only
  rw [if_neg (by simp), if_neg (by simp), if_neg (by simp), if_neg (by simp), if_neg (by decide),
    if_pos rfl, parseLengthTokens_mm]
  rfl

theorem step_scintZ (st : ConfigIo.MacState) (v : ℚ) :
    ConfigIo.macStep st ("/scintillator/geom/scintZ " ++ gfmt v ++ " mm") =
      .ok (ConfigIo.setScintZ st (round6 v)) := by
  rw [macStep_slash st _ (by rw [headD_lit2 _ _ _ (by decide)]; decide),
    show ("/scintillator/geom/scintZ " : String) = "/scintillator/geom/scintZ" ++ " " from by decide,
    show (" mm" : String) = " " ++ "mm" from by decide,
    tokenize3 _ _ _ (by decide) (tokenStr_gfmt v) (by decide)]
  unfold ConfigIo.macStepTokens
  dsimp only
  rw [if_neg (by simp), if_neg (by simp), if_neg (by simp), if_neg (by simp), if_neg (by decide), if_neg (by decide),
    if_pos rfl, parseLengthTokens_mm]
  rfl

theorem step_posX (st : ConfigIo.MacState) (v : ℚ) :
    ConfigIo.macStep st ("/scintillator/geom/posX " ++ gfmt v ++ " mm") =
      .ok (ConfigIo.setScintPosX st (round6 v)) := by
  rw [macStep_slash st _ (by rw [headD_lit2 _ _ _ (by decide)]; decide),
    show ("/scintillator/geom/posX " : String) = "/scintillator/geom/posX" ++ " " from by decide,
    show (" mm" : String) = " " ++ "mm" from by decide,
    tokenize3 _ _ _ (by decide) (tokenStr_gfmt v) (by decide)]
  unfold ConfigIo.macStepTokens
  dsimp only
  rw [if_neg (by simp), if_neg (by simp), if_neg (by simp), if_neg (by simp), if_neg (by decide), if_neg (by decide), if_neg (by decide),
    if_pos rfl, parseLengthTokens_mm]
  rfl

theorem step_posY (st : ConfigIo.MacState) (v : ℚ) :
    ConfigIo.macStep st ("/scintillator/geom/posY " ++ gfmt v ++ " mm") =
      .ok (ConfigIo.setScintPosY st (round6 v)) := by
  rw [macStep_slash st _ (by rw [headD_lit2 _ _ _ (by decide)]; decide),
    show ("/scintillator/geom/posY " : String) = "/scintillator/geom/posY" ++ " " from by decide,
    show (" mm" : String) = " " ++ "mm" from by decide,
    tokenize3 _ _ _ (by decide) (tokenStr_gfmt v) (by decide)]
  unfold ConfigIo.macStepTokens
  dsimp only
  rw [if_neg (by simp), if_neg (by simp), if_neg (by simp), if_neg (by simp), if_neg (by decide), if_neg (by decide), if_neg (by decide), if_neg (by decide),
    if_pos rfl, parseLengthTokens_mm]
  rfl

theorem step_posZ (st : ConfigIo.MacState) (v : ℚ) :
    ConfigIo.macStep st ("/scintillator/geom/posZ " ++ gfmt v ++ " mm") =
      .ok (ConfigIo.setScintPosZ st (round6 v)) := by
  rw [macStep_slash st _ (by rw [headD_lit2 _ _ _ (by decide)]; decide),
    show ("/scintillator/geom/posZ " : String) = "/scintillator/geom/posZ" ++ " " from by decide,
    show (" mm" : String) = " " ++ "mm" from by decide,
    tokenize3 _ _ _ (by decide) (tokenStr_gfmt v) (by decide)]
  unfold ConfigIo.macStepTokens
  dsimp only
  rw [if_neg (by simp), if_neg (by simp), if_neg (by simp), if_neg (by simp), if_neg (by decide), if_neg (by decide), if_neg (by decide), if_neg (by decide), if_neg (by decide),
    if_pos rfl, parseLengthTokens_mm]
  rfl

theorem step_aperture (st : ConfigIo.MacState) (v : ℚ) :
    ConfigIo.macStep st ("/scintillator/geom/apertureRadius " ++ gfmt v ++ " mm") =
      .ok (ConfigIo.setAperture st (round6 v)) := by
  rw [macStep_slash st _ (by rw [headD_lit2 _ _ _ (by decide)]; decide),
    show ("/scintillator/geom/apertureRadius " : String) = "/scintillator/geom/apertureRadius" ++ " " from by decide,
    show (" mm" : String) = " " ++ "mm" from by decide,
    tokenize3 _ _ _ (by decide) (tokenStr_gfmt v) (by decide)]
  unfold ConfigIo.macStepTokens
  dsimp only
  rw [if_neg (by simp), if_neg (by simp), if_neg (by simp), if_neg (by simp), if_neg (by decide), if_neg (by decide), if_neg (by decide), if_neg (by decide), if_neg (by decide), if_neg (by decide),
    if_pos rfl, parseLengthTokens_mm]
  rfl

theorem step_sizeX (st : ConfigIo.MacState) (v : ℚ) :
    ConfigIo.macStep st ("/optical_interface/geom/sizeX " ++ gfmt v ++ " mm") =
      .ok (ConfigIo.setSizeX st (round6 v)) := by
  rw [macStep_slash st _ (by rw [headD_lit2 _ _ _ (by decide)]; decide),
    show ("/optical_interface/geom/sizeX " : String) = "/optical_interface/geom/sizeX" ++ " " from by decide,
    show (" mm" : String) = " " ++ "mm" from by decide,
    tokenize3 _ _ _ (by decide) (tokenStr_gfmt v) (by decide)]
  unfold ConfigIo.macStepTokens
  dsimp only
  rw [if_neg (by simp), if_neg (by simp), if_neg (by simp), if_neg (by simp), if_neg (by decide), if_neg (by decide), if_neg (by decide), if_neg (by decide), if_neg (by decide), if_neg (by decide), if_neg (by decide),
    if_pos rfl, parseLengthTokens_mm]
  rfl

theorem step_sizeY (st : ConfigIo.MacState) (v : ℚ) :
    ConfigIo.macStep st ("/optical_interface/geom/sizeY " ++ gfmt v ++ " mm") =
      .ok (ConfigIo.setSizeY st (round6 v)) := by
  rw [macStep_slash st _ (by rw [headD_lit2 _ _ _ (by decide)]; decide),
    show ("/optical_interface/geom/sizeY " : String) = "/optical_interface/geom/sizeY" ++ " " from by decide,
    show (" mm" : String) = " " ++ "mm" from by decide,
    tokenize3 _ _ _ (by decide) (tokenStr_gfmt v) (by decide)]
  unfold ConfigIo.macStepTokens
  dsimp only
  rw [if_neg (by simp), if_neg (by simp), if_neg (by simp), if_neg (by simp), if_neg (by decide), if_neg (by decide), if_neg (by decide), if_neg (by decide), if_neg (by decide), if_neg (by decide), if_neg (by decide), if_neg (by decide),
    if_pos rfl, parseLengthTokens_mm]
  rfl

theorem step_thickness (st : ConfigIo.MacState) (v : ℚ) :
    ConfigIo.macStep st ("/optical_interface/geom/thickness " ++ gfmt v ++ " mm") =
      .ok (ConfigIo.setThickness st (round6 v)) := by
  rw [macStep_slash st _ (by rw [headD_lit2 _ _ _ (by decide)]; decide),
    show ("/optical_interface/geom/thickness " : String) = "/optical_interface/geom/thickness" ++ " " from by decide,
    show (" mm" : String) = " " ++ "mm" from by decide,
    tokenize3 _ _ _ (by decide) (tokenStr_gfmt v) (by decide)]
  unfold ConfigIo.macStepTokens
  dsimp only
  rw [if_neg (by simp), if_neg (by simp), if_neg (by simp), if_neg (by simp), if_neg (by decide), if_neg (by decide), if_neg (by decide), if_neg (by decide), if_neg (by decide), if_neg (by decide), if_neg (by decide), if_neg (by decide), if_neg (by decide),
    if_pos rfl, parseLengthTokens_mm]
  rfl

theorem step_oposX (st : ConfigIo.MacState) (v : ℚ) :
    ConfigIo.macStep st ("/optical_interface/geom/posX " ++ gfmt v ++ " mm") =
      .ok (ConfigIo.setDetPosX st (round6 v)) := by
  rw [macStep_slash st _ (by rw [headD_lit2 _ _ _ (by decide)]; decide),
    show ("/optical_interface/geom/posX " : String) = "/optical_interface/geom/posX" ++ " " from by decide,
    show (" mm" : String) = " " ++ "mm" from by decide,
    tokenize3 _ _ _ (by decide) (tokenStr_gfmt v) (by decide)]
  unfold ConfigIo.macStepTokens
  dsimp only
  rw [if_neg (by simp), if_neg (by simp), if_neg (by simp), if_neg (by simp), if_neg (by decide), if_neg (by decide), if_neg (by decide), if_neg (by decide), if_neg (by decide), if_neg (by decide), if_neg (by decide), if_neg (by decide), if_neg (by decide), if_neg (by decide),
    if_pos rfl, parseLengthTokens_mm]
  rfl

theorem step_oposY (st : ConfigIo.MacState) (v : ℚ) :
    ConfigIo.macStep st ("/optical_interface/geom/posY " ++ gfmt v ++ " mm") =
      .ok (ConfigIo.setDetPosY st (round6 v)) := by
  rw [macStep_slash st _ (by rw [headD_lit2 _ _ _ (by decide)]; decide),
    show ("/optical_interface/geom/posY " : String) = "/optical_interface/geom/posY" ++ " " from by decide,
    show (" mm" : String) = " " ++ "mm" from by decide,
    tokenize3 _ _ _ (by decide) (tokenStr_gfmt v) (by decide)]
  unfold ConfigIo.macStepTokens
  dsimp only
  rw [if_neg (by simp), if_neg (by simp), if_neg (by simp), if_neg (by simp), if_neg (by decide), if_neg (by decide), if_neg (by decide), if_neg (by decide), if_neg (by decide), if_neg (by decide), if_neg (by decide), if_neg (by decide), if_neg (by decide), if_neg (by decide), if_neg (by decide),
    if_pos rfl, parseLengthTokens_mm]
  rfl

theorem step_oposZ (st : ConfigIo.MacState) (v : ℚ) :
    ConfigIo.macStep st ("/optical_interface/geom/posZ " ++ gfmt v ++ " mm") =
      .ok (ConfigIo.setDetPosZ st (round6 v)) := by
  rw [macStep_slash st _ (by rw [headD_lit2 _ _ _ (by decide)]; decide),
    show ("/optical_interface/geom/posZ " : String) = "/optical_interface/geom/posZ" ++ " " from by decide,
    show (" mm" : String) = " " ++ "mm" from by decide,
    tokenize3 _ _ _ (by decide) (tokenStr_gfmt v) (by decide)]
  unfold ConfigIo.macStepTokens
  dsimp only
  rw [if_neg (by simp), if_neg (by simp), if_neg (by simp), if_neg (by simp), if_neg (by decide), if_neg (by decide), if_neg (by decide), if_neg (by decide), if_neg (by decide), if_neg (by decide), if_neg (by decide), if_neg (by decide), if_neg (by decide), if_neg (by decide), if_neg (by decide), if_neg (by decide),
    if_pos rfl, parseLengthTokens_mm]
  rfl

theorem step_filename (st : ConfigIo.MacState) :
    ConfigIo.macStep st "/output/filename photon_optical_interface_hits" = .ok st := by
  rw [macStep_slash st _ (by decide),
    show tokenize "/output/filename photon_optical_interface_hits" =
      ["/output/filename", "photon_optical_interface_hits"] from by decide]
  unfold ConfigIo.macStepTokens
  dsimp only
  rw [if_neg (by decide), if_neg (by decide), if_neg (by decide), if_neg (by decide), if_neg (by decide), if_neg (by decide), if_neg (by decide), if_neg (by decide), if_neg (by decide), if_neg (by decide), if_neg (by decide), if_neg (by decide), if_neg (by decide), if_neg (by decide), if_neg (by decide), if_neg (by decide), if_neg (by decide)]

theorem step_init (st : ConfigIo.MacState) :
    ConfigIo.macStep st "/run/initialize" = .ok st := by
  rw [macStep_slash st _ (by decide),
    show tokenize "/run/initialize" = ["/run/initialize"] from by decide]
  unfold ConfigIo.macStepTokens
  dsimp only
  rw [if_neg (by decide), if_neg (by decide), if_neg (by decide), if_neg (by decide), if_neg (by decide), if_neg (by decide), if_neg (by decide), if_neg (by decide), if_neg (by decide), if_neg (by decide), if_neg (by decide), if_neg (by decide), if_neg (by decide), if_neg (by decide), if_neg (by decide), if_neg (by decide), if_neg (by decide)]

/-! ### C5 -/

/-- C5: for every configuration, the computed optical-interface centre Z (mm)
equals scintillator centre Z plus half the scintillator thickness plus the
configured standoff plus half the interface thickness, the centimetre-stored
scintillator fields converted to millimetres before summing. -/
theorem c5_interface_center_z (c : FlatConfig) :
    SimCfg.opticalInterfaceCenterZmm c = specInterfaceCenterZmm c := by
  unfold SimCfg.opticalInterfaceCenterZmm specInterfaceCenterZmm
  ring

/-! ### C2 -/

unseal Rat.mul Rat.add Rat.sub Rat.inv Rat.ofScientific in
/-- C2: in the literal scenario (100×100×20 mm scintillator at the origin,
entrance diameter 60.55 mm, sensor max width 36 mm, `min` rule, detector
Z = 210.05 mm) the resolved aperture radius is 18 mm and the encoded command
list contains exactly the four quoted lines with these numeric spellings. -/
theorem c2_literal_scenario :
    (ConfigIo.resolveSensitiveDetectorDiameterMm c2ScenarioConfig).map
      (fun d => (1/2) * d) = .ok 18 ∧
    ConfigIo.geometryCommands c2ScenarioConfig = .ok c2ExpectedCmds ∧
    "/scintillator/geom/apertureRadius 18 mm" ∈ c2ExpectedCmds ∧
    "/optical_interface/geom/sizeX 60.55 mm" ∈ c2ExpectedCmds ∧
    "/optical_interface/geom/sizeY 60.55 mm" ∈ c2ExpectedCmds ∧
    "/optical_interface/geom/posZ 210.05 mm" ∈ c2ExpectedCmds := by
  refine ⟨by decide, by decide, by decide, by decide, by decide, by decide⟩

/-! ### C6 -/

/-- The hierarchical rule resolver agrees with the spec's rule table whenever
the space-stripped rule string is one of the three supported strings. -/
theorem resolver_eq_spec_of_mem (h : HConfig)
    (hm : ConfigIo.stripSpaces0 h.diameter_rule ∈ supportedRuleStrings) :
    ConfigIo.resolveSensitiveDetectorDiameterMm h =
      specRuleResolution (ConfigIo.stripSpaces0 h.diameter_rule)
        h.entrance_diameter h.sensor_max_width := by
  simp only [supportedRuleStrings, List.mem_cons, List.mem_singleton,
    List.not_mem_nil, or_false] at hm
  unfold ConfigIo.resolveSensitiveDetectorDiameterMm specRuleResolution
  rcases hm with hm | hm | hm <;> rw [hm]
  · rw [if_pos rfl, if_pos rfl]
  · rw [if_neg (by decide), if_pos rfl, if_neg (by decide), if_pos rfl]
  · rw [if_neg (by decide), if_neg (by decide), if_pos rfl,
      if_neg (by decide), if_neg (by decide), if_pos rfl]

/-- The hierarchical rule resolver fails exactly on rules whose space-stripped
form is unsupported. -/
theorem resolver_error_of_not_mem (h : HConfig)
    (hm : ConfigIo.stripSpaces0 h.diameter_rule ∉ supportedRuleStrings) :
    ∃ e, ConfigIo.resolveSensitiveDetectorDiameterMm h = .error e := by
  simp only [supportedRuleStrings, List.mem_cons, List.mem_singleton,
    List.not_mem_nil, or_false, not_or] at hm
  obtain ⟨h1, h2, h3⟩ := hm
  unfold ConfigIo.resolveSensitiveDetectorDiameterMm
  rw [if_neg h1, if_neg h2, if_neg h3]
  exact ⟨_, rfl⟩

/-- The flat resolver follows the spec's override/orientation priority. -/
theorem flat_resolver_eq_spec (c : FlatConfig) :
    SimCfg.resolvedOpticalInterfaceDiameterMm c = specFlatDiameterResolution c := by
  unfold SimCfg.resolvedOpticalInterfaceDiameterMm specFlatDiameterResolution
    SimCfg.defaultOpticalInterfaceDiameterMm
  rfl

unseal Rat.mul Rat.add Rat.sub Rat.inv Rat.ofScientific in
/-- C6 counterexample: `"sensorMaxWidth "` (trailing space) is not one of the
three supported rule strings, yet the code resolves it (to the sensor max
width) instead of raising, because it strips spaces before comparing; the
claim's rule table, which requires the string to be exactly one of the three,
rejects it. -/
theorem c6_counterexample :
    c6CexConfig.diameter_rule ∉ supportedRuleStrings ∧
    ConfigIo.resolveSensitiveDetectorDiameterMm c6CexConfig = .ok 36 ∧
    (specRuleResolution c6CexConfig.diameter_rule c6CexConfig.entrance_diameter
      c6CexConfig.sensor_max_width).isOk = false := by
  refine ⟨by decide, by decide, by decide⟩

/-- C6 (amended): the resolved diameter follows the priority (a) explicit
override, (b) orientation-dependent primary-lens default, (c) named rule over
entrance diameter and sensor max width — where the rule string is compared
after removing space characters: a supported space-stripped rule resolves per
the spec's table, any other is a fatal error. -/
theorem c6_diameter_resolution_priority :
    (∀ c : FlatConfig,
      SimCfg.resolvedOpticalInterfaceDiameterMm c = specFlatDiameterResolution c) ∧
    (∀ h : HConfig, ConfigIo.stripSpaces0 h.diameter_rule ∈ supportedRuleStrings →
      ConfigIo.resolveSensitiveDetectorDiameterMm h =
        specRuleResolution (ConfigIo.stripSpaces0 h.diameter_rule)
          h.entrance_diameter h.sensor_max_width) ∧
    (∀ h : HConfig, ConfigIo.stripSpaces0 h.diameter_rule ∉ supportedRuleStrings →
      ∃ e, ConfigIo.resolveSensitiveDetectorDiameterMm h = .error e) :=
  ⟨flat_resolver_eq_spec, resolver_eq_spec_of_mem, resolver_error_of_not_mem⟩

unseal Rat.mul Rat.add Rat.sub Rat.inv Rat.ofScientific in
/-- Witness for the amended C6, instantiated at concrete configurations. -/
theorem c6_diameter_resolution_priority_witness :
    SimCfg.resolvedOpticalInterfaceDiameterMm c3CexConfig =
      specFlatDiameterResolution c3CexConfig ∧
    ConfigIo.resolveSensitiveDetectorDiameterMm c2ScenarioConfig =
      specRuleResolution (ConfigIo.stripSpaces0 c2ScenarioConfig.diameter_rule)
        c2ScenarioConfig.entrance_diameter c2ScenarioConfig.sensor_max_width ∧
    (∃ e, ConfigIo.resolveSensitiveDetectorDiameterMm c7CexConfig = .error e) :=
  ⟨c6_diameter_resolution_priority.1 c3CexConfig,
   c6_diameter_resolution_priority.2.1 c2ScenarioConfig (by decide),
   c6_diameter_resolution_priority.2.2 c7CexConfig (by decide)⟩

/-! ### C3 -/

/-- Bridge between the code's rational squared comparison and the claim's
real half-diagonal: for `r > 0`, `r ≤ √((10x/2)² + (10y/2)²)` iff
`r² ≤ ((10x)² + (10y)²)/4`. -/
theorem le_sqrt_halfdiag_iff (r x y : ℚ) (hr : 0 < r) :
    ((r : ℝ) ≤ Real.sqrt (((10 * x / 2 : ℚ) : ℝ) ^ 2 + ((10 * y / 2 : ℚ) : ℝ) ^ 2)) ↔
      r ^ 2 ≤ ((10 * x) ^ 2 + (10 * y) ^ 2) / 4 := by
  rw [Real.le_sqrt' (by exact_mod_cast hr)]
  have h : (((10 * x / 2 : ℚ) : ℝ) ^ 2 + ((10 * y / 2 : ℚ) : ℝ) ^ 2) =
      ((((10 * x) ^ 2 + (10 * y) ^ 2) / 4 : ℚ) : ℝ) := by
    push_cast
    ring
  rw [h]
  exact_mod_cast Iff.rfl

unseal Rat.mul Rat.add Rat.sub Rat.inv Rat.ofScientific in
/-- C3 counterexample: with a 100 mm × 100 mm scintillator face and a 50 mm
aperture radius the code accepts (its limit is `0.5·hypot(100,100) ≈ 70.7`),
while the claim's limit — "half the hypotenuse of the half-extents",
`(1/2)·√(50² + 50²) ≈ 35.36` — is exceeded, so the claim as stated demands a
ValidationError. -/
theorem c3_counterexample :
    SimCfg.validateGeometryInvariants c3CexConfig = .ok () ∧
    SimCfg.resolvedApertureRadiusMm c3CexConfig = some 50 ∧
    ¬((50 : ℝ) ≤ (1/2) * Real.sqrt
        (((10 * c3CexConfig.scint_x_cm / 2 : ℚ) : ℝ) ^ 2 +
         ((10 * c3CexConfig.scint_y_cm / 2 : ℚ) : ℝ) ^ 2)) := by
  refine ⟨by decide, by decide, ?_⟩
  intro hle
  have hX : (((10 * c3CexConfig.scint_x_cm / 2 : ℚ) : ℝ) ^ 2 +
      ((10 * c3CexConfig.scint_y_cm / 2 : ℚ) : ℝ) ^ 2) = 5000 := by
    norm_num [c3CexConfig, flatBaseConfig]
  rw [hX] at hle
  have hs : Real.sqrt 5000 < 100 := by
    rw [Real.sqrt_lt' (by norm_num)]
    norm_num
  linarith

/-- C3 (amended): for a configuration with the aperture enabled (resolved
radius `r > 0`) whose other invariants hold, validation accepts exactly when
`r` is at most half the scintillator face diagonal — the hypotenuse of the
scintillator's half-extents, `√((10x/2)² + (10y/2)²)` — and a larger radius
yields the ValidationError carrying the radius and the (squared) limit. -/
theorem c3_aperture_limit (c : FlatConfig) (r : ℚ)
    (hap : SimCfg.resolvedApertureRadiusMm c = some r)
    (hr : 0 < r)
    (hd : 0 < SimCfg.resolvedOpticalInterfaceDiameterMm c)
    (hz : SimCfg.scintBackFaceZmm c < SimCfg.opticalInterfaceCenterZmm c) :
    (SimCfg.validateGeometryInvariants c = .ok () ↔
      (r : ℝ) ≤ Real.sqrt (((10 * c.scint_x_cm / 2 : ℚ) : ℝ) ^ 2 +
        ((10 * c.scint_y_cm / 2 : ℚ) : ℝ) ^ 2)) ∧
    (¬((r : ℝ) ≤ Real.sqrt (((10 * c.scint_x_cm / 2 : ℚ) : ℝ) ^ 2 +
        ((10 * c.scint_y_cm / 2 : ℚ) : ℝ) ^ 2)) →
      SimCfg.validateGeometryInvariants c =
        .error (.apertureExceedsHalfDiag r (SimCfg.halfDiagSqOf c))) := by
  have hbridge := le_sqrt_halfdiag_iff r c.scint_x_cm c.scint_y_cm hr
  have hval : SimCfg.validateGeometryInvariants c =
      if 0 < r ∧ SimCfg.halfDiagSqOf c < r ^ 2 then
        .error (.apertureExceedsHalfDiag r (SimCfg.halfDiagSqOf c))
      else SimCfg.centerCheck c := by
    unfold SimCfg.validateGeometryInvariants
    rw [if_neg (not_le.mpr hd), hap]
  have hcenter : SimCfg.centerCheck c = .ok () := by
    unfold SimCfg.centerCheck
    rw [if_neg (not_le.mpr hz)]
  constructor
  · rw [hval, hbridge]
    constructor
    · intro hok
      by_contra hgt
      rw [if_pos ⟨hr, by exact not_le.mp (by rw [SimCfg.halfDiagSqOf] at *; exact hgt)⟩] at hok
      exact absurd hok (by simp)
    · intro hle
      rw [if_neg (by rintro ⟨-, hlt⟩; exact absurd hle (not_le.mpr hlt)), hcenter]
  · intro hgt
    rw [hval, if_pos ⟨hr, not_le.mp (fun hle => hgt (hbridge.mpr hle))⟩]

unseal Rat.mul Rat.add Rat.sub Rat.inv Rat.ofScientific in
/-- Witness for the amended C3 at the baseline flat configuration
(derived aperture radius `60.55/2 = 30.275` mm, limit `≈ 70.7` mm). -/
theorem c3_aperture_limit_witness :
    (SimCfg.validateGeometryInvariants flatBaseConfig = .ok () ↔
      ((1211/40 : ℚ) : ℝ) ≤ Real.sqrt
        (((10 * flatBaseConfig.scint_x_cm / 2 : ℚ) : ℝ) ^ 2 +
         ((10 * flatBaseConfig.scint_y_cm / 2 : ℚ) : ℝ) ^ 2)) ∧
    (¬(((1211/40 : ℚ) : ℝ) ≤ Real.sqrt
        (((10 * flatBaseConfig.scint_x_cm / 2 : ℚ) : ℝ) ^ 2 +
         ((10 * flatBaseConfig.scint_y_cm / 2 : ℚ) : ℝ) ^ 2)) →
      SimCfg.validateGeometryInvariants flatBaseConfig =
        .error (.apertureExceedsHalfDiag (1211/40) (SimCfg.halfDiagSqOf flatBaseConfig))) :=
  c3_aperture_limit flatBaseConfig (1211/40) (by decide) (by decide) (by decide) (by decide)

/-! ### C4 -/

/-- The aggregate step reports twice the largest recorded per-surface
semi-diameter as the clear diameter (in the semi-diameter token
convention). -/
theorem zmxAggregate_clear (s : List LensM.LensSurface) (m : LensM.LensModelF)
    (h : LensM.zmxAggregate s true = .ok m) :
    m.clear_diameter_mm = 2 * specMaxRecordedSemi m.surfaces := by
  unfold LensM.zmxAggregate at h
  split at h
  · exact absurd h (by simp)
  · rw [Except.ok.injEq] at h
    subst h
    simp [specMaxRecordedSemi, LensM.diamValuesOf]

/-- C4 (amended): for every prescription that parses successfully, the
reported clear diameter equals twice the largest recorded per-surface
semi-diameter — where each surface records the last positive `DIAM` token of
its block.  (It can differ from twice the largest `DIAM` token in the file
when a block has several positive `DIAM` lines — see the counterexample.) -/
theorem c4_clear_diameter (lines : List String) (m : LensM.LensModelF)
    (h : LensM.fromZmxLines lines true = .ok m) :
    m.clear_diameter_mm = 2 * specMaxRecordedSemi m.surfaces := by
  unfold LensM.fromZmxLines at h
  cases hfold : lines.foldlM LensM.zmxStep { unit := none, surfaces := [], cur := none } with
  | error e => rw [hfold] at h; simp at h
  | ok stRaw =>
    rw [hfold] at h
    dsimp only at h
    split at h
    · split at h
      · simp at h
      · split at h
        · simp at h
        · exact zmxAggregate_clear _ _ h
    · split at h
      · simp at h
      · exact zmxAggregate_clear _ _ h

unseal Rat.mul Rat.add Rat.sub Rat.inv Rat.ofScientific in
/-- Witness for the amended C4 on a well-formed three-surface prescription. -/
theorem c4_clear_diameter_witness :
    c4WitnessExpected.clear_diameter_mm = 2 * specMaxRecordedSemi c4WitnessExpected.surfaces :=
  c4_clear_diameter c4WitnessLines c4WitnessExpected (by decide)

unseal Rat.mul Rat.add Rat.sub Rat.inv Rat.ofScientific in
/-- C4 counterexample: in `c4CexLines` the first surface block carries
`DIAM 50` followed by `DIAM 10`; the parser records 10 (the last positive
token), so the reported clear diameter is `2·20 = 40`, while twice the
largest positive `DIAM` value present across the surface blocks is
`2·50 = 100`. -/
theorem c4_counterexample :
    LensM.fromZmxLines c4CexLines true = .ok c4CexExpected ∧
    LensM.listMaxQ (diamTokensPos c4CexLines) = 50 ∧
    c4CexExpected.clear_diameter_mm = 40 ∧
    c4CexExpected.clear_diameter_mm ≠ 2 * LensM.listMaxQ (diamTokensPos c4CexLines) := by
  refine ⟨by decide, by decide, by decide, by decide⟩

/-! ### C8 -/

/-- Inversion for `Except.map` hitting `ok`. -/
theorem except_map_ok {ε α β : Type} (f : α → β) (x : Except ε α) (b : β)
    (h : x.map f = .ok b) : ∃ a, x = .ok a ∧ b = f a := by
  cases x with
  | error e => exact absurd h (by simp [Except.map])
  | ok a => exact ⟨a, rfl, by simpa [Except.map] using h.symm⟩

/-- Token dispatch on tokens not led by the aperture command leaves the
parsed aperture radius unchanged. -/
theorem macStepTokens_preserves_aperture (st st' : ConfigIo.MacState)
    (tokens : List String)
    (h : ConfigIo.macStepTokens st tokens = .ok st')
    (hno : tokens.headD "" ≠ "/scintillator/geom/apertureRadius") :
    st'.aperture_radius_mm = st.aperture_radius_mm := by
  cases tokens with
  | nil => cases h; rfl
  | cons command rest =>
    have hcmd : command ≠ "/scintillator/geom/apertureRadius" := by simpa using hno
    dsimp only [ConfigIo.macStepTokens] at h
    by_cases h1 : (command = "/output/format" ∧ 2 ≤ (command :: rest).length)
    · rw [if_pos h1] at h
      cases h
      rfl
    rw [if_neg h1] at h
    by_cases h2 : (command = "/output/path" ∧ 2 ≤ (command :: rest).length)
    · rw [if_pos h2] at h
      cases h
      rfl
    rw [if_neg h2] at h
    by_cases h3 : (command = "/output/runname" ∧ 2 ≤ (command :: rest).length)
    · rw [if_pos h3] at h
      cases h
      rfl
    rw [if_neg h3] at h
    by_cases h4 : (command = "/scintillator/geom/material" ∧ 2 ≤ (command :: rest).length)
    · rw [if_pos h4] at h
      cases h
      rfl
    rw [if_neg h4] at h
    by_cases h5 : (command = "/scintillator/geom/scintX")
    · rw [if_pos h5] at h
      obtain ⟨v, hv, rfl⟩ := except_map_ok _ _ _ h
      rfl
    rw [if_neg h5] at h
    by_cases h6 : (command = "/scintillator/geom/scintY")
    · rw [if_pos h6] at h
      obtain ⟨v, hv, rfl⟩ := except_map_ok _ _ _ h
      rfl
    rw [if_neg h6] at h
    by_cases h7 : (command = "/scintillator/geom/scintZ")
    · rw [if_pos h7] at h
      obtain ⟨v, hv, rfl⟩ := except_map_ok _ _ _ h
      rfl
    rw [if_neg h7] at h
    by_cases h8 : (command = "/scintillator/geom/posX")
    · rw [if_pos h8] at h
      obtain ⟨v, hv, rfl⟩ := except_map_ok _ _ _ h
      rfl
    rw [if_neg h8] at h
    by_cases h9 : (command = "/scintillator/geom/posY")
    · rw [if_pos h9] at h
      obtain ⟨v, hv, rfl⟩ := except_map_ok _ _ _ h
      rfl
    rw [if_neg h9] at h
    by_cases h10 : (command = "/scintillator/geom/posZ")
    · rw [if_pos h10] at h
      obtain ⟨v, hv, rfl⟩ := except_map_ok _ _ _ h
      rfl
    rw [if_neg h10] at h
    rw [if_neg (fun hc => hcmd hc)] at h
    by_cases h12 : (command = "/optical_interface/geom/sizeX")
    · rw [if_pos h12] at h
      obtain ⟨v, hv, rfl⟩ := except_map_ok _ _ _ h
      rfl
    rw [if_neg h12] at h
    by_cases h13 : (command = "/optical_interface/geom/sizeY")
    · rw [if_pos h13] at h
      obtain ⟨v, hv, rfl⟩ := except_map_ok _ _ _ h
      rfl
    rw [if_neg h13] at h
    by_cases h14 : (command = "/optical_interface/geom/thickness")
    · rw [if_pos h14] at h
      obtain ⟨v, hv, rfl⟩ := except_map_ok _ _ _ h
      rfl
    rw [if_neg h14] at h
    by_cases h15 : (command = "/optical_interface/geom/posX")
    · rw [if_pos h15] at h
      obtain ⟨v, hv, rfl⟩ := except_map_ok _ _ _ h
      rfl
    rw [if_neg h15] at h
    by_cases h16 : (command = "/optical_interface/geom/posY")
    · rw [if_pos h16] at h
      obtain ⟨v, hv, rfl⟩ := except_map_ok _ _ _ h
      rfl
    rw [if_neg h16] at h
    by_cases h17 : (command = "/optical_interface/geom/posZ")
    · rw [if_pos h17] at h
      obtain ⟨v, hv, rfl⟩ := except_map_ok _ _ _ h
      rfl
    rw [if_neg h17] at h
    cases h
    rfl

/-- A decode-loop step on a line whose leading token is not the aperture
command leaves the parsed aperture radius unchanged. -/
theorem macStep_preserves_aperture (st st' : ConfigIo.MacState) (l : String)
    (h : ConfigIo.macStep st l = .ok st')
    (hno : leadTok l ≠ "/scintillator/geom/apertureRadius") :
    st'.aperture_radius_mm = st.aperture_radius_mm := by
  unfold ConfigIo.macStep at h
  split at h
  · cases h; rfl
  · refine macStepTokens_preserves_aperture st st' _ h ?_
    show leadTok (pyStrip l) ≠ "/scintillator/geom/apertureRadius"
    rw [leadTok_pyStrip]
    exact hno

/-- The whole decode loop preserves "no aperture seen" over aperture-free
lines. -/
theorem foldlM_preserves_aperture (lines : List String) :
    ∀ st stF : ConfigIo.MacState,
      List.foldlM ConfigIo.macStep st lines = .ok stF →
      (∀ l ∈ lines, leadTok l ≠ "/scintillator/geom/apertureRadius") →
      stF.aperture_radius_mm = st.aperture_radius_mm := by
  induction lines with
  | nil =>
    intro st stF h _
    cases h
    rfl
  | cons x xs ih =>
    intro st stF h hno
    rw [List.foldlM_cons] at h
    cases hstep : ConfigIo.macStep st x with
    | error e =>
      rw [hstep] at h
      exact absurd h (by simp [Bind.bind, Except.bind])
    | ok st1 =>
      rw [hstep] at h
      have h2 : List.foldlM ConfigIo.macStep st1 xs = .ok stF := h
      have ha1 := macStep_preserves_aperture st st1 x hstep (hno x (by simp))
      have ha2 := ih st1 stF h2 (fun l hl => hno l (by simp [hl]))
      rw [ha2, ha1]

/-- When no aperture command was parsed, the reconciled configuration has a
non-circular detector shape. -/
theorem macFinishAperture_none (st : ConfigIo.MacState) (ent : Option ℚ) (cfg : HConfig)
    (h : ConfigIo.macFinishAperture st ent = .ok cfg)
    (hap : st.aperture_radius_mm = none) : cfg.det_shape = "none" := by
  unfold ConfigIo.macFinishAperture at h
  rw [hap] at h
  cases ent with
  | none =>
    dsimp only at h
    split at h
    · cases h; rfl
    · exact absurd h (by simp)
  | some e =>
    dsimp only at h
    split at h
    · cases h; rfl
    · exact absurd h (by simp)

theorem macFinishSizes_none (st : ConfigIo.MacState) (cfg : HConfig)
    (h : ConfigIo.macFinishSizes st = .ok cfg)
    (hap : st.aperture_radius_mm = none) : cfg.det_shape = "none" := by
  unfold ConfigIo.macFinishSizes at h
  split at h
  · split at h
    · exact absurd h (by simp)
    · exact macFinishAperture_none _ _ _ h hap
  · exact macFinishAperture_none _ _ _ h hap
  · exact macFinishAperture_none _ _ _ h hap
  · exact macFinishAperture_none _ _ _ h hap

theorem macFinish_none (st : ConfigIo.MacState) (cfg : HConfig)
    (h : ConfigIo.macFinish st = .ok cfg)
    (hap : st.aperture_radius_mm = none) : cfg.det_shape = "none" := by
  unfold ConfigIo.macFinish at h
  split at h
  · split at h
    · exact absurd h (by simp)
    · exact macFinishSizes_none _ _ h hap
  · exact macFinishSizes_none _ _ h hap

/-- Leading token of `(p ++ " ") ++ r`. -/
theorem leadTok_litSp (p r : String) (hp : tokenStr p) :
    leadTok ((p ++ " ") ++ r) = p :=
  leadTok_append_space p r hp

/-- Leading token of `((p ++ " ") ++ g) ++ u`. -/
theorem leadTok_litSp2 (p g u : String) (hp : tokenStr p) :
    leadTok (((p ++ " ") ++ g) ++ u) = p := by
  rw [String.append_assoc]
  exact leadTok_append_space p (g ++ u) hp

/-- The geometry command list of a shape-`"none"` configuration: defined, and
free of any aperture line. -/
theorem geometryCommands_none (cfg : HConfig) (h : cfg.det_shape = "none") :
    ∃ cmds, ConfigIo.geometryCommands cfg = .ok cmds ∧
      ∀ s ∈ cmds, leadTok s ≠ "/scintillator/geom/apertureRadius" := by
  unfold ConfigIo.geometryCommands
  rw [h, if_neg (by decide)]
  refine ⟨_, rfl, ?_⟩
  intro s hs
  simp only [List.append_assoc, List.mem_append, List.mem_cons, List.not_mem_nil,
    or_false] at hs
  rcases hs with (hs | hs | hs | hs | hs | hs | hs) | (hs | hs | hs | hs | hs | hs) <;> subst hs
  · rw [show ("/scintillator/geom/material " : String) =
      "/scintillator/geom/material" ++ " " from by decide, leadTok_litSp _ _ (by decide)]
    decide
  · rw [show ("/scintillator/geom/scintX " : String) =
      "/scintillator/geom/scintX" ++ " " from by decide, leadTok_litSp2 _ _ _ (by decide)]
    decide
  · rw [show ("/scintillator/geom/scintY " : String) =
      "/scintillator/geom/scintY" ++ " " from by decide, leadTok_litSp2 _ _ _ (by decide)]
    decide
  · rw [show ("/scintillator/geom/scintZ " : String) =
      "/scintillator/geom/scintZ" ++ " " from by decide, leadTok_litSp2 _ _ _ (by decide)]
    decide
  · rw [show ("/scintillator/geom/posX " : String) =
      "/scintillator/geom/posX" ++ " " from by decide, leadTok_litSp2 _ _ _ (by decide)]
    decide
  · rw [show ("/scintillator/geom/posY " : String) =
      "/scintillator/geom/posY" ++ " " from by decide, leadTok_litSp2 _ _ _ (by decide)]
    decide
  · rw [show ("/scintillator/geom/posZ " : String) =
      "/scintillator/geom/posZ" ++ " " from by decide, leadTok_litSp2 _ _ _ (by decide)]
    decide
  · rw [show ("/optical_interface/geom/sizeX " : String) =
      "/optical_interface/geom/sizeX" ++ " " from by decide, leadTok_litSp2 _ _ _ (by decide)]
    decide
  · rw [show ("/optical_interface/geom/sizeY " : String) =
      "/optical_interface/geom/sizeY" ++ " " from by decide, leadTok_litSp2 _ _ _ (by decide)]
    decide
  · rw [show ("/optical_interface/geom/thickness " : String) =
      "/optical_interface/geom/thickness" ++ " " from by decide, leadTok_litSp2 _ _ _ (by decide)]
    decide
  · rw [show ("/optical_interface/geom/posX " : String) =
      "/optical_interface/geom/posX" ++ " " from by decide, leadTok_litSp2 _ _ _ (by decide)]
    decide
  · rw [show ("/optical_interface/geom/posY " : String) =
      "/optical_interface/geom/posY" ++ " " from by decide, leadTok_litSp2 _ _ _ (by decide)]
    decide
  · rw [show ("/optical_interface/geom/posZ " : String) =
      "/optical_interface/geom/posZ" ++ " " from by decide, leadTok_litSp2 _ _ _ (by decide)]
    decide

/-- C8: decoding a command file containing no aperture command (with any
template) yields a configuration whose re-encoded command list contains no
`/scintillator/geom/apertureRadius` line. -/
theorem c8_no_aperture_roundtrip (lines : List String) (template cfg : HConfig)
    (hdec : ConfigIo.fromMacLines lines template = .ok cfg)
    (hno : ∀ l ∈ lines, leadTok l ≠ "/scintillator/geom/apertureRadius") :
    ∃ cmds, ConfigIo.macCommands cfg true true = .ok cmds ∧
      ∀ s ∈ cmds, leadTok s ≠ "/scintillator/geom/apertureRadius" := by
  unfold ConfigIo.fromMacLines at hdec
  dsimp only at hdec
  cases hfold : List.foldlM ConfigIo.macStep
      { cfg := template, size_x_mm := none, size_y_mm := none,
        aperture_radius_mm := none, parsed_thickness_mm := none } lines with
  | error e => rw [hfold] at hdec; exact absurd hdec (by simp)
  | ok st =>
    rw [hfold] at hdec
    dsimp only at hdec
    have hap : st.aperture_radius_mm = none :=
      foldlM_preserves_aperture lines _ st hfold hno
    have hshape : cfg.det_shape = "none" := macFinish_none st cfg hdec hap
    obtain ⟨g, hg, hgno⟩ := geometryCommands_none cfg hshape
    refine ⟨ConfigIo.outputCommands cfg ++ g ++ ["/run/initialize"], ?_, ?_⟩
    · unfold ConfigIo.macCommands
      rw [hg]
      rfl
    · intro s hs
      simp only [List.mem_append, List.mem_singleton] at hs
      rcases hs with (hs | hs) | hs
      · unfold ConfigIo.outputCommands at hs
        simp only [List.mem_cons, List.not_mem_nil, or_false] at hs
        rcases hs with hs | hs | hs | hs <;> subst hs
        · rw [show ("/output/format " : String) = "/output/format" ++ " " from by decide,
            leadTok_litSp _ _ (by decide)]
          decide
        · rw [show ("/output/path " : String) = "/output/path" ++ " " from by decide,
            leadTok_litSp _ _ (by decide)]
          decide
        · rw [show ("/output/filename photon_optical_interface_hits" : String) =
            "/output/filename" ++ " " ++ "photon_optical_interface_hits" from by decide,
            leadTok_append_space _ _ (by decide)]
          decide
        · rw [show ("/output/runname " : String) = "/output/runname" ++ " " from by decide,
            leadTok_litSp _ _ (by decide)]
          decide
      · exact hgno s hs
      · subst hs
        rw [leadTok_tokenStr _ (by decide)]
        decide

unseal Rat.mul Rat.add Rat.sub Rat.inv Rat.ofScientific in
/-- Witness for C8 on the unit test's aperture-free macro. -/
theorem c8_no_aperture_roundtrip_witness :
    ∃ cmds, ConfigIo.macCommands c8WitnessDecoded true true = .ok cmds ∧
      ∀ s ∈ cmds, leadTok s ≠ "/scintillator/geom/apertureRadius" :=
  c8_no_aperture_roundtrip c8WitnessLines c2ScenarioConfig c8WitnessDecoded
    (by decide) (by decide)

/-! ### Patch lemmas (C9, C10) -/

theorem lookup_mem_pairs (k v : String) (P : List (String × String))
    (h : P.lookup k = some v) : (k, v) ∈ P := by
  induction P with
  | nil => simp [List.lookup] at h
  | cons a tl ih =>
    obtain ⟨ak, av⟩ := a
    rw [List.lookup_cons] at h
    cases hbeq : (k == ak) with
    | true =>
      rw [hbeq] at h
      simp only [Option.some.injEq] at h
      have hk : k = ak := eq_of_beq hbeq
      subst h
      rw [hk]
      exact List.mem_cons_self _ _
    | false =>
      rw [hbeq] at h
      exact List.mem_cons_of_mem _ (ih h)

theorem lookup_isSome_iff_key (P : List (String × String)) (k : String) :
    (P.lookup k).isSome = true ↔ k ∈ P.map Prod.fst := by
  induction P with
  | nil => simp [List.lookup]
  | cons a tl ih =>
    obtain ⟨ak, av⟩ := a
    rw [List.lookup_cons]
    cases hbeq : (k == ak) with
    | true =>
      have hk : k = ak := eq_of_beq hbeq
      simp [hbeq, hk]
    | false =>
      have hk : ¬(k = ak) := by
        intro hc
        rw [hc] at hbeq
        simp at hbeq
      simp [hbeq, hk, ih]

theorem lookupLast_mem (cmds : List String) (k v : String)
    (h : SimCfg.lookupLast (SimCfg.replacementsOf cmds) k = some v) :
    v ∈ cmds ∧ leadTok v = k := by
  unfold SimCfg.lookupLast at h
  have hm := lookup_mem_pairs _ _ _ h
  rw [List.mem_reverse] at hm
  unfold SimCfg.replacementsOf at hm
  rw [List.mem_map] at hm
  obtain ⟨cmd, hcmd, heq⟩ := hm
  rw [Prod.mk.injEq] at heq
  obtain ⟨h1, h2⟩ := heq
  subst h2
  exact ⟨hcmd, h1⟩

theorem lookupLast_isSome_iff (cmds : List String) (k : String) :
    (SimCfg.lookupLast (SimCfg.replacementsOf cmds) k).isSome = true ↔
      k ∈ cmds.map leadTok := by
  unfold SimCfg.lookupLast SimCfg.replacementsOf
  rw [lookup_isSome_iff_key]
  constructor
  · intro h
    rw [List.mem_map] at h
    obtain ⟨p, hp, he⟩ := h
    rw [List.mem_reverse, List.mem_map] at hp
    obtain ⟨cmd, hcmd, rfl⟩ := hp
    subst he
    exact List.mem_map_of_mem leadTok hcmd
  · intro h
    rw [List.mem_map] at h
    obtain ⟨cmd, hcmd, rfl⟩ := h
    rw [List.mem_map]
    exact ⟨(leadTok cmd, cmd), by rw [List.mem_reverse, List.mem_map]; exact ⟨cmd, hcmd, rfl⟩, rfl⟩

theorem pyDedupAux_subset (seen l : List String) : SimCfg.pyDedupAux seen l ⊆ l := by
  induction l generalizing seen with
  | nil => simp [SimCfg.pyDedupAux]
  | cons x xs ih =>
    unfold SimCfg.pyDedupAux
    split
    · exact (ih seen).trans (List.subset_cons_self x xs)
    · intro y hy
      rcases List.mem_cons.mp hy with rfl | hy'
      · exact List.mem_cons_self _ _
      · exact List.mem_cons_of_mem _ (ih (x :: seen) hy')

theorem pyDedupFirst_subset (l : List String) : SimCfg.pyDedupFirst l ⊆ l :=
  pyDedupAux_subset [] l

/-! Per-path leading-token and comment-check facts for the generated
command lines. -/

theorem ltk_material (r : String) :
    leadTok ("/scintillator/geom/material " ++ r) = "/scintillator/geom/material" := by
  rw [show ("/scintillator/geom/material " : String) =
    "/scintillator/geom/material" ++ " " from by decide]
  exact leadTok_litSp _ _ (by decide)

theorem ltk_scintX (g u : String) :
    leadTok ("/scintillator/geom/scintX " ++ g ++ u) = "/scintillator/geom/scintX" := by
  rw [show ("/scintillator/geom/scintX " : String) =
    "/scintillator/geom/scintX" ++ " " from by decide]
  exact leadTok_litSp2 _ _ _ (by decide)

theorem ltk_scintY (g u : String) :
    leadTok ("/scintillator/geom/scintY " ++ g ++ u) = "/scintillator/geom/scintY" := by
  rw [show ("/scintillator/geom/scintY " : String) =
    "/scintillator/geom/scintY" ++ " " from by decide]
  exact leadTok_litSp2 _ _ _ (by decide)

theorem ltk_scintZ (g u : String) :
    leadTok ("/scintillator/geom/scintZ " ++ g ++ u) = "/scintillator/geom/scintZ" := by
  rw [show ("/scintillator/geom/scintZ " : String) =
    "/scintillator/geom/scintZ" ++ " " from by decide]
  exact leadTok_litSp2 _ _ _ (by decide)

theorem ltk_posX (g u : String) :
    leadTok ("/scintillator/geom/posX " ++ g ++ u) = "/scintillator/geom/posX" := by
  rw [show ("/scintillator/geom/posX " : String) =
    "/scintillator/geom/posX" ++ " " from by decide]
  exact leadTok_litSp2 _ _ _ (by decide)

theorem ltk_posY (g u : String) :
    leadTok ("/scintillator/geom/posY " ++ g ++ u) = "/scintillator/geom/posY" := by
  rw [show ("/scintillator/geom/posY " : String) =
    "/scintillator/geom/posY" ++ " " from by decide]
  exact leadTok_litSp2 _ _ _ (by decide)

theorem ltk_posZ (g u : String) :
    leadTok ("/scintillator/geom/posZ " ++ g ++ u) = "/scintillator/geom/posZ" := by
  rw [show ("/scintillator/geom/posZ " : String) =
    "/scintillator/geom/posZ" ++ " " from by decide]
  exact leadTok_litSp2 _ _ _ (by decide)

theorem ltk_aperture (g u : String) :
    leadTok ("/scintillator/geom/apertureRadius " ++ g ++ u) =
      "/scintillator/geom/apertureRadius" := by
  rw [show ("/scintillator/geom/apertureRadius " : String) =
    "/scintillator/geom/apertureRadius" ++ " " from by decide]
  exact leadTok_litSp2 _ _ _ (by decide)

theorem ltk_sizeX (g u : String) :
    leadTok ("/optical_interface/geom/sizeX " ++ g ++ u) =
      "/optical_interface/geom/sizeX" := by
  rw [show ("/optical_interface/geom/sizeX " : String) =
    "/optical_interface/geom/sizeX" ++ " " from by decide]
  exact leadTok_litSp2 _ _ _ (by decide)

theorem ltk_sizeY (g u : String) :
    leadTok ("/optical_interface/geom/sizeY " ++ g ++ u) =
      "/optical_interface/geom/sizeY" := by
  rw [show ("/optical_interface/geom/sizeY " : String) =
    "/optical_interface/geom/sizeY" ++ " " from by decide]
  exact leadTok_litSp2 _ _ _ (by decide)

theorem ltk_thickness (g u : String) :
    leadTok ("/optical_interface/geom/thickness " ++ g ++ u) =
      "/optical_interface/geom/thickness" := by
  rw [show ("/optical_interface/geom/thickness " : String) =
    "/optical_interface/geom/thickness" ++ " " from by decide]
  exact leadTok_litSp2 _ _ _ (by decide)

theorem ltk_oposX (g u : String) :
    leadTok ("/optical_interface/geom/posX " ++ g ++ u) =
      "/optical_interface/geom/posX" := by
  rw [show ("/optical_interface/geom/posX " : String) =
    "/optical_interface/geom/posX" ++ " " from by decide]
  exact leadTok_litSp2 _ _ _ (by decide)

theorem ltk_oposY (g u : String) :
    leadTok ("/optical_interface/geom/posY " ++ g ++ u) =
      "/optical_interface/geom/posY" := by
  rw [show ("/optical_interface/geom/posY " : String) =
    "/optical_interface/geom/posY" ++ " " from by decide]
  exact leadTok_litSp2 _ _ _ (by decide)

theorem ltk_oposZ (g u : String) :
    leadTok ("/optical_interface/geom/posZ " ++ g ++ u) =
      "/optical_interface/geom/posZ" := by
  rw [show ("/optical_interface/geom/posZ " : String) =
    "/optical_interface/geom/posZ" ++ " " from by decide]
  exact leadTok_litSp2 _ _ _ (by decide)

/-- The generated command paths, concretely. -/
theorem patchKeys_eq (c : FlatConfig) :
    patchKeys c =
      ["/scintillator/geom/material", "/scintillator/geom/scintX",
       "/scintillator/geom/scintY", "/scintillator/geom/scintZ",
       "/scintillator/geom/posX", "/scintillator/geom/posY",
       "/scintillator/geom/posZ"] ++
      (match SimCfg.resolvedApertureRadiusMm c with
       | some _ => ["/scintillator/geom/apertureRadius"]
       | none => []) ++
      ["/optical_interface/geom/sizeX", "/optical_interface/geom/sizeY",
       "/optical_interface/geom/thickness", "/optical_interface/geom/posX",
       "/optical_interface/geom/posY", "/optical_interface/geom/posZ"] := by
  unfold patchKeys SimCfg.geometryCommandsF
  cases ha : SimCfg.resolvedApertureRadiusMm c <;>
    simp [ltk_material, ltk_scintX, ltk_scintY, ltk_scintZ, ltk_posX, ltk_posY,
      ltk_posZ, ltk_aperture, ltk_sizeX, ltk_sizeY, ltk_thickness, ltk_oposX,
      ltk_oposY, ltk_oposZ]

theorem init_notin_patchKeys (c : FlatConfig) :
    "/run/initialize" ∉ patchKeys c := by
  rw [patchKeys_eq]
  cases SimCfg.resolvedApertureRadiusMm c with
  | none => decide
  | some r =>
    show "/run/initialize" ∉
      (["/scintillator/geom/material", "/scintillator/geom/scintX",
        "/scintillator/geom/scintY", "/scintillator/geom/scintZ",
        "/scintillator/geom/posX", "/scintillator/geom/posY",
        "/scintillator/geom/posZ"] ++
       ["/scintillator/geom/apertureRadius"]) ++
      ["/optical_interface/geom/sizeX", "/optical_interface/geom/sizeY",
       "/optical_interface/geom/thickness", "/optical_interface/geom/posX",
       "/optical_interface/geom/posY", "/optical_interface/geom/posZ"]
    decide

theorem isBC_append_false (p r : String) (hp : p.data.headD ' ' = '/') :
    SimCfg.isBlankOrComment (p ++ r) = false := by
  apply isBC_false_of_slash
  rw [headD_append p r]
  · exact hp
  · intro he
    rw [List.isEmpty_iff] at he
    rw [he] at hp
    exact absurd hp (by decide)

theorem isBC_lit2 (p g u : String) (hp : p.data.headD ' ' = '/') :
    SimCfg.isBlankOrComment ((p ++ g) ++ u) = false := by
  rw [String.append_assoc]
  exact isBC_append_false p _ hp

/-- No generated geometry command is blank or a comment. -/
theorem geometryCommandsF_not_BC (c : FlatConfig) :
    ∀ cmd ∈ SimCfg.geometryCommandsF c, SimCfg.isBlankOrComment cmd = false := by
  intro cmd h
  unfold SimCfg.geometryCommandsF at h
  rcases ha : SimCfg.resolvedApertureRadiusMm c with - | r <;> rw [ha] at h <;>
    simp only [List.append_assoc, List.nil_append, List.cons_append, List.mem_cons,
      List.not_mem_nil, or_false] at h
  · rcases h with h | h | h | h | h | h | h | h | h | h | h | h | h <;> subst h <;>
      first
        | exact isBC_append_false _ _ (by decide)
        | exact isBC_lit2 _ _ _ (by decide)
  · rcases h with h | h | h | h | h | h | h | h | h | h | h | h | h | h <;> subst h <;>
      first
        | exact isBC_append_false _ _ (by decide)
        | exact isBC_lit2 _ _ _ (by decide)

/-- A line untouched by the patch is reproduced verbatim. -/
theorem replLine_untouched (c : FlatConfig) (l : String)
    (h : untouchedBy c l = true) :
    SimCfg.replLine (SimCfg.replacementsOf (SimCfg.geometryCommandsF c)) l = l := by
  unfold untouchedBy at h
  unfold SimCfg.replLine
  rw [Bool.or_eq_true] at h
  rcases h with h | h
  · rw [if_pos h]
  · have hnm : leadTok l ∉ patchKeys c := by simpa using h
    have hnone : SimCfg.lookupLast (SimCfg.replacementsOf (SimCfg.geometryCommandsF c))
        (leadTok l) = none := by
      cases hv : SimCfg.lookupLast (SimCfg.replacementsOf (SimCfg.geometryCommandsF c))
          (leadTok l) with
      | none => rfl
      | some v =>
        exact absurd ((lookupLast_isSome_iff _ _).mp (by rw [hv]; rfl)) hnm
    split
    · rfl
    · rw [hnone]

/-- A hit line is replaced by the dictionary command for its leading token. -/
theorem replLine_hit (c : FlatConfig) (l : String)
    (hbc : SimCfg.isBlankOrComment l = false)
    (hk : leadTok l ∈ patchKeys c) :
    ∃ v, SimCfg.lookupLast (SimCfg.replacementsOf (SimCfg.geometryCommandsF c))
          (leadTok l) = some v ∧
      SimCfg.replLine (SimCfg.replacementsOf (SimCfg.geometryCommandsF c)) l = v ∧
      v ∈ SimCfg.geometryCommandsF c ∧ leadTok v = leadTok l := by
  have hsome := (lookupLast_isSome_iff (SimCfg.geometryCommandsF c) (leadTok l)).mpr hk
  obtain ⟨v, hv⟩ := Option.isSome_iff_exists.mp hsome
  obtain ⟨hvm, hvk⟩ := lookupLast_mem _ _ _ hv
  refine ⟨v, hv, ?_, hvm, hvk⟩
  unfold SimCfg.replLine
  rw [if_neg (by simp [hbc]), hv]

/-- Replaced and inserted command lines are never "untouched". -/
theorem untouchedBy_cmd_false (c : FlatConfig) (v : String)
    (hvm : v ∈ SimCfg.geometryCommandsF c) : untouchedBy c v = false := by
  have hmem : leadTok v ∈ patchKeys c := List.mem_map_of_mem leadTok hvm
  have hd : decide (leadTok v ∈ patchKeys c) = true := decide_eq_true hmem
  unfold untouchedBy
  rw [geometryCommandsF_not_BC c v hvm, hd]
  rfl

/-- The frame part of C9: filtering out the generated-command lines, the
patched file equals the original file. -/
theorem replacePass_filter (c : FlatConfig) (lines : List String) :
    (replacePass c lines).filter (untouchedBy c) = lines.filter (untouchedBy c) := by
  induction lines with
  | nil => rfl
  | cons x xs ih =>
    unfold replacePass at ih ⊢
    rw [List.map_cons, List.filter_cons, List.filter_cons]
    by_cases hu : untouchedBy c x = true
    · rw [replLine_untouched c x hu, hu, if_pos rfl, if_pos rfl, ih]
    · rw [Bool.not_eq_true] at hu
      have hbc : SimCfg.isBlankOrComment x = false := by
        cases hb : SimCfg.isBlankOrComment x
        · rfl
        · exfalso
          have htr : untouchedBy c x = true := by
            unfold untouchedBy
            rw [hb]
            rfl
          rw [htr] at hu
          exact absurd hu (by decide)
      have hk : leadTok x ∈ patchKeys c := by
        cases hd : decide (leadTok x ∈ patchKeys c)
        · exfalso
          have htr : untouchedBy c x = true := by
            unfold untouchedBy
            rw [hbc, hd]
            rfl
          rw [htr] at hu
          exact absurd hu (by decide)
        · exact of_decide_eq_true hd
      obtain ⟨v, -, hrepl, hvm, -⟩ := replLine_hit c x hbc hk
      rw [hrepl, hu, untouchedBy_cmd_false c v hvm, ih,
        if_neg (by decide), if_neg (by decide)]

theorem missingCmds_untouched_false (c : FlatConfig) (lines : List String) :
    ∀ v ∈ missingCmds c lines, untouchedBy c v = false := by
  intro v hv
  unfold missingCmds at hv
  obtain ⟨k, hk, hkv⟩ := List.mem_filterMap.mp hv
  exact untouchedBy_cmd_false c v (lookupLast_mem _ _ _ hkv).1

theorem findIdx?_eq_none_of_all {p : String → Bool} (l : List String)
    (h : ∀ x ∈ l, p x = false) : l.findIdx? p = none := by
  induction l with
  | nil => rfl
  | cons x xs ih =>
    simp [List.findIdx?_cons, h x (by simp), List.findIdx?_succ,
      ih (fun y hy => h y (by simp [hy]))]

theorem findIdx?_append_first {p : String → Bool} (A : List String) (I : String)
    (B : List String) (hA : ∀ x ∈ A, p x = false) (hI : p I = true) :
    (A ++ I :: B).findIdx? p = some A.length := by
  induction A with
  | nil => simp [List.findIdx?_cons, hI]
  | cons x xs ih =>
    simp [List.cons_append, List.findIdx?_cons, hA x (by simp), List.findIdx?_succ,
      ih (fun y hy => hA y (by simp [hy]))]

/-- A line of the replacement pass never strips to `/run/initialize`. -/
theorem replLine_ne_init (c : FlatConfig) (l : String)
    (hl : pyStrip l ≠ "/run/initialize") :
    pyStrip (SimCfg.replLine (SimCfg.replacementsOf (SimCfg.geometryCommandsF c)) l) ≠
      "/run/initialize" := by
  unfold SimCfg.replLine
  split
  · exact hl
  · split
    · rename_i v hv
      obtain ⟨hvm, -⟩ := lookupLast_mem _ _ _ hv
      intro hc
      have h1 : leadTok v = "/run/initialize" := by
        rw [← leadTok_pyStrip, hc]
        exact leadTok_tokenStr _ (by decide)
      have hmem : "/run/initialize" ∈ patchKeys c := by
        rw [← h1]
        exact List.mem_map_of_mem leadTok hvm
      exact init_notin_patchKeys c hmem
    · exact hl

/-! ### C9 -/

/-- C9: the in-place patch (i) preserves, verbatim and in order, every line
that is blank, a comment, or led by a token that is not a generated command
path; (ii) when no line of the file strips to `/run/initialize`, appends the
missing generated commands at end of file after the replacement pass; (iii)
when the file splits as `A ++ [I] ++ B` with `I` the first
`/run/initialize` line, inserts the missing generated commands immediately
before `I`. -/
theorem c9_patch_frame_and_insertion (c : FlatConfig) (lines : List String) :
    ((SimCfg.applyGeometryToMacLines c lines).filter (untouchedBy c) =
        lines.filter (untouchedBy c)) ∧
    ((∀ l ∈ lines, pyStrip l ≠ "/run/initialize") →
      SimCfg.applyGeometryToMacLines c lines =
        replacePass c lines ++ missingCmds c lines) ∧
    (∀ A I B, lines = A ++ I :: B → pyStrip I = "/run/initialize" →
      (∀ l ∈ A, pyStrip l ≠ "/run/initialize") →
      SimCfg.applyGeometryToMacLines c lines =
        replacePass c A ++ missingCmds c lines ++ I :: replacePass c B) := by
  have happly : SimCfg.applyGeometryToMacLines c lines =
      (if (SimCfg.missingKeysOf c lines).isEmpty then replacePass c lines
       else
        (replacePass c lines).take (SimCfg.insertIdx c lines) ++ missingCmds c lines ++
          (replacePass c lines).drop (SimCfg.insertIdx c lines)) := rfl
  have hmdef : missingCmds c lines =
      (SimCfg.missingKeysOf c lines).filterMap
        (SimCfg.lookupLast (SimCfg.replacementsOf (SimCfg.geometryCommandsF c))) := rfl
  refine ⟨?_, ?_, ?_⟩
  · rw [happly]
    split
    · exact replacePass_filter c lines
    · have hfm : (missingCmds c lines).filter (untouchedBy c) = [] :=
        List.filter_eq_nil_iff.mpr
          (fun v hv => by rw [missingCmds_untouched_false c lines v hv]; decide)
      rw [List.filter_append, List.filter_append, hfm, List.append_nil,
        ← List.filter_append, List.take_append_drop]
      exact replacePass_filter c lines
  · intro hno
    have hall : ∀ x ∈ replacePass c lines,
        (pyStrip x == "/run/initialize") = false := by
      intro x hx
      unfold replacePass at hx
      obtain ⟨l, hl, rfl⟩ := List.mem_map.mp hx
      rw [beq_eq_false_iff_ne]
      exact replLine_ne_init c l (hno l hl)
    have hidx : SimCfg.insertIdx c lines = (replacePass c lines).length := by
      show ((replacePass c lines).findIdx?
          (fun l => pyStrip l == "/run/initialize")).getD
        (replacePass c lines).length = (replacePass c lines).length
      rw [findIdx?_eq_none_of_all _ hall]
      rfl
    rw [happly]
    split
    · rename_i hemp
      rw [hmdef, List.isEmpty_iff.mp hemp, List.filterMap_nil, List.append_nil]
    · rw [hidx, List.take_length, List.drop_length, List.append_nil]
  · intro A I B hsplit hI hA
    subst hsplit
    have hmapA : ∀ x ∈ replacePass c A, (pyStrip x == "/run/initialize") = false := by
      intro x hx
      unfold replacePass at hx
      obtain ⟨l, hl, rfl⟩ := List.mem_map.mp hx
      rw [beq_eq_false_iff_ne]
      exact replLine_ne_init c l (hA l hl)
    have hreplI : SimCfg.replLine
        (SimCfg.replacementsOf (SimCfg.geometryCommandsF c)) I = I := by
      apply replLine_untouched
      have hk : leadTok I = "/run/initialize" := by
        rw [← leadTok_pyStrip, hI]
        exact leadTok_tokenStr _ (by decide)
      have hd : decide ((leadTok I : String) ∈ patchKeys c) = false := by
        rw [hk]
        exact decide_eq_false (init_notin_patchKeys c)
      unfold untouchedBy
      rw [hd]
      simp
    have hpass : replacePass c (A ++ I :: B) =
        replacePass c A ++ I :: replacePass c B := by
      unfold replacePass
      rw [List.map_append, List.map_cons, hreplI]
    have hpI : (pyStrip I == "/run/initialize") = true := by simp [hI]
    have hidx : SimCfg.insertIdx c (A ++ I :: B) = (replacePass c A).length := by
      show ((replacePass c (A ++ I :: B)).findIdx?
          (fun l => pyStrip l == "/run/initialize")).getD
        (replacePass c (A ++ I :: B)).length = (replacePass c A).length
      rw [hpass, findIdx?_append_first (replacePass c A) I (replacePass c B) hmapA hpI]
      rfl
    rw [happly]
    split
    · rename_i hemp
      rw [hmdef, List.isEmpty_iff.mp hemp, List.filterMap_nil, List.append_nil, hpass]
    · rw [hidx, hpass, List.take_left, List.drop_left]

/-- Witness for C9: a four-line file with a comment, an unrelated command, the
init line and a trailing command; the patch inserts the missing generated
commands right before the init line. -/
theorem c9_patch_frame_and_insertion_witness :
    SimCfg.applyGeometryToMacLines flatBaseConfig
        ["# comment", "/control/verbose 1", "/run/initialize", "/run/beamOn 10"] =
      replacePass flatBaseConfig ["# comment", "/control/verbose 1"] ++
        missingCmds flatBaseConfig
          ["# comment", "/control/verbose 1", "/run/initialize", "/run/beamOn 10"] ++
        "/run/initialize" :: replacePass flatBaseConfig ["/run/beamOn 10"] :=
  (c9_patch_frame_and_insertion flatBaseConfig
      ["# comment", "/control/verbose 1", "/run/initialize", "/run/beamOn 10"]).2.2
    ["# comment", "/control/verbose 1"] "/run/initialize" ["/run/beamOn 10"]
    rfl (by decide) (by decide)

/-! ### C10 -/

theorem applyGeometry_eq (c : FlatConfig) (lines : List String) :
    SimCfg.applyGeometryToMacLines c lines =
      if (SimCfg.missingKeysOf c lines).isEmpty then replacePass c lines
      else
        (replacePass c lines).take (SimCfg.insertIdx c lines) ++ missingCmds c lines ++
          (replacePass c lines).drop (SimCfg.insertIdx c lines) := rfl

theorem out_superset (c : FlatConfig) (lines : List String) :
    ∀ x ∈ replacePass c lines, x ∈ SimCfg.applyGeometryToMacLines c lines := by
  intro x hx
  rw [applyGeometry_eq]
  split
  · exact hx
  · rw [List.mem_append, List.mem_append]
    rcases List.mem_append.mp
        ((List.take_append_drop (SimCfg.insertIdx c lines)
          (replacePass c lines)).symm ▸ hx) with h | h
    · exact Or.inl (Or.inl h)
    · exact Or.inr h

theorem missing_subset_out (c : FlatConfig) (lines : List String)
    (hne : (SimCfg.missingKeysOf c lines).isEmpty = false) :
    ∀ x ∈ missingCmds c lines, x ∈ SimCfg.applyGeometryToMacLines c lines := by
  intro x hx
  rw [applyGeometry_eq, if_neg (by rw [hne]; decide)]
  rw [List.mem_append, List.mem_append]
  exact Or.inl (Or.inr hx)

theorem out_mem_cases (c : FlatConfig) (lines : List String) :
    ∀ x ∈ SimCfg.applyGeometryToMacLines c lines,
      x ∈ replacePass c lines ∨ x ∈ missingCmds c lines := by
  intro x hx
  rw [applyGeometry_eq] at hx
  split at hx
  · exact Or.inl hx
  · rw [List.mem_append, List.mem_append] at hx
    rcases hx with (hx | hx) | hx
    · exact Or.inl (List.take_subset _ _ hx)
    · exact Or.inr hx
    · exact Or.inl (List.drop_subset _ _ hx)

/-- One replacement-pass line is a fixed point of the replacement pass. -/
theorem replLine_idem (c : FlatConfig) (l : String) :
    SimCfg.replLine (SimCfg.replacementsOf (SimCfg.geometryCommandsF c))
      (SimCfg.replLine (SimCfg.replacementsOf (SimCfg.geometryCommandsF c)) l) =
      SimCfg.replLine (SimCfg.replacementsOf (SimCfg.geometryCommandsF c)) l := by
  by_cases hbc : SimCfg.isBlankOrComment l = true
  · have h1 : SimCfg.replLine (SimCfg.replacementsOf (SimCfg.geometryCommandsF c)) l = l := by
      unfold SimCfg.replLine
      rw [if_pos hbc]
    rw [h1]
    exact h1
  · rw [Bool.not_eq_true] at hbc
    cases hv : SimCfg.lookupLast (SimCfg.replacementsOf (SimCfg.geometryCommandsF c))
        (leadTok l) with
    | none =>
      have h1 : SimCfg.replLine (SimCfg.replacementsOf (SimCfg.geometryCommandsF c)) l = l := by
        unfold SimCfg.replLine
        rw [if_neg (by simp [hbc]), hv]
      rw [h1]
      exact h1
    | some v =>
      obtain ⟨hvm, hvk⟩ := lookupLast_mem _ _ _ hv
      have h1 : SimCfg.replLine (SimCfg.replacementsOf (SimCfg.geometryCommandsF c)) l = v := by
        unfold SimCfg.replLine
        rw [if_neg (by simp [hbc]), hv]
      have h2 : SimCfg.replLine (SimCfg.replacementsOf (SimCfg.geometryCommandsF c)) v = v := by
        unfold SimCfg.replLine
        rw [if_neg (by simp [geometryCommandsF_not_BC c v hvm]), hvk, hv]
      rw [h1, h2]

/-- Every line of the patched file is a fixed point of the replacement pass. -/
theorem out_fixed (c : FlatConfig) (lines : List String) :
    ∀ x ∈ SimCfg.applyGeometryToMacLines c lines,
      SimCfg.replLine (SimCfg.replacementsOf (SimCfg.geometryCommandsF c)) x = x := by
  intro x hx
  rcases out_mem_cases c lines x hx with hx' | hx'
  · unfold replacePass at hx'
    obtain ⟨l, hl, rfl⟩ := List.mem_map.mp hx'
    exact replLine_idem c l
  · rw [show missingCmds c lines = (SimCfg.missingKeysOf c lines).filterMap
        (SimCfg.lookupLast (SimCfg.replacementsOf (SimCfg.geometryCommandsF c)))
        from rfl] at hx'
    obtain ⟨k, hk, hkv⟩ := List.mem_filterMap.mp hx'
    obtain ⟨hvm, hvk⟩ := lookupLast_mem _ _ _ hkv
    unfold SimCfg.replLine
    rw [if_neg (by simp [geometryCommandsF_not_BC c x hvm]), hvk, hkv]

theorem mapSelf (f : String → String) (l : List String) (h : ∀ x ∈ l, f x = x) :
    l.map f = l := by
  induction l with
  | nil => rfl
  | cons x xs ih =>
    rw [List.map_cons, h x (by simp), ih (fun y hy => h y (by simp [hy]))]

/-- After one patch, every generated command path is hit by some line of the
output. -/
theorem out_all_keys_hit (c : FlatConfig) (lines : List String) :
    ∀ p ∈ SimCfg.pyDedupFirst ((SimCfg.geometryCommandsF c).map leadTok),
      ∃ x ∈ SimCfg.applyGeometryToMacLines c lines, SimCfg.lineHits x p = true := by
  intro p hp
  have hpk : p ∈ patchKeys c := pyDedupFirst_subset _ hp
  have hsome := (lookupLast_isSome_iff (SimCfg.geometryCommandsF c) p).mpr hpk
  obtain ⟨v, hv⟩ := Option.isSome_iff_exists.mp hsome
  obtain ⟨hvm, hvk⟩ := lookupLast_mem _ _ _ hv
  have hhv : SimCfg.lineHits v p = true := by
    unfold SimCfg.lineHits
    rw [geometryCommandsF_not_BC c v hvm, hvk]
    simp
  by_cases hmem : p ∈ SimCfg.missingKeysOf c lines
  · have hvmem : v ∈ missingCmds c lines := by
      rw [show missingCmds c lines = (SimCfg.missingKeysOf c lines).filterMap
          (SimCfg.lookupLast (SimCfg.replacementsOf (SimCfg.geometryCommandsF c)))
          from rfl]
      exact List.mem_filterMap.mpr ⟨p, hmem, hv⟩
    have hne : (SimCfg.missingKeysOf c lines).isEmpty = false := by
      cases he : (SimCfg.missingKeysOf c lines).isEmpty
      · rfl
      · rw [List.isEmpty_iff.mp he] at hmem
        simp at hmem
    exact ⟨v, missing_subset_out c lines hne v hvmem, hhv⟩
  · have hpred : (lines.all (fun l => !(SimCfg.lineHits l p))) = false := by
      cases hq : lines.all (fun l => !(SimCfg.lineHits l p))
      · rfl
      · exact absurd (List.mem_filter.mpr ⟨hp, hq⟩) hmem
    obtain ⟨l, hl, hql⟩ := List.all_eq_false.mp hpred
    have hlh : SimCfg.lineHits l p = true := by simpa using hql
    have hparts : SimCfg.isBlankOrComment l = false ∧ leadTok l = p := by
      have h' := hlh
      unfold SimCfg.lineHits at h'
      rw [Bool.and_eq_true] at h'
      exact ⟨by simpa using h'.1, by simpa using h'.2⟩
    have hx : SimCfg.replLine (SimCfg.replacementsOf (SimCfg.geometryCommandsF c)) l = v := by
      unfold SimCfg.replLine
      rw [if_neg (by simp [hparts.1]), hparts.2, hv]
    have hmem2 : SimCfg.replLine (SimCfg.replacementsOf (SimCfg.geometryCommandsF c)) l ∈
        replacePass c lines := by
      unfold replacePass
      exact List.mem_map_of_mem _ hl
    exact ⟨v, out_superset c lines _ (hx ▸ hmem2), hhv⟩

/-- After one patch, no generated command path is missing from the output. -/
theorem out_missing_nil (c : FlatConfig) (lines : List String) :
    SimCfg.missingKeysOf c (SimCfg.applyGeometryToMacLines c lines) = [] := by
  unfold SimCfg.missingKeysOf
  rw [List.filter_eq_nil_iff]
  intro p hp hall
  obtain ⟨x, hx, hhit⟩ := out_all_keys_hit c lines p hp
  have hfx := List.all_eq_true.mp hall x hx
  rw [hhit] at hfx
  simp at hfx

/-- C10: the in-place patch is idempotent — for every configuration and file
content, applying `apply_geometry_to_macro` a second time with the same
configuration reproduces the output of the first application exactly: after
the first pass every generated command path is present, so the second pass
replaces each generated line by an identical line and inserts nothing. -/
theorem c10_patch_idempotent (c : FlatConfig) (lines : List String) :
    SimCfg.applyGeometryToMacLines c (SimCfg.applyGeometryToMacLines c lines) =
      SimCfg.applyGeometryToMacLines c lines := by
  rw [applyGeometry_eq c (SimCfg.applyGeometryToMacLines c lines),
    out_missing_nil c lines, if_pos (by decide)]
  show (SimCfg.applyGeometryToMacLines c lines).map
      (SimCfg.replLine (SimCfg.replacementsOf (SimCfg.geometryCommandsF c))) =
    SimCfg.applyGeometryToMacLines c lines
  exact mapSelf _ _ (out_fixed c lines)

/-! ### C7 -/

unseal Rat.mul Rat.add Rat.sub Rat.inv Rat.ofScientific in
/-- C7 counterexample: a configuration with the unsupported rule `"bogus"`
but a non-circular detector shape — command generation does not raise and
returns the full command list (the rule is only consulted when the detector
shape is circular). -/
theorem c7_counterexample :
    ConfigIo.stripSpaces0 c7CexConfig.diameter_rule ∉ supportedRuleStrings ∧
    ConfigIo.geometryCommands c7CexConfig = .ok c7CexCmds ∧
    ConfigIo.macCommands c7CexConfig false false = .ok c7CexCmds := by
  refine ⟨by decide, by decide, by decide⟩

/-- C7 (amended): for a configuration with a circular detector shape whose
space-stripped rule string is unsupported, command generation fails before
returning anything — `geometry_commands` and `macro_commands` yield an error
and no (partial) command list. -/
theorem c7_unsupported_rule_no_commands (c : HConfig)
    (hshape : pyLower (pyStrip c.det_shape) = "circle")
    (hrule : ConfigIo.stripSpaces0 c.diameter_rule ∉ supportedRuleStrings) :
    ∃ e, ConfigIo.geometryCommands c = .error e ∧
      ConfigIo.macCommands c true true = .error e := by
  obtain ⟨e, he⟩ := resolver_error_of_not_mem c hrule
  refine ⟨e, ?_, ?_⟩
  · unfold ConfigIo.geometryCommands
    rw [if_pos hshape, he]
  · unfold ConfigIo.macCommands ConfigIo.geometryCommands
    rw [if_pos hshape, he]

unseal Rat.mul Rat.add Rat.sub Rat.inv Rat.ofScientific in
/-- Witness for the amended C7 at a concrete circular-shape configuration. -/
theorem c7_unsupported_rule_no_commands_witness :
    ∃ e, ConfigIo.geometryCommands c7WitnessConfig = .error e ∧
      ConfigIo.macCommands c7WitnessConfig true true = .error e :=
  c7_unsupported_rule_no_commands c7WitnessConfig (by decide) (by decide)

/-! ### C1 -/

/-- In the `Except` monad, `pure` is `Except.ok`. -/
theorem except_pure_ok (st : ConfigIo.MacState) :
    (pure st : Except String ConfigIo.MacState) = Except.ok st := rfl

unseal Rat.mul Rat.add Rat.sub Rat.inv Rat.ofScientific in
/-- The decoded default optical-interface thickness passes the decoder's
closeness check against the default (the default is exactly representable in
six significant digits). -/
theorem thickness_close :
    (!(isClose9 (round6 ConfigIo.defaultOpticalInterfaceThicknessMm)
        ConfigIo.defaultOpticalInterfaceThicknessMm)) = false := by decide

unseal Rat.mul Rat.add Rat.sub Rat.inv Rat.ofScientific in
/-- C1 counterexample: the literal claim `encode (decode (encode c)) =
encode c` fails for `c1CexConfig`, whose run identifier `"my run"` contains a
space.  Encoding emits `/output/runname my run`; the decoder's `shlex`
tokenization clips the identifier to `my`, and re-encoding differs on that
line. -/
theorem c1_counterexample :
    ConfigIo.macCommands c1CexConfig true true = .ok c1CexEncoded ∧
    ConfigIo.fromMacLines c1CexEncoded c1CexConfig = .ok c1CexDecoded ∧
    ConfigIo.macCommands c1CexDecoded true true = .ok c1CexReEncoded ∧
    c1CexReEncoded ≠ c1CexEncoded :=
  ⟨by decide, by decide, by decide, by decide⟩

/-- C1 (amended): the round-trip contract `encode (decode (encode c,
template := c)) = encode c` holds for every configuration whose four
free-form string fields entering the macro — the normalized output-format
token, the resolved data directory, the run identifier and the material
name — are single non-blank whitespace-free tokens (`shlex` fragments or
drops them otherwise), whose emitted aperture diameter does not fall in the
decoder's `1e-9` closeness sliver strictly above the emitted entrance
diameter (`apertureRoundTripSafe`), and whose decode succeeds. -/
theorem c1_round_trip (c c' : HConfig) (L : List String)
    (h1 : tokenStr (ConfigIo.normalizeOutputFormatToken c.output_format))
    (h2 : tokenStr (ConfigIo.resolveDataDirectory c))
    (h3 : tokenStr c.simulation_run_id)
    (h4 : tokenStr c.material_name)
    (h5 : apertureRoundTripSafe c = true)
    (henc : ConfigIo.macCommands c true true = .ok L)
    (hdec : ConfigIo.fromMacLines L c = .ok c') :
    ConfigIo.macCommands c' true true = .ok L := by
  cases hg : ConfigIo.geometryCommands c with
  | error msg =>
    unfold ConfigIo.macCommands at henc
    rw [hg] at henc
    exact absurd henc (by simp)
  | ok g =>
    unfold ConfigIo.macCommands at henc
    rw [hg] at henc
    dsimp only at henc
    rw [if_pos rfl, if_pos rfl] at henc
    simp only [Except.ok.injEq] at henc
    subst henc
    by_cases hshape : pyLower (pyStrip c.det_shape) = "circle"
    · -- circular detector: the aperture command is emitted
      cases hd : ConfigIo.resolveSensitiveDetectorDiameterMm c with
      | error msg =>
        have hgU := hg
        unfold ConfigIo.geometryCommands at hgU
        rw [if_pos hshape, hd] at hgU
        exact absurd hgU (by simp)
      | ok d =>
        have hgU := hg
        unfold ConfigIo.geometryCommands at hgU
        rw [if_pos hshape, hd] at hgU
        dsimp only at hgU
        simp only [Except.ok.injEq] at hgU
        subst hgU
        unfold apertureRoundTripSafe at h5
        rw [if_pos hshape, hd] at h5
        dsimp only at h5
        simp only [Bool.or_eq_true, decide_eq_true_eq] at h5
        unfold ConfigIo.fromMacLines at hdec
        dsimp only at hdec
        unfold ConfigIo.outputCommands at hdec
        simp only [List.append_assoc, List.cons_append, List.nil_append] at hdec
        rw [foldlM_step _ _ _ _ _ (step_fmt _ _ h1),
            foldlM_step _ _ _ _ _ (step_path _ _ h2),
            foldlM_step _ _ _ _ _ (step_filename _),
            foldlM_step _ _ _ _ _ (step_runname _ _ h3),
            foldlM_step _ _ _ _ _ (step_material _ _ h4),
            foldlM_step _ _ _ _ _ (step_scintX _ _),
            foldlM_step _ _ _ _ _ (step_scintY _ _),
            foldlM_step _ _ _ _ _ (step_scintZ _ _),
            foldlM_step _ _ _ _ _ (step_posX _ _),
            foldlM_step _ _ _ _ _ (step_posY _ _),
            foldlM_step _ _ _ _ _ (step_posZ _ _),
            foldlM_step _ _ _ _ _ (step_aperture _ _),
            foldlM_step _ _ _ _ _ (step_sizeX _ _),
            foldlM_step _ _ _ _ _ (step_sizeY _ _),
            foldlM_step _ _ _ _ _ (step_thickness _ _),
            foldlM_step _ _ _ _ _ (step_oposX _ _),
            foldlM_step _ _ _ _ _ (step_oposY _ _),
            foldlM_step _ _ _ _ _ (step_oposZ _ _),
            foldlM_step _ _ _ _ _ (step_init _),
            List.foldlM_nil, except_pure_ok] at hdec
        dsimp only [ConfigIo.setFmt, ConfigIo.setDir, ConfigIo.setRunId,
          ConfigIo.setMaterial, ConfigIo.setScintX, ConfigIo.setScintY,
          ConfigIo.setScintZ, ConfigIo.setScintPosX, ConfigIo.setScintPosY,
          ConfigIo.setScintPosZ, ConfigIo.setAperture, ConfigIo.setSizeX,
          ConfigIo.setSizeY, ConfigIo.setThickness, ConfigIo.setDetPosX,
          ConfigIo.setDetPosY, ConfigIo.setDetPosZ] at hdec
        unfold ConfigIo.macFinish at hdec
        dsimp only at hdec
        rw [thickness_close, if_neg (by decide)] at hdec
        unfold ConfigIo.macFinishSizes at hdec
        dsimp only at hdec
        rw [isClose9_self, Bool.not_true, if_neg (by decide)] at hdec
        unfold ConfigIo.macFinishAperture at hdec
        dsimp only at hdec
        by_cases hbr : 2 * round6 ((1/2) * d) ≤
            round6 c.entrance_diameter + 1/1000000000
        · -- reconstruction picks the `min` rule
          rw [if_pos hbr] at hdec
          split at hdec
          · simp only [Except.ok.injEq] at hdec
            have ffmt : c'.output_format =
                pyLower (pyStrip (ConfigIo.normalizeOutputFormatToken c.output_format)) := by
              rw [← hdec]
            have fdir : c'.data_directory = ConfigIo.resolveDataDirectory c := by
              rw [← hdec]
            have frun : c'.simulation_run_id = c.simulation_run_id := by
              rw [← hdec]
            have fmat : c'.material_name = c.material_name := by
              rw [← hdec]
            have fsx : c'.scint_x_mm = round6 c.scint_x_mm := by rw [← hdec]
            have fsy : c'.scint_y_mm = round6 c.scint_y_mm := by rw [← hdec]
            have fsz : c'.scint_z_mm = round6 c.scint_z_mm := by rw [← hdec]
            have fpx : c'.scint_pos_x_mm = round6 c.scint_pos_x_mm := by rw [← hdec]
            have fpy : c'.scint_pos_y_mm = round6 c.scint_pos_y_mm := by rw [← hdec]
            have fpz : c'.scint_pos_z_mm = round6 c.scint_pos_z_mm := by rw [← hdec]
            have fent : c'.entrance_diameter = round6 c.entrance_diameter := by
              rw [← hdec]
            have fsens : c'.sensor_max_width = 2 * round6 ((1/2) * d) := by
              rw [← hdec]
            have fshape : c'.det_shape = "circle" := by rw [← hdec]
            have frule : c'.diameter_rule = ConfigIo.ruleMinStr := by rw [← hdec]
            have fdx : c'.det_pos_x_mm = round6 c.det_pos_x_mm := by rw [← hdec]
            have fdy : c'.det_pos_y_mm = round6 c.det_pos_y_mm := by rw [← hdec]
            have fdz : c'.det_pos_z_mm = round6 c.det_pos_z_mm := by rw [← hdec]
            have hdes : 2 * round6 ((1/2) * d) ≤ round6 c.entrance_diameter := by
              rcases h5 with h | h
              · exact h
              · exact absurd hbr (not_le.mpr h)
            have hres2 : ConfigIo.resolveSensitiveDetectorDiameterMm c' =
                .ok (2 * round6 ((1/2) * d)) := by
              unfold ConfigIo.resolveSensitiveDetectorDiameterMm
              rw [frule, if_pos (by decide), fent, fsens, min_eq_right hdes]
            have hrd : ConfigIo.resolveDataDirectory c' =
                ConfigIo.resolveDataDirectory c := by
              show ConfigIo.resolvePathM c'.data_directory (ConfigIo.workingDirRes c') =
                ConfigIo.resolveDataDirectory c
              rw [fdir]
              exact resolvePathM_abs _ _ (isAbs_resolveData c)
            have hout2 : ConfigIo.outputCommands c' = ConfigIo.outputCommands c := by
              unfold ConfigIo.outputCommands
              rw [ffmt, normTok_idem, frun, hrd]
            have hcircT : pyLower (pyStrip c'.det_shape) = "circle" := by
              rw [fshape]
              decide
            have hgc : ConfigIo.geometryCommands c' = ConfigIo.geometryCommands c := by
              unfold ConfigIo.geometryCommands
              rw [if_pos hcircT, if_pos hshape, hres2, hd]
              dsimp only
              rw [fmat, fsx, fsy, fsz, fpx, fpy, fpz, fent, fdx, fdy, fdz,
                show (1/2 : ℚ) * (2 * round6 ((1/2) * d)) = round6 ((1/2) * d) from
                  by ring]
              simp only [gfmt_round6]
            unfold ConfigIo.macCommands
            rw [hgc, hg]
            dsimp only
            rw [if_pos rfl, if_pos rfl, hout2]
          · exact absurd hdec (by simp)
        · -- reconstruction falls back to the `sensorMaxWidth` rule
          rw [if_neg hbr] at hdec
          split at hdec
          · simp only [Except.ok.injEq] at hdec
            have ffmt : c'.output_format =
                pyLower (pyStrip (ConfigIo.normalizeOutputFormatToken c.output_format)) := by
              rw [← hdec]
            have fdir : c'.data_directory = ConfigIo.resolveDataDirectory c := by
              rw [← hdec]
            have frun : c'.simulation_run_id = c.simulation_run_id := by
              rw [← hdec]
            have fmat : c'.material_name = c.material_name := by
              rw [← hdec]
            have fsx : c'.scint_x_mm = round6 c.scint_x_mm := by rw [← hdec]
            have fsy : c'.scint_y_mm = round6 c.scint_y_mm := by rw [← hdec]
            have fsz : c'.scint_z_mm = round6 c.scint_z_mm := by rw [← hdec]
            have fpx : c'.scint_pos_x_mm = round6 c.scint_pos_x_mm := by rw [← hdec]
            have fpy : c'.scint_pos_y_mm = round6 c.scint_pos_y_mm := by rw [← hdec]
            have fpz : c'.scint_pos_z_mm = round6 c.scint_pos_z_mm := by rw [← hdec]
            have fent : c'.entrance_diameter = round6 c.entrance_diameter := by
              rw [← hdec]
            have fsens : c'.sensor_max_width = 2 * round6 ((1/2) * d) := by
              rw [← hdec]
            have fshape : c'.det_shape = "circle" := by rw [← hdec]
            have frule : c'.diameter_rule = "sensorMaxWidth" := by rw [← hdec]
            have fdx : c'.det_pos_x_mm = round6 c.det_pos_x_mm := by rw [← hdec]
            have fdy : c'.det_pos_y_mm = round6 c.det_pos_y_mm := by rw [← hdec]
            have fdz : c'.det_pos_z_mm = round6 c.det_pos_z_mm := by rw [← hdec]
            have hres2 : ConfigIo.resolveSensitiveDetectorDiameterMm c' =
                .ok (2 * round6 ((1/2) * d)) := by
              unfold ConfigIo.resolveSensitiveDetectorDiameterMm
              rw [frule, if_neg (by decide), if_neg (by decide), if_pos (by decide),
                fsens]
            have hrd : ConfigIo.resolveDataDirectory c' =
                ConfigIo.resolveDataDirectory c := by
              show ConfigIo.resolvePathM c'.data_directory (ConfigIo.workingDirRes c') =
                ConfigIo.resolveDataDirectory c
              rw [fdir]
              exact resolvePathM_abs _ _ (isAbs_resolveData c)
            have hout2 : ConfigIo.outputCommands c' = ConfigIo.outputCommands c := by
              unfold ConfigIo.outputCommands
              rw [ffmt, normTok_idem, frun, hrd]
            have hcircT : pyLower (pyStrip c'.det_shape) = "circle" := by
              rw [fshape]
              decide
            have hgc : ConfigIo.geometryCommands c' = ConfigIo.geometryCommands c := by
              unfold ConfigIo.geometryCommands
              rw [if_pos hcircT, if_pos hshape, hres2, hd]
              dsimp only
              rw [fmat, fsx, fsy, fsz, fpx, fpy, fpz, fent, fdx, fdy, fdz,
                show (1/2 : ℚ) * (2 * round6 ((1/2) * d)) = round6 ((1/2) * d) from
                  by ring]
              simp only [gfmt_round6]
            unfold ConfigIo.macCommands
            rw [hgc, hg]
            dsimp only
            rw [if_pos rfl, if_pos rfl, hout2]
          · exact absurd hdec (by simp)
    · -- non-circular detector: no aperture command
      have hgU := hg
      unfold ConfigIo.geometryCommands at hgU
      rw [if_neg hshape] at hgU
      simp only [Except.ok.injEq] at hgU
      subst hgU
      unfold ConfigIo.fromMacLines at hdec
      dsimp only at hdec
      unfold ConfigIo.outputCommands at hdec
      simp only [List.append_assoc, List.cons_append, List.nil_append] at hdec
      rw [foldlM_step _ _ _ _ _ (step_fmt _ _ h1),
          foldlM_step _ _ _ _ _ (step_path _ _ h2),
          foldlM_step _ _ _ _ _ (step_filename _),
          foldlM_step _ _ _ _ _ (step_runname _ _ h3),
          foldlM_step _ _ _ _ _ (step_material _ _ h4),
          foldlM_step _ _ _ _ _ (step_scintX _ _),
          foldlM_step _ _ _ _ _ (step_scintY _ _),
          foldlM_step _ _ _ _ _ (step_scintZ _ _),
          foldlM_step _ _ _ _ _ (step_posX _ _),
          foldlM_step _ _ _ _ _ (step_posY _ _),
          foldlM_step _ _ _ _ _ (step_posZ _ _),
          foldlM_step _ _ _ _ _ (step_sizeX _ _),
          foldlM_step _ _ _ _ _ (step_sizeY _ _),
          foldlM_step _ _ _ _ _ (step_thickness _ _),
          foldlM_step _ _ _ _ _ (step_oposX _ _),
          foldlM_step _ _ _ _ _ (step_oposY _ _),
          foldlM_step _ _ _ _ _ (step_oposZ _ _),
          foldlM_step _ _ _ _ _ (step_init _),
          List.foldlM_nil, except_pure_ok] at hdec
      dsimp only [ConfigIo.setFmt, ConfigIo.setDir, ConfigIo.setRunId,
        ConfigIo.setMaterial, ConfigIo.setScintX, ConfigIo.setScintY,
        ConfigIo.setScintZ, ConfigIo.setScintPosX, ConfigIo.setScintPosY,
        ConfigIo.setScintPosZ, ConfigIo.setSizeX, ConfigIo.setSizeY,
        ConfigIo.setThickness, ConfigIo.setDetPosX, ConfigIo.setDetPosY,
        ConfigIo.setDetPosZ] at hdec
      unfold ConfigIo.macFinish at hdec
      dsimp only at hdec
      rw [thickness_close, if_neg (by decide)] at hdec
      unfold ConfigIo.macFinishSizes at hdec
      dsimp only at hdec
      rw [isClose9_self, Bool.not_true, if_neg (by decide)] at hdec
      unfold ConfigIo.macFinishAperture at hdec
      dsimp only at hdec
      split at hdec
      · simp only [Except.ok.injEq] at hdec
        have ffmt : c'.output_format =
            pyLower (pyStrip (ConfigIo.normalizeOutputFormatToken c.output_format)) := by
          rw [← hdec]
        have fdir : c'.data_directory = ConfigIo.resolveDataDirectory c := by
          rw [← hdec]
        have frun : c'.simulation_run_id = c.simulation_run_id := by
          rw [← hdec]
        have fmat : c'.material_name = c.material_name := by
          rw [← hdec]
        have fsx : c'.scint_x_mm = round6 c.scint_x_mm := by rw [← hdec]
        have fsy : c'.scint_y_mm = round6 c.scint_y_mm := by rw [← hdec]
        have fsz : c'.scint_z_mm = round6 c.scint_z_mm := by rw [← hdec]
        have fpx : c'.scint_pos_x_mm = round6 c.scint_pos_x_mm := by rw [← hdec]
        have fpy : c'.scint_pos_y_mm = round6 c.scint_pos_y_mm := by rw [← hdec]
        have fpz : c'.scint_pos_z_mm = round6 c.scint_pos_z_mm := by rw [← hdec]
        have fent : c'.entrance_diameter = round6 c.entrance_diameter := by
          rw [← hdec]
        have fshape : c'.det_shape = "none" := by rw [← hdec]
        have fdx : c'.det_pos_x_mm = round6 c.det_pos_x_mm := by rw [← hdec]
        have fdy : c'.det_pos_y_mm = round6 c.det_pos_y_mm := by rw [← hdec]
        have fdz : c'.det_pos_z_mm = round6 c.det_pos_z_mm := by rw [← hdec]
        have hrd : ConfigIo.resolveDataDirectory c' =
            ConfigIo.resolveDataDirectory c := by
          show ConfigIo.resolvePathM c'.data_directory (ConfigIo.workingDirRes c') =
            ConfigIo.resolveDataDirectory c
          rw [fdir]
          exact resolvePathM_abs _ _ (isAbs_resolveData c)
        have hout2 : ConfigIo.outputCommands c' = ConfigIo.outputCommands c := by
          unfold ConfigIo.outputCommands
          rw [ffmt, normTok_idem, frun, hrd]
        have hcircF : ¬(pyLower (pyStrip c'.det_shape) = "circle") := by
          rw [fshape]
          decide
        have hgc : ConfigIo.geometryCommands c' = ConfigIo.geometryCommands c := by
          unfold ConfigIo.geometryCommands
          rw [if_neg hcircF, if_neg hshape,
            fmat, fsx, fsy, fsz, fpx, fpy, fpz, fent, fdx, fdy, fdz]
          simp only [gfmt_round6]
        unfold ConfigIo.macCommands
        rw [hgc, hg]
        dsimp only
        rw [if_pos rfl, if_pos rfl, hout2]
      · exact absurd hdec (by simp)

unseal Rat.mul Rat.add Rat.sub Rat.inv Rat.ofScientific in
/-- Witness for the amended C1 at the literal unit-test configuration: all
hypotheses hold, and the re-encoded command list equals the encoded one. -/
theorem c1_round_trip_witness :
    ConfigIo.macCommands c1WitnessDecoded true true = .ok c1WitnessEncoded :=
  c1_round_trip c2ScenarioConfig c1WitnessDecoded c1WitnessEncoded
    (by decide) (by decide) (by decide) (by decide) (by decide) (by decide)
    (by decide)

end G4emi
